import Mathlib

/-!
# Fund administration contract: embedding and verified properties

A shallow embedding of `admin-contract.go`.  The contract runs against three
collaborators reached through the transaction context: the key/value world
state (`GetState`, `PutState`), the rich-query service (`GetQueryResult`) and
the identifier generator (`uuid.NewV4`).  They are modelled as follows.

* Go strings are Lean strings (well-formed Unicode text), which keys and
  identifiers drawn are.  Where a claim is about any string a caller may pass,
  the operation is given on Go strings (`GoString`), whose stray bytes
  `json.Marshal` writes as U+FFFD.
* Go `int` is the 64-bit two's complement integer of the targets the contract
  is built for: values are `Int`, arithmetic wraps through `wrapInt`.
* A stored byte string is either the text of a JSON value (`Bytes.text`) or a
  byte string that is not JSON at all (`Bytes.malformed`).
* `json.Marshal` and `json.Unmarshal` follow `encoding/json`: object members
  are matched to struct fields by exact name, then by case folding; `null`
  leaves a field as it is; a value of the wrong JSON kind is an error.
  On the record types of the contract `json.Marshal` cannot fail, so the
  branch that returns its error is never taken and is left out.
* Every mutation returns the list of `PutState` calls it issued together
  with the error it returned (`none` for `nil`).  A lookup returns its result;
  its body is given a second time with every call on the stub recorded.
* The query service is a parameter.  Where a claim is about what a selector
  matches, the selector is the list of equality predicates whose text the
  lookup submits (`selectorText`), evaluated on the members of a document.
* Identifiers drawn from `uuid.NewV4` are an extra argument of the operation.
-/

namespace AdminContract

/-! ## JSON values and stored bytes -/

/-- JSON values.  Integer literals and the remaining number literals are told
apart because only the former decode into a Go `int`. -/
inductive JVal where
  | null : JVal
  | bool (b : Bool) : JVal
  | int (n : Int) : JVal
  | float (lit : String) : JVal
  | str (s : String) : JVal
  | arr (items : List JVal) : JVal
  | obj (members : List (String × JVal)) : JVal

/-- Byte strings held by the world state. -/
inductive Bytes where
  | text (v : JVal) : Bytes
  | malformed (tag : Nat) : Bytes

/-! ## Go `int` -/

/-- Smallest value of a Go `int`. -/
def minInt : Int := -(2 ^ 63)

/-- Largest value of a Go `int`. -/
def maxInt : Int := 2 ^ 63 - 1

/-- Whether an integer is representable as a Go `int`. -/
def inIntRange (n : Int) : Bool := decide (minInt ≤ n) && decide (n ≤ maxInt)

/-- Two's complement wrap-around of an arithmetic result into a Go `int`. -/
def wrapInt (n : Int) : Int := (n + 2 ^ 63) % 2 ^ 64 - 2 ^ 63

/-! ## Entity schemas -/

structure Fund where
  DocType : String
  ID : String
  Name : String
  CurrentPeriod : Int
  InceptionDate : String
  PeriodClosingValue : String
  PeriodOpeningValue : String
  AggregateFixedFees : String
  AggregateDeposits : String
  NextInvestorNumber : Int
  PeriodUpdated : Bool
  deriving DecidableEq

structure HighWaterMark where
  Amount : String
  Date : String
  deriving DecidableEq

structure CapitalAccount where
  DocType : String
  ID : String
  Fund : String
  Investor : String
  Number : Int
  CurrentPeriod : Int
  PeriodClosingValue : String
  PeriodOpeningValue : String
  FixedFees : String
  Deposits : String
  OwnershipPercentage : String
  HighWaterMark : HighWaterMark
  deriving DecidableEq

structure CapitalAccountAction where
  DocType : String
  ID : String
  Type_ : String
  Amount : String
  Full : Bool
  Status : String
  Description : String
  Date : String
  Period : Int
  deriving DecidableEq

structure Investor where
  DocType : String
  ID : String
  Name : String
  deriving DecidableEq

structure Security where
  Name : String
  CUSIP : String
  Amount : String
  Currency : String
  deriving DecidableEq

/-- A portfolio; `Securities` is `none` for a nil slice. -/
structure Portfolio where
  DocType : String
  ID : String
  Fund : String
  Name : String
  Securities : Option (List Security)
  deriving DecidableEq

structure PortfolioAction where
  DocType : String
  ID : String
  Fund : String
  Portfolio : String
  Security : Security
  Type_ : String
  Date : String
  Period : Int
  Status : String
  Description : String
  deriving DecidableEq

/-! ## Zero values -/

def Fund.zero : Fund :=
  { DocType := "", ID := "", Name := "", CurrentPeriod := 0, InceptionDate := "",
    PeriodClosingValue := "", PeriodOpeningValue := "", AggregateFixedFees := "",
    AggregateDeposits := "", NextInvestorNumber := 0, PeriodUpdated := false }

def HighWaterMark.zero : HighWaterMark := { Amount := "", Date := "" }

def CapitalAccount.zero : CapitalAccount :=
  { DocType := "", ID := "", Fund := "", Investor := "", Number := 0, CurrentPeriod := 0,
    PeriodClosingValue := "", PeriodOpeningValue := "", FixedFees := "", Deposits := "",
    OwnershipPercentage := "", HighWaterMark := HighWaterMark.zero }

def CapitalAccountAction.zero : CapitalAccountAction :=
  { DocType := "", ID := "", Type_ := "", Amount := "", Full := false, Status := "",
    Description := "", Date := "", Period := 0 }

def Investor.zero : Investor := { DocType := "", ID := "", Name := "" }

def Security.zero : Security := { Name := "", CUSIP := "", Amount := "", Currency := "" }

def Portfolio.zero : Portfolio :=
  { DocType := "", ID := "", Fund := "", Name := "", Securities := none }

def PortfolioAction.zero : PortfolioAction :=
  { DocType := "", ID := "", Fund := "", Portfolio := "", Security := Security.zero,
    Type_ := "", Date := "", Period := 0, Status := "", Description := "" }

/-! ## Constants of the `types` package -/

/-- Modelled from the spec: the constant `types.DOCTYPE_FUND` of the package
`admin_contract/types`, whose source is not part of the repository files; the
spec lists the `docType` value `fund`. -/
def DOCTYPE_FUND : String := "fund"

/-- Modelled from the spec: the constant `types.DOCTYPE_INVESTOR`; the spec
lists the `docType` value `investor`. -/
def DOCTYPE_INVESTOR : String := "investor"

/-- Modelled from the spec: the constant `types.DOCTYPE_CAPITALACCOUNT`; the
spec lists the `docType` value `capitalAccount`. -/
def DOCTYPE_CAPITALACCOUNT : String := "capitalAccount"

/-- Modelled from the spec: the constant `types.DOCTYPE_CAPITALACCOUNTACTION`;
the spec lists the `docType` value `capitalAccountAction`. -/
def DOCTYPE_CAPITALACCOUNTACTION : String := "capitalAccountAction"

/-- Modelled from the spec: the constant `types.DOCTYPE_PORTFOLIO`; the spec
lists the `docType` value `portfolio`. -/
def DOCTYPE_PORTFOLIO : String := "portfolio"

/-- Modelled from the spec: the constant `types.DOCTYPE_PORTFOLIOACTION`; the
spec lists the `docType` value `portfolioAction`. -/
def DOCTYPE_PORTFOLIOACTION : String := "portfolioAction"

/-- Modelled from the spec: the constant `types.TX_STATUS_SUBMITTED`; the spec
gives the initial status of an action as `submitted`. -/
def TX_STATUS_SUBMITTED : String := "submitted"

/-! ## `json.Marshal`

The records above hold well-formed text, which `json.Marshal` writes as it is.
On a struct holding any Go string it writes every stray byte as U+FFFD:
`marshalGoFund` and `marshalGoInvestor` in the section on Go strings. -/

def marshalFund (f : Fund) : Bytes :=
  .text (.obj [
    ("docType", .str f.DocType),
    ("id", .str f.ID),
    ("name", .str f.Name),
    ("currentPeriod", .int f.CurrentPeriod),
    ("inceptionDate", .str f.InceptionDate),
    ("periodClosingValue", .str f.PeriodClosingValue),
    ("periodOpeningValue", .str f.PeriodOpeningValue),
    ("aggregateFixedFees", .str f.AggregateFixedFees),
    ("aggregateDeposits", .str f.AggregateDeposits),
    ("nextInvestorNumber", .int f.NextInvestorNumber),
    ("periodUpdated", .bool f.PeriodUpdated)])

def encodeHighWaterMark (h : HighWaterMark) : JVal :=
  .obj [("amount", .str h.Amount), ("date", .str h.Date)]

/-- The investor reference is written under the member name `name`, as its
struct tag says. -/
def marshalCapitalAccount (c : CapitalAccount) : Bytes :=
  .text (.obj [
    ("docType", .str c.DocType),
    ("id", .str c.ID),
    ("fund", .str c.Fund),
    ("name", .str c.Investor),
    ("number", .int c.Number),
    ("currentPeriod", .int c.CurrentPeriod),
    ("periodClosingValue", .str c.PeriodClosingValue),
    ("periodOpeningValue", .str c.PeriodOpeningValue),
    ("fixedFees", .str c.FixedFees),
    ("deposits", .str c.Deposits),
    ("ownershipPercentage", .str c.OwnershipPercentage),
    ("highWaterMark", encodeHighWaterMark c.HighWaterMark)])

def marshalCapitalAccountAction (a : CapitalAccountAction) : Bytes :=
  .text (.obj [
    ("docType", .str a.DocType),
    ("id", .str a.ID),
    ("type", .str a.Type_),
    ("amount", .str a.Amount),
    ("full", .bool a.Full),
    ("status", .str a.Status),
    ("description", .str a.Description),
    ("Date", .str a.Date),
    ("period", .int a.Period)])

def marshalInvestor (i : Investor) : Bytes :=
  .text (.obj [("docType", .str i.DocType), ("id", .str i.ID), ("name", .str i.Name)])

def encodeSecurity (s : Security) : JVal :=
  .obj [("name", .str s.Name), ("cusip", .str s.CUSIP), ("amount", .str s.Amount),
    ("currency", .str s.Currency)]

/-- A nil slice is written as `null`, any other slice as an array. -/
def encodeSecurities : Option (List Security) → JVal
  | none => .null
  | some l => .arr (l.map encodeSecurity)

def marshalPortfolio (p : Portfolio) : Bytes :=
  .text (.obj [
    ("docType", .str p.DocType),
    ("id", .str p.ID),
    ("fund", .str p.Fund),
    ("name", .str p.Name),
    ("securities", encodeSecurities p.Securities)])

def marshalPortfolioAction (a : PortfolioAction) : Bytes :=
  .text (.obj [
    ("docType", .str a.DocType),
    ("id", .str a.ID),
    ("fund", .str a.Fund),
    ("portfolio", .str a.Portfolio),
    ("security", encodeSecurity a.Security),
    ("type", .str a.Type_),
    ("date", .str a.Date),
    ("period", .int a.Period),
    ("status", .str a.Status),
    ("description", .str a.Description)])

/-! ## `json.Unmarshal` -/

/-- Case folding of one character of a member name: ASCII letters go to upper
case, and the two non-ASCII characters that fold onto an ASCII letter (the long
s and the Kelvin sign) go to that letter.  Every other character is kept; none
of them folds onto an ASCII character, and all field names here are ASCII. -/
def foldRune (c : Char) : Char :=
  if 97 ≤ c.toNat ∧ c.toNat ≤ 122 then Char.ofNat (c.toNat - 32)
  else if c.toNat = 0x17F then 'S'
  else if c.toNat = 0x212A then 'K'
  else c

def foldName (s : String) : List Char := s.toList.map foldRune

/-- The struct field a member name selects: the field with exactly that name,
or else the first field equal to it under case folding. -/
def findField (names : List String) (key : String) : Option String :=
  match names.find? (fun n => n = key) with
  | some n => some n
  | none => names.find? (fun n => foldName n = foldName key)

/-- Decoding into a `string` field. -/
def decString (cur : String) : JVal → Except String String
  | .null => .ok cur
  | .str s => .ok s
  | _ => .error "json: cannot unmarshal into Go value of type string"

/-- Decoding into an `int` field: an integer literal in range. -/
def decInt (cur : Int) : JVal → Except String Int
  | .null => .ok cur
  | .int n => if inIntRange n then .ok n
      else .error "json: cannot unmarshal number into Go value of type int"
  | _ => .error "json: cannot unmarshal into Go value of type int"

/-- Decoding into a `bool` field. -/
def decBool (cur : Bool) : JVal → Except String Bool
  | .null => .ok cur
  | .bool b => .ok b
  | _ => .error "json: cannot unmarshal into Go value of type bool"

/-- Walk over the members of an object, storing each one that selects a field. -/
def decodeMembers {α : Type} (names : List String)
    (set : α → String → JVal → Except String α) : α → List (String × JVal) → Except String α
  | a, [] => .ok a
  | a, (k, v) :: rest =>
    match findField names k with
    | none => decodeMembers names set a rest
    | some n =>
      match set a n v with
      | .error e => .error e
      | .ok a' => decodeMembers names set a' rest

/-- Decoding into a struct: `null` leaves it as it is, an object is walked,
anything else is a type error. -/
def decodeStruct {α : Type} (names : List String)
    (set : α → String → JVal → Except String α) (cur : α) : JVal → Except String α
  | .null => .ok cur
  | .obj ms => decodeMembers names set cur ms
  | _ => .error "json: cannot unmarshal into Go value of struct type"

def fundFields : List String :=
  ["docType", "id", "name", "currentPeriod", "inceptionDate", "periodClosingValue",
   "periodOpeningValue", "aggregateFixedFees", "aggregateDeposits", "nextInvestorNumber",
   "periodUpdated"]

def setFundField (f : Fund) (n : String) (v : JVal) : Except String Fund :=
  if n = "docType" then (decString f.DocType v).map (fun x => { f with DocType := x })
  else if n = "id" then (decString f.ID v).map (fun x => { f with ID := x })
  else if n = "name" then (decString f.Name v).map (fun x => { f with Name := x })
  else if n = "currentPeriod" then
    (decInt f.CurrentPeriod v).map (fun x => { f with CurrentPeriod := x })
  else if n = "inceptionDate" then
    (decString f.InceptionDate v).map (fun x => { f with InceptionDate := x })
  else if n = "periodClosingValue" then
    (decString f.PeriodClosingValue v).map (fun x => { f with PeriodClosingValue := x })
  else if n = "periodOpeningValue" then
    (decString f.PeriodOpeningValue v).map (fun x => { f with PeriodOpeningValue := x })
  else if n = "aggregateFixedFees" then
    (decString f.AggregateFixedFees v).map (fun x => { f with AggregateFixedFees := x })
  else if n = "aggregateDeposits" then
    (decString f.AggregateDeposits v).map (fun x => { f with AggregateDeposits := x })
  else if n = "nextInvestorNumber" then
    (decInt f.NextInvestorNumber v).map (fun x => { f with NextInvestorNumber := x })
  else if n = "periodUpdated" then
    (decBool f.PeriodUpdated v).map (fun x => { f with PeriodUpdated := x })
  else .ok f

/-- The call `json.Unmarshal(data, &fund)` on a struct holding `cur`. -/
def unmarshalFund (cur : Fund) : Bytes → Except String Fund
  | .malformed _ => .error "invalid character looking for beginning of value"
  | .text v => decodeStruct fundFields setFundField cur v

def investorFields : List String := ["docType", "id", "name"]

def setInvestorField (i : Investor) (n : String) (v : JVal) : Except String Investor :=
  if n = "docType" then (decString i.DocType v).map (fun x => { i with DocType := x })
  else if n = "id" then (decString i.ID v).map (fun x => { i with ID := x })
  else if n = "name" then (decString i.Name v).map (fun x => { i with Name := x })
  else .ok i

def unmarshalInvestor (cur : Investor) : Bytes → Except String Investor
  | .malformed _ => .error "invalid character looking for beginning of value"
  | .text v => decodeStruct investorFields setInvestorField cur v

def highWaterMarkFields : List String := ["amount", "date"]

def setHighWaterMarkField (h : HighWaterMark) (n : String) (v : JVal) :
    Except String HighWaterMark :=
  if n = "amount" then (decString h.Amount v).map (fun x => { h with Amount := x })
  else if n = "date" then (decString h.Date v).map (fun x => { h with Date := x })
  else .ok h

def capitalAccountFields : List String :=
  ["docType", "id", "fund", "name", "number", "currentPeriod", "periodClosingValue",
   "periodOpeningValue", "fixedFees", "deposits", "ownershipPercentage", "highWaterMark"]

def setCapitalAccountField (c : CapitalAccount) (n : String) (v : JVal) :
    Except String CapitalAccount :=
  if n = "docType" then (decString c.DocType v).map (fun x => { c with DocType := x })
  else if n = "id" then (decString c.ID v).map (fun x => { c with ID := x })
  else if n = "fund" then (decString c.Fund v).map (fun x => { c with Fund := x })
  else if n = "name" then (decString c.Investor v).map (fun x => { c with Investor := x })
  else if n = "number" then (decInt c.Number v).map (fun x => { c with Number := x })
  else if n = "currentPeriod" then
    (decInt c.CurrentPeriod v).map (fun x => { c with CurrentPeriod := x })
  else if n = "periodClosingValue" then
    (decString c.PeriodClosingValue v).map (fun x => { c with PeriodClosingValue := x })
  else if n = "periodOpeningValue" then
    (decString c.PeriodOpeningValue v).map (fun x => { c with PeriodOpeningValue := x })
  else if n = "fixedFees" then
    (decString c.FixedFees v).map (fun x => { c with FixedFees := x })
  else if n = "deposits" then
    (decString c.Deposits v).map (fun x => { c with Deposits := x })
  else if n = "ownershipPercentage" then
    (decString c.OwnershipPercentage v).map (fun x => { c with OwnershipPercentage := x })
  else if n = "highWaterMark" then
    (decodeStruct highWaterMarkFields setHighWaterMarkField c.HighWaterMark v).map
      (fun x => { c with HighWaterMark := x })
  else .ok c

def unmarshalCapitalAccount (cur : CapitalAccount) : Bytes → Except String CapitalAccount
  | .malformed _ => .error "invalid character looking for beginning of value"
  | .text v => decodeStruct capitalAccountFields setCapitalAccountField cur v

def capitalAccountActionFields : List String :=
  ["docType", "id", "type", "amount", "full", "status", "description", "Date", "period"]

def setCapitalAccountActionField (a : CapitalAccountAction) (n : String) (v : JVal) :
    Except String CapitalAccountAction :=
  if n = "docType" then (decString a.DocType v).map (fun x => { a with DocType := x })
  else if n = "id" then (decString a.ID v).map (fun x => { a with ID := x })
  else if n = "type" then (decString a.Type_ v).map (fun x => { a with Type_ := x })
  else if n = "amount" then (decString a.Amount v).map (fun x => { a with Amount := x })
  else if n = "full" then (decBool a.Full v).map (fun x => { a with Full := x })
  else if n = "status" then (decString a.Status v).map (fun x => { a with Status := x })
  else if n = "description" then
    (decString a.Description v).map (fun x => { a with Description := x })
  else if n = "Date" then (decString a.Date v).map (fun x => { a with Date := x })
  else if n = "period" then (decInt a.Period v).map (fun x => { a with Period := x })
  else .ok a

def unmarshalCapitalAccountAction (cur : CapitalAccountAction) :
    Bytes → Except String CapitalAccountAction
  | .malformed _ => .error "invalid character looking for beginning of value"
  | .text v => decodeStruct capitalAccountActionFields setCapitalAccountActionField cur v

def securityFields : List String := ["name", "cusip", "amount", "currency"]

def setSecurityField (s : Security) (n : String) (v : JVal) : Except String Security :=
  if n = "name" then (decString s.Name v).map (fun x => { s with Name := x })
  else if n = "cusip" then (decString s.CUSIP v).map (fun x => { s with CUSIP := x })
  else if n = "amount" then (decString s.Amount v).map (fun x => { s with Amount := x })
  else if n = "currency" then (decString s.Currency v).map (fun x => { s with Currency := x })
  else .ok s

/-- Decoding the elements of an array into a slice that holds `cur`: the element
of index `i` is decoded into the element the slice has at `i`, so that members
the element does not carry keep their value, and into a zero `Security` past
the length of the slice. -/
def decSecurityItems : List Security → List JVal → Except String (List Security)
  | _, [] => .ok []
  | cur, item :: rest =>
    match decodeStruct securityFields setSecurityField (cur.headD Security.zero) item with
    | .error e => .error e
    | .ok security =>
      match decSecurityItems cur.tail rest with
      | .error e => .error e
      | .ok securities => .ok (security :: securities)

/-- Decoding into the `[]Security` field that holds `cur`: `null` makes the
slice nil; an array is decoded element by element into the slice, which ends
with the length of the array.  The memory a slice keeps past its length after
a shorter array was decoded into it is not modelled: what lies there is taken
as zero. -/
def decSecurities (cur : Option (List Security)) : JVal → Except String (Option (List Security))
  | .null => .ok none
  | .arr items => (decSecurityItems (cur.getD []) items).map some
  | _ => .error "json: cannot unmarshal into Go value of type []Security"

def portfolioFields : List String := ["docType", "id", "fund", "name", "securities"]

def setPortfolioField (p : Portfolio) (n : String) (v : JVal) : Except String Portfolio :=
  if n = "docType" then (decString p.DocType v).map (fun x => { p with DocType := x })
  else if n = "id" then (decString p.ID v).map (fun x => { p with ID := x })
  else if n = "fund" then (decString p.Fund v).map (fun x => { p with Fund := x })
  else if n = "name" then (decString p.Name v).map (fun x => { p with Name := x })
  else if n = "securities" then (decSecurities p.Securities v).map (fun x => { p with Securities := x })
  else .ok p

def unmarshalPortfolio (cur : Portfolio) : Bytes → Except String Portfolio
  | .malformed _ => .error "invalid character looking for beginning of value"
  | .text v => decodeStruct portfolioFields setPortfolioField cur v

/-! ## The transaction context -/

/-- The chaincode stub as one invocation sees it.  `GetState` yields an error,
`nil` (`none`) or the bytes under the key; `PutState` yields the error of the
write (`none` for `nil`); `GetQueryResult` yields an error or the finite
sequence the iterator walks, each `Next` being an error or a value. -/
structure Stub where
  GetState : String → Except String (Option Bytes)
  PutState : String → Bytes → Option String
  GetQueryResult : String → Except String (List (Except String Bytes))

/-- What a mutation did: the error it returned (`none` for `nil`) and the
`PutState` calls it issued, in order. -/
structure Outcome where
  err : Option String
  puts : List (String × Bytes)

/-! ## Lookup operations -/

def QueryFundById (stub : Stub) (fundId : String) : Except String (Option Fund) :=
  match stub.GetState fundId with
  | .error e => .error e
  | .ok none => .ok none
  | .ok (some data) =>
    match unmarshalFund Fund.zero data with
    | .error e => .error e
    | .ok fund => .ok (some fund)

def QueryInvestorById (stub : Stub) (investorId : String) : Except String (Option Investor) :=
  match stub.GetState investorId with
  | .error e => .error e
  | .ok none => .ok none
  | .ok (some data) =>
    match unmarshalInvestor Investor.zero data with
    | .error e => .error e
    | .ok investor => .ok (some investor)

def investorByNameQuery (name : String) : String :=
  "\x7b\"selector\":\x7b\"docType\":\"investor\", \"name\": \"" ++ name ++ "\"\x7d\x7d"

/-- The loop body runs at most once: the first result is decoded into the
record declared before the loop, whose address is returned in every case. -/
def QueryInvestorByName (stub : Stub) (name : String) : Except String (Option Investor) :=
  match stub.GetQueryResult (investorByNameQuery name) with
  | .error e => .error e
  | .ok [] => .ok (some Investor.zero)
  | .ok (.error e :: _) => .error e
  | .ok (.ok value :: _) =>
    match unmarshalInvestor Investor.zero value with
    | .error e => .error e
    | .ok investor => .ok (some investor)

def portfolioByNameQuery (fundId name : String) : String :=
  "\x7b\"selector\":\x7b\"docType\": \"portfolio\", \"fund\": \"" ++ fundId
    ++ "\", \"name\": \"" ++ name ++ "\"\x7d\x7d"

def QueryPortfolioByName (stub : Stub) (fundId name : String) :
    Except String (Option Portfolio) :=
  match stub.GetQueryResult (portfolioByNameQuery fundId name) with
  | .error e => .error e
  | .ok [] => .ok (some Portfolio.zero)
  | .ok (.error e :: _) => .error e
  | .ok (.ok value :: _) =>
    match unmarshalPortfolio Portfolio.zero value with
    | .error e => .error e
    | .ok portfolios => .ok (some portfolios)

def portfolioByFundQuery (fundId : String) : String :=
  "\x7b\"selector\":\x7b\"docType\": \"portfolio\", \"fund\": \"" ++ fundId ++ "\"\x7d\x7d"

def QueryPortfolioByFund (stub : Stub) (fundId : String) : Except String (Option Portfolio) :=
  match stub.GetQueryResult (portfolioByFundQuery fundId) with
  | .error e => .error e
  | .ok [] => .ok (some Portfolio.zero)
  | .ok (.error e :: _) => .error e
  | .ok (.ok value :: _) =>
    match unmarshalPortfolio Portfolio.zero value with
    | .error e => .error e
    | .ok portfolios => .ok (some portfolios)

def fundByNameQuery (name : String) : String :=
  "\x7b\"selector\":\x7b\"docType\":\"fund\", \"name\": \"" ++ name ++ "\"\x7d\x7d"

/-- The loop body declares a second `fund` and decodes into that one; the
record declared before the loop, whose address is returned, is never written. -/
def QueryFundByName (stub : Stub) (name : String) : Except String (Option Fund) :=
  match stub.GetQueryResult (fundByNameQuery name) with
  | .error e => .error e
  | .ok [] => .ok (some Fund.zero)
  | .ok (.error e :: _) => .error e
  | .ok (.ok value :: _) =>
    match unmarshalFund Fund.zero value with
    | .error e => .error e
    | .ok _ => .ok (some Fund.zero)

/-- The collecting loop of the capital-account lookups: every result is decoded
into a fresh record and appended; the first failure ends the call. -/
def collectCapitalAccounts :
    List (Except String Bytes) → List CapitalAccount → Except String (List CapitalAccount)
  | [], acc => .ok acc
  | .error e :: _, _ => .error e
  | .ok value :: rest, acc =>
    match unmarshalCapitalAccount CapitalAccount.zero value with
    | .error e => .error e
    | .ok capitalAccount => collectCapitalAccounts rest (acc ++ [capitalAccount])

/-- The collecting loop of the capital-account-action lookups. -/
def collectCapitalAccountActions :
    List (Except String Bytes) → List CapitalAccountAction →
      Except String (List CapitalAccountAction)
  | [], acc => .ok acc
  | .error e :: _, _ => .error e
  | .ok value :: rest, acc =>
    match unmarshalCapitalAccountAction CapitalAccountAction.zero value with
    | .error e => .error e
    | .ok capitalAccountAction =>
      collectCapitalAccountActions rest (acc ++ [capitalAccountAction])

def capitalAccountsByInvestorQuery (fundId investorId : String) : String :=
  "\x7b\"selector\":\x7b\"docType\":\"capitalAccount\", \"fund\": \"" ++ fundId
    ++ "\", \"investor\": \"" ++ investorId ++ "\"\x7d\x7d"

def QueryCapitalAccountsByInvestor (stub : Stub) (fundId investorId : String) :
    Except String (List CapitalAccount) :=
  match stub.GetQueryResult (capitalAccountsByInvestorQuery fundId investorId) with
  | .error e => .error e
  | .ok results => collectCapitalAccounts results []

def capitalAccountsByFundQuery (fundId : String) : String :=
  "\x7b\"selector\":\x7b\"docType\":\"capitalAccount\", \"fund\": \"" ++ fundId ++ "\"\x7d\x7d"

def QueryCapitalAccountsByFund (stub : Stub) (fundId : String) :
    Except String (List CapitalAccount) :=
  match stub.GetQueryResult (capitalAccountsByFundQuery fundId) with
  | .error e => .error e
  | .ok results => collectCapitalAccounts results []

def capitalAccountActionsByFundQuery (fundId : String) : String :=
  "\x7b\"selector\":\x7b\"docType\":\"capitalAccount\", \"fund\": \"" ++ fundId ++ "\"\x7d\x7d"

def QueryCapitalAccountActionsByFund (stub : Stub) (fundId : String) :
    Except String (List CapitalAccountAction) :=
  match stub.GetQueryResult (capitalAccountActionsByFundQuery fundId) with
  | .error e => .error e
  | .ok results => collectCapitalAccountActions results []

def capitalAccountActionsByAccountPeriodQuery (fundId capitalAccountId : String)
    (period : Int) : String :=
  "\x7b\"selector\":\x7b\"docType\":\"capitalAccount\", \"fund\": \"" ++ fundId
    ++ "\", \"capitalAccount\": \"" ++ capitalAccountId
    ++ "\", \"period\": \"" ++ toString period ++ "\"\x7d\x7d"

def QueryCapitalAccountActionsByAccountPeriod (stub : Stub)
    (fundId capitalAccountId : String) (period : Int) :
    Except String (List CapitalAccountAction) :=
  match stub.GetQueryResult
      (capitalAccountActionsByAccountPeriodQuery fundId capitalAccountId period) with
  | .error e => .error e
  | .ok results => collectCapitalAccountActions results []

/-! ## Mutation operations

The identifier drawn from `uuid.NewV4` is the argument `id`. -/

def CreateFund (stub : Stub) (fundId name inceptionDate : String) : Outcome :=
  match stub.GetState fundId with
  | .error _ => { err := some "error retrieving the world state", puts := [] }
  | .ok (some _) => { err := some "an object already exists with that id", puts := [] }
  | .ok none =>
    let fund : Fund :=
      { DocType := DOCTYPE_FUND
        ID := fundId
        Name := name
        CurrentPeriod := 0
        InceptionDate := inceptionDate
        PeriodClosingValue := "0"
        PeriodOpeningValue := "0"
        AggregateFixedFees := "0"
        AggregateDeposits := "0"
        NextInvestorNumber := 0
        PeriodUpdated := false }
    let fundJson := marshalFund fund
    { err := stub.PutState fundId fundJson, puts := [(fundId, fundJson)] }

/-- The guard reads `investors == nil`, and the lookup never returns `nil`
together with a `nil` error. -/
def CreateInvestor (stub : Stub) (id : String) (name : String) : Outcome :=
  match QueryInvestorByName stub name with
  | .error e => { err := some e, puts := [] }
  | .ok none =>
    { err := some ("an investor with the name \x27" ++ name ++ "\x27 already exists"),
      puts := [] }
  | .ok (some _) =>
    let investor : Investor := { DocType := DOCTYPE_INVESTOR, Name := name, ID := id }
    let investorJson := marshalInvestor investor
    { err := stub.PutState id investorJson, puts := [(id, investorJson)] }

/-- The result of the first `PutState`, of the fund, is dropped; the call
returns the result of the second one. -/
def CreateCapitalAccount (stub : Stub) (id : String) (fundId investorId : String) : Outcome :=
  match QueryFundById stub fundId with
  | .error e => { err := some e, puts := [] }
  | .ok none =>
    { err := some ("a fund with the ID \x27" ++ fundId ++ "\x27 does not exist"), puts := [] }
  | .ok (some fund) =>
    match QueryInvestorById stub investorId with
    | .error e => { err := some e, puts := [] }
    | .ok none =>
      { err := some ("an investor with id \x27" ++ investorId ++ "\x27 does not exist"),
        puts := [] }
    | .ok (some _) =>
      let capitalAccount : CapitalAccount :=
        { DocType := DOCTYPE_CAPITALACCOUNT
          ID := id
          Fund := fundId
          Investor := investorId
          Number := fund.NextInvestorNumber
          CurrentPeriod := fund.CurrentPeriod
          PeriodClosingValue := "0.0"
          PeriodOpeningValue := "0.0"
          FixedFees := "0.0"
          Deposits := "0.0"
          OwnershipPercentage := "0.0"
          HighWaterMark := { Amount := "0.0", Date := "None" } }
      let capitalAccountJson := marshalCapitalAccount capitalAccount
      let fund : Fund :=
        { fund with NextInvestorNumber := wrapInt (fund.NextInvestorNumber + 1) }
      let fundJson := marshalFund fund
      { err := stub.PutState id capitalAccountJson,
        puts := [(fund.ID, fundJson), (id, capitalAccountJson)] }

def CreatePortfolio (stub : Stub) (id : String) (fundId name : String) : Outcome :=
  match QueryPortfolioByName stub fundId name with
  | .error e => { err := some e, puts := [] }
  | .ok none =>
    { err := some ("an portfolio with the name \x27" ++ name
        ++ "\x27 already exists for fund \x27" ++ fundId ++ "\x27"),
      puts := [] }
  | .ok (some _) =>
    let portfolio : Portfolio :=
      { DocType := DOCTYPE_PORTFOLIO, Name := name, ID := id, Fund := fundId,
        Securities := none }
    let portfolioJson := marshalPortfolio portfolio
    { err := stub.PutState id portfolioJson, puts := [(id, portfolioJson)] }

def CreatePortfolioAction (stub : Stub) (id : String) (fundId portfolioId type_ date : String)
    (period : Int) (name cusip amount currency : String) : Outcome :=
  if type_ ≠ "buy" ∧ type_ ≠ "sell" then
    { err := some ("the specified action is invalid for a portfolio: \x27" ++ type_ ++ "\x27"),
      puts := [] }
  else
    let security : Security :=
      { Name := name, CUSIP := cusip, Amount := amount, Currency := currency }
    let portfolioAction : PortfolioAction :=
      { DocType := DOCTYPE_PORTFOLIOACTION
        Portfolio := portfolioId
        Fund := fundId
        Type_ := type_
        Date := date
        ID := id
        Security := security
        Period := period
        Status := ""
        Description := "" }
    let portfolioActionJson := marshalPortfolioAction portfolioAction
    { err := stub.PutState id portfolioActionJson, puts := [(id, portfolioActionJson)] }

def CreateCapitalAccountAction (stub : Stub) (id : String) (type_ amount : String)
    (full : Bool) (date : String) (period : Int) : Outcome :=
  if type_ ≠ "deposit" ∧ type_ ≠ "withdrawal" then
    { err := some ("the specified type of \x27" ++ type_
        ++ "\x27 is invalid for a CapitalAccountAction"),
      puts := [] }
  else
    let capitalAccountAction : CapitalAccountAction :=
      { DocType := DOCTYPE_CAPITALACCOUNTACTION
        ID := id
        Type_ := type_
        Amount := amount
        Full := full
        Status := TX_STATUS_SUBMITTED
        Description := ""
        Date := date
        Period := period }
    let capitalAccountActionJson := marshalCapitalAccountAction capitalAccountAction
    { err := stub.PutState id capitalAccountActionJson,
      puts := [(id, capitalAccountActionJson)] }

/-! ## The ledger between invocations

The collaborator contract: each invocation reads the committed world state;
the writes of an invocation that returns `nil` are applied in order, those of
an invocation that returns an error are discarded. -/

/-- The committed world state: a finite list of keys with their bytes, each key
at most once as long as it is only changed through `World.put`. -/
abbrev World := List (String × Bytes)

def World.get (w : World) (k : String) : Option Bytes :=
  match w with
  | [] => none
  | (k', v) :: rest => if k' = k then some v else World.get rest k

def World.put (w : World) (k : String) (v : Bytes) : World :=
  match w with
  | [] => [(k, v)]
  | (k', v') :: rest => if k' = k then (k, v) :: rest else (k', v') :: World.put rest k v

/-- The parts of the collaborators the contract does not control: which reads
and writes fail, and what the query service answers over a given world state. -/
structure Backend where
  readError : String → Option String
  writeError : String → Bytes → Option String
  query : World → String → Except String (List (Except String Bytes))

/-- The stub handed to an invocation that runs over the world state `w`. -/
def Backend.stub (b : Backend) (w : World) : Stub :=
  { GetState := fun k =>
      match b.readError k with
      | some e => .error e
      | none => .ok (w.get k)
    PutState := b.writeError
    GetQueryResult := b.query w }

/-- Apply the accepted writes of a list of `PutState` calls, in order. -/
def applyPuts (b : Backend) : World → List (String × Bytes) → World
  | w, [] => w
  | w, (k, v) :: rest =>
    match b.writeError k v with
    | some _ => applyPuts b w rest
    | none => applyPuts b (w.put k v) rest

/-- The world state after an invocation with the given outcome. -/
def Backend.commit (b : Backend) (w : World) (o : Outcome) : World :=
  match o.err with
  | some _ => w
  | none => applyPuts b w o.puts

/-- A run of `CreateCapitalAccount` invocations against one fund.  Each call
comes with the identifier drawn for it and its investor id, and runs over the
world state the calls before it left.  The result is the outcomes in call
order and the final world state. -/
def createAccounts (b : Backend) (fundId : String) :
    World → List (String × String) → List Outcome × World
  | w, [] => ([], w)
  | w, (id, investorId) :: rest =>
    ((CreateCapitalAccount (b.stub w) id fundId investorId) ::
        (createAccounts b fundId
          (b.commit w (CreateCapitalAccount (b.stub w) id fundId investorId)) rest).1,
     (createAccounts b fundId
          (b.commit w (CreateCapitalAccount (b.stub w) id fundId investorId)) rest).2)

/-! ## Operations with their stub calls recorded

The bodies of the lookups once more, in state-passing form: every call on the
stub goes through `recGetState`, `recPutState` or `recGetQueryResult`, which
append it to a log.  `CreateCapitalAccount` is given in the same form. -/

/-- A call on the chaincode stub. -/
inductive StubCall where
  | GetState (key : String) : StubCall
  | PutState (key : String) (value : Bytes) : StubCall
  | GetQueryResult (query : String) : StubCall

/-- The writes among the stub calls of an invocation, in order. -/
def writesOf : List StubCall → List (String × Bytes)
  | [] => []
  | .PutState key value :: rest => (key, value) :: writesOf rest
  | .GetState _ :: rest => writesOf rest
  | .GetQueryResult _ :: rest => writesOf rest

/-- `GetState` on a stub whose calls are recorded: the answer of the stub and
the log with the call appended. -/
def recGetState (stub : Stub) (key : String) (log : List StubCall) :
    Except String (Option Bytes) × List StubCall :=
  (stub.GetState key, log ++ [.GetState key])

/-- `PutState` on a stub whose calls are recorded. -/
def recPutState (stub : Stub) (key : String) (value : Bytes) (log : List StubCall) :
    Option String × List StubCall :=
  (stub.PutState key value, log ++ [.PutState key value])

/-- `GetQueryResult` on a stub whose calls are recorded.  The calls that follow
on the iterator it returns (`HasNext`, `Next`, `Close`) are not calls on the
stub. -/
def recGetQueryResult (stub : Stub) (query : String) (log : List StubCall) :
    Except String (List (Except String Bytes)) × List StubCall :=
  (stub.GetQueryResult query, log ++ [.GetQueryResult query])

/-- The body of `QueryFundById` with every call on the stub recorded. -/
def QueryFundById_recorded (stub : Stub) (fundId : String) (log : List StubCall) :
    Except String (Option Fund) × List StubCall :=
  match recGetState stub fundId log with
  | (.error e, log) => (.error e, log)
  | (.ok none, log) => (.ok none, log)
  | (.ok (some data), log) =>
    match unmarshalFund Fund.zero data with
    | .error e => (.error e, log)
    | .ok fund => (.ok (some fund), log)

/-- The body of `QueryInvestorById` with every call on the stub recorded. -/
def QueryInvestorById_recorded (stub : Stub) (investorId : String) (log : List StubCall) :
    Except String (Option Investor) × List StubCall :=
  match recGetState stub investorId log with
  | (.error e, log) => (.error e, log)
  | (.ok none, log) => (.ok none, log)
  | (.ok (some data), log) =>
    match unmarshalInvestor Investor.zero data with
    | .error e => (.error e, log)
    | .ok investor => (.ok (some investor), log)

/-- The body of `QueryInvestorByName` with every call on the stub recorded. -/
def QueryInvestorByName_recorded (stub : Stub) (name : String) (log : List StubCall) :
    Except String (Option Investor) × List StubCall :=
  match recGetQueryResult stub (investorByNameQuery name) log with
  | (.error e, log) => (.error e, log)
  | (.ok [], log) => (.ok (some Investor.zero), log)
  | (.ok (.error e :: _), log) => (.error e, log)
  | (.ok (.ok value :: _), log) =>
    match unmarshalInvestor Investor.zero value with
    | .error e => (.error e, log)
    | .ok investor => (.ok (some investor), log)

/-- The body of `QueryPortfolioByName` with every call on the stub recorded. -/
def QueryPortfolioByName_recorded (stub : Stub) (fundId name : String) (log : List StubCall) :
    Except String (Option Portfolio) × List StubCall :=
  match recGetQueryResult stub (portfolioByNameQuery fundId name) log with
  | (.error e, log) => (.error e, log)
  | (.ok [], log) => (.ok (some Portfolio.zero), log)
  | (.ok (.error e :: _), log) => (.error e, log)
  | (.ok (.ok value :: _), log) =>
    match unmarshalPortfolio Portfolio.zero value with
    | .error e => (.error e, log)
    | .ok portfolios => (.ok (some portfolios), log)

/-- The body of `QueryPortfolioByFund` with every call on the stub recorded. -/
def QueryPortfolioByFund_recorded (stub : Stub) (fundId : String) (log : List StubCall) :
    Except String (Option Portfolio) × List StubCall :=
  match recGetQueryResult stub (portfolioByFundQuery fundId) log with
  | (.error e, log) => (.error e, log)
  | (.ok [], log) => (.ok (some Portfolio.zero), log)
  | (.ok (.error e :: _), log) => (.error e, log)
  | (.ok (.ok value :: _), log) =>
    match unmarshalPortfolio Portfolio.zero value with
    | .error e => (.error e, log)
    | .ok portfolios => (.ok (some portfolios), log)

/-- The body of `QueryFundByName` with every call on the stub recorded. -/
def QueryFundByName_recorded (stub : Stub) (name : String) (log : List StubCall) :
    Except String (Option Fund) × List StubCall :=
  match recGetQueryResult stub (fundByNameQuery name) log with
  | (.error e, log) => (.error e, log)
  | (.ok [], log) => (.ok (some Fund.zero), log)
  | (.ok (.error e :: _), log) => (.error e, log)
  | (.ok (.ok value :: _), log) =>
    match unmarshalFund Fund.zero value with
    | .error e => (.error e, log)
    | .ok _ => (.ok (some Fund.zero), log)

/-- The body of `QueryCapitalAccountsByInvestor` with every call on the stub recorded. -/
def QueryCapitalAccountsByInvestor_recorded (stub : Stub) (fundId investorId : String) (log : List StubCall) :
    Except String (List CapitalAccount) × List StubCall :=
  match recGetQueryResult stub (capitalAccountsByInvestorQuery fundId investorId) log with
  | (.error e, log) => (.error e, log)
  | (.ok results, log) => (collectCapitalAccounts results [], log)

/-- The body of `QueryCapitalAccountsByFund` with every call on the stub recorded. -/
def QueryCapitalAccountsByFund_recorded (stub : Stub) (fundId : String) (log : List StubCall) :
    Except String (List CapitalAccount) × List StubCall :=
  match recGetQueryResult stub (capitalAccountsByFundQuery fundId) log with
  | (.error e, log) => (.error e, log)
  | (.ok results, log) => (collectCapitalAccounts results [], log)

/-- The body of `QueryCapitalAccountActionsByFund` with every call on the stub recorded. -/
def QueryCapitalAccountActionsByFund_recorded (stub : Stub) (fundId : String) (log : List StubCall) :
    Except String (List CapitalAccountAction) × List StubCall :=
  match recGetQueryResult stub (capitalAccountActionsByFundQuery fundId) log with
  | (.error e, log) => (.error e, log)
  | (.ok results, log) => (collectCapitalAccountActions results [], log)

/-- The body of `QueryCapitalAccountActionsByAccountPeriod` with every call on the stub recorded. -/
def QueryCapitalAccountActionsByAccountPeriod_recorded (stub : Stub) (fundId capitalAccountId : String) (period : Int) (log : List StubCall) :
    Except String (List CapitalAccountAction) × List StubCall :=
  match recGetQueryResult stub (capitalAccountActionsByAccountPeriodQuery fundId capitalAccountId period) log with
  | (.error e, log) => (.error e, log)
  | (.ok results, log) => (collectCapitalAccountActions results [], log)

/-- The body of `CreateCapitalAccount` with every call on the stub recorded; the
result of the first `PutState` is dropped and the call is recorded all the same. -/
def CreateCapitalAccount_recorded (stub : Stub) (id : String) (fundId investorId : String)
    (log : List StubCall) : Option String × List StubCall :=
  match QueryFundById_recorded stub fundId log with
  | (.error e, log) => (some e, log)
  | (.ok none, log) =>
    (some ("a fund with the ID \x27" ++ fundId ++ "\x27 does not exist"), log)
  | (.ok (some fund), log) =>
    match QueryInvestorById_recorded stub investorId log with
    | (.error e, log) => (some e, log)
    | (.ok none, log) =>
      (some ("an investor with id \x27" ++ investorId ++ "\x27 does not exist"), log)
    | (.ok (some _), log) =>
      let capitalAccount : CapitalAccount :=
        { DocType := DOCTYPE_CAPITALACCOUNT
          ID := id
          Fund := fundId
          Investor := investorId
          Number := fund.NextInvestorNumber
          CurrentPeriod := fund.CurrentPeriod
          PeriodClosingValue := "0.0"
          PeriodOpeningValue := "0.0"
          FixedFees := "0.0"
          Deposits := "0.0"
          OwnershipPercentage := "0.0"
          HighWaterMark := { Amount := "0.0", Date := "None" } }
      let capitalAccountJson := marshalCapitalAccount capitalAccount
      let fund : Fund :=
        { fund with NextInvestorNumber := wrapInt (fund.NextInvestorNumber + 1) }
      let fundJson := marshalFund fund
      match recPutState stub fund.ID fundJson log with
      | (_, log) => recPutState stub id capitalAccountJson log

/-- The outcome of an invocation, as the ledger takes it from a recorded run:
the error returned and the writes among the calls on the stub. -/
def recordedOutcome (err : Option String) (log : List StubCall) : Outcome :=
  { err := err, puts := writesOf log }

/-- The error a lookup returns, `none` for `nil`. -/
def errorOf {α : Type} : Except String α → Option String
  | .error e => some e
  | .ok _ => none

/-- The recorded runs of the ten lookups on a stub, each from an empty log: the
error returned and the calls recorded. -/
def lookupRuns (stub : Stub) (key name fundId investorId capitalAccountId : String)
    (period : Int) : List (Option String × List StubCall) :=
  [(errorOf (QueryFundById_recorded stub key []).1,
      (QueryFundById_recorded stub key []).2),
   (errorOf (QueryInvestorById_recorded stub key []).1,
      (QueryInvestorById_recorded stub key []).2),
   (errorOf (QueryInvestorByName_recorded stub name []).1,
      (QueryInvestorByName_recorded stub name []).2),
   (errorOf (QueryPortfolioByName_recorded stub fundId name []).1,
      (QueryPortfolioByName_recorded stub fundId name []).2),
   (errorOf (QueryPortfolioByFund_recorded stub fundId []).1,
      (QueryPortfolioByFund_recorded stub fundId []).2),
   (errorOf (QueryFundByName_recorded stub name []).1,
      (QueryFundByName_recorded stub name []).2),
   (errorOf (QueryCapitalAccountsByInvestor_recorded stub fundId investorId []).1,
      (QueryCapitalAccountsByInvestor_recorded stub fundId investorId []).2),
   (errorOf (QueryCapitalAccountsByFund_recorded stub fundId []).1,
      (QueryCapitalAccountsByFund_recorded stub fundId []).2),
   (errorOf (QueryCapitalAccountActionsByFund_recorded stub fundId []).1,
      (QueryCapitalAccountActionsByFund_recorded stub fundId []).2),
   (errorOf (QueryCapitalAccountActionsByAccountPeriod_recorded stub fundId capitalAccountId period []).1,
      (QueryCapitalAccountActionsByAccountPeriod_recorded stub fundId capitalAccountId period []).2)]

/-! ## Selectors and key/id consistency -/

/-- The string value of a member of a stored JSON object. -/
def stringMember (doc : Bytes) (key : String) : Option String :=
  match doc with
  | .text (.obj members) =>
    match members.find? (fun m => m.1 = key) with
    | some (_, .str s) => some s
    | _ => none
  | _ => none

/-- Whether a stored document satisfies every equality predicate of a selector. -/
def selects (selector : List (String × String)) (doc : Bytes) : Bool :=
  selector.all (fun p => stringMember doc p.1 = some p.2)

/-- The text of a selector in the form the capital-account lookups and the
capital-account-action lookups write it: the `docType` predicate first, then
each further equality predicate after a comma. -/
def selectorText (docType : String) (predicates : List (String × String)) : String :=
  "\x7b\"selector\":\x7b\"docType\":\"" ++ docType ++ "\""
    ++ predicates.foldl (fun acc p => acc ++ ", \"" ++ p.1 ++ "\": \"" ++ p.2 ++ "\"") ""
    ++ "\x7d\x7d"

/-- Storing one member into a record whose one field is `ID`, tagged `id`. -/
def setIdField (cur : String) (n : String) (v : JVal) : Except String String :=
  if n = "id" then decString cur v else .ok cur

/-- The id `json.Unmarshal` reads from stored bytes into the `ID` field of a
record, the field every record type of the contract tags `id`: the members
named `id`, or whose name folds to it, are stored in turn, the last one
staying. -/
def decodedId : Bytes → Except String String
  | .malformed _ => .error "invalid character looking for beginning of value"
  | .text v => decodeStruct ["id"] setIdField "" v

/-- Key/id consistency of a world state: the id the contract decodes from every
stored document is the key the document is stored under. -/
def KeyIdConsistent (w : World) : Prop :=
  ∀ kv ∈ w, decodedId kv.2 = .ok kv.1

/-! ## Sample collaborators and documents -/

/-- A backend whose reads and writes never fail and whose query service finds
nothing. -/
def quietBackend : Backend :=
  { readError := fun _ => none
    writeError := fun _ _ => none
    query := fun _ _ => .ok [] }

/-- A fund document as `CreateFund` writes it, under the key `fund-1`. -/
def sampleFundDoc : Bytes :=
  marshalFund
    { DocType := "fund", ID := "fund-1", Name := "Alpha", CurrentPeriod := 0,
      InceptionDate := "2020-01-01", PeriodClosingValue := "0", PeriodOpeningValue := "0",
      AggregateFixedFees := "0", AggregateDeposits := "0", NextInvestorNumber := 0,
      PeriodUpdated := false }

/-- An investor document as `CreateInvestor` writes it, under the key `inv-1`. -/
def sampleInvestorDoc : Bytes :=
  marshalInvestor { DocType := "investor", ID := "inv-1", Name := "Alice" }

/-- A world state holding one fund and one investor. -/
def sampleWorld : World := [("fund-1", sampleFundDoc), ("inv-1", sampleInvestorDoc)]

/-- A backend that never fails and whose query service answers the listed
query strings, each with the documents of the world state that its selector
matches, in key order of the world state. -/
def indexedBackend (queries : List (String × List (String × String))) : Backend :=
  { readError := fun _ => none
    writeError := fun _ _ => none
    query := fun w q =>
      match queries.find? (fun p => p.1 = q) with
      | some (_, selector) =>
        .ok (((w.filter (fun kv => selects selector kv.2)).map (fun kv => kv.2)).map .ok)
      | none => .ok [] }

/-- The query service that serves the by-name lookups for the investor name
`Alice` and for the portfolio name `Growth` of `fund-1`. -/
def nameIndex : Backend :=
  indexedBackend
    [(investorByNameQuery "Alice", [("docType", "investor"), ("name", "Alice")]),
     (portfolioByNameQuery "fund-1" "Growth",
        [("docType", "portfolio"), ("fund", "fund-1"), ("name", "Growth")])]

/-- A backend that refuses every write under the key `fund-1`. -/
def fundWriteRefused : Backend :=
  { readError := fun _ => none
    writeError := fun k _ => if k = "fund-1" then some "write refused" else none
    query := fun _ _ => .ok [] }

/-- The world state after `CreateInvestor("Alice")` ran once on an empty ledger
and drew the identifier `inv-1`. -/
def aliceOnce : World :=
  nameIndex.commit [] (CreateInvestor (nameIndex.stub []) "inv-1" "Alice")

/-- The world state after `CreateInvestor("Alice")` ran a second time and drew
the identifier `inv-2`. -/
def aliceTwice : World :=
  nameIndex.commit aliceOnce (CreateInvestor (nameIndex.stub aliceOnce) "inv-2" "Alice")

/-- The world state after `CreatePortfolio("fund-1", "Growth")` ran once on an
empty ledger and drew the identifier `pf-1`. -/
def growthOnce : World :=
  nameIndex.commit [] (CreatePortfolio (nameIndex.stub []) "pf-1" "fund-1" "Growth")

/-- The world state after `CreatePortfolio("fund-1", "Growth")` ran a second
time and drew the identifier `pf-2`. -/
def growthTwice : World :=
  nameIndex.commit growthOnce
    (CreatePortfolio (nameIndex.stub growthOnce) "pf-2" "fund-1" "Growth")
/-- A backend that accepts the fund document `CreateFund` writes under `fund-1`
and refuses every later write under that key that carries another counter. -/
def counterWriteRefused : Backend :=
  { readError := fun _ => none
    writeError := fun k v =>
      if k = "fund-1" then
        match unmarshalFund Fund.zero v with
        | .ok f => if f.NextInvestorNumber = 0 then none else some "write refused"
        | .error _ => none
      else none
    query := fun _ _ => .ok [] }

/-- A ledger that holds one investor, on which `CreateFund("fund-1")` then ran. -/
def fundCreated (b : Backend) : World :=
  b.commit [("inv-1", sampleInvestorDoc)]
    (CreateFund (b.stub [("inv-1", sampleInvestorDoc)]) "fund-1" "Alpha" "2020-01-01")

/-- Two `CreateCapitalAccount` calls on the new fund while the store refuses
the updated fund document. -/
def refusedRun : List Outcome × World :=
  createAccounts counterWriteRefused "fund-1" (fundCreated counterWriteRefused)
    [("acct-1", "inv-1"), ("acct-2", "inv-1")]

/-- The calls of a run of length `n`, each under its own identifier. -/
def manyCalls (n : Nat) : List (String × String) :=
  (List.range n).map (fun i => ("acct-" ++ toString i, "inv-1"))

/-- The run of `2 ^ 63` calls on the new fund, on a backend that never fails. -/
def longRun : List Outcome × World :=
  createAccounts quietBackend "fund-1" (fundCreated quietBackend) (manyCalls (2 ^ 63))

/-- A ledger whose fund `fund-1` has the largest investor counter a Go `int`
holds. -/
def maxedWorld : World :=
  [("fund-1", marshalFund
      { DocType := "fund", ID := "fund-1", Name := "Alpha", CurrentPeriod := 0,
        InceptionDate := "2020-01-01", PeriodClosingValue := "0", PeriodOpeningValue := "0",
        AggregateFixedFees := "0", AggregateDeposits := "0",
        NextInvestorNumber := 9223372036854775807, PeriodUpdated := false }),
   ("inv-1", sampleInvestorDoc)]

/-- A ledger whose key `fund-1` holds a fund document with the id `fund-9`. -/
def misfiledWorld : World :=
  [("fund-1", marshalFund
      { DocType := "fund", ID := "fund-9", Name := "Alpha", CurrentPeriod := 0,
        InceptionDate := "2020-01-01", PeriodClosingValue := "0", PeriodOpeningValue := "0",
        AggregateFixedFees := "0", AggregateDeposits := "0",
        NextInvestorNumber := 0, PeriodUpdated := false }),
   ("inv-1", sampleInvestorDoc)]

/-- A stub whose world state is empty, whose writes are accepted and whose
query service answers every query with the one given document. -/
def oneResultStub (doc : Bytes) : Stub :=
  { GetState := fun _ => .ok none
    PutState := fun _ _ => none
    GetQueryResult := fun _ => .ok [.ok doc] }

/-- A stub like `oneResultStub` whose query service answers every query with
the given documents, in that order. -/
def resultsStub (docs : List Bytes) : Stub :=
  { GetState := fun _ => .ok none
    PutState := fun _ _ => none
    GetQueryResult := fun _ => .ok (docs.map .ok) }

/-- The query service that serves the capital-account lookups for `fund-1` and
the investor `inv-1`.  The by-fund text is the one both
`QueryCapitalAccountsByFund` and `QueryCapitalAccountActionsByFund` submit. -/
def accountIndex : Backend :=
  indexedBackend
    [(capitalAccountsByFundQuery "fund-1",
        [("docType", "capitalAccount"), ("fund", "fund-1")]),
     (capitalAccountsByInvestorQuery "fund-1" "inv-1",
        [("docType", "capitalAccount"), ("fund", "fund-1"), ("investor", "inv-1")])]

/-- The sample ledger after `CreateCapitalAccount("fund-1", "inv-1")` ran and
drew the identifier `acct-1`. -/
def accountCreated : World :=
  accountIndex.commit sampleWorld
    (CreateCapitalAccount (accountIndex.stub sampleWorld) "acct-1" "fund-1" "inv-1")

/-- The ledger `accountCreated` after a deposit was submitted under the
identifier `act-1`. -/
def actionCreated : World :=
  accountIndex.commit accountCreated
    (CreateCapitalAccountAction (accountIndex.stub accountCreated) "act-1" "deposit" "100.0"
      false "2021-01-01" 1)

/-! ## Go strings

A Go string is a sequence of bytes.  The embedding above takes every string as
well-formed text, which the keys of the world state and the identifiers drawn
are.  `json.Marshal` coerces a string to valid UTF-8: every byte that is part
of no well-formed sequence is written as U+FFFD.  For the claims about what is
read back after a write, the two operations that write a string of the caller
under a key are given here once more, on Go strings. -/

/-- One unit of a Go string as `encoding/json` scans it: a character, that is a
well-formed UTF-8 sequence, or a byte that is part of none. -/
inductive GoUnit where
  | rune (c : Char) : GoUnit
  | stray (byte : Nat) : GoUnit
  deriving DecidableEq

/-- A Go string, unit by unit. -/
abbrev GoString := List GoUnit

/-- A well-formed text as a Go string. -/
def GoString.ofString (s : String) : GoString := s.toList.map GoUnit.rune

/-- What `json.Marshal` writes for one unit: the character itself, U+FFFD for
a stray byte. -/
def GoUnit.coerce : GoUnit → Char
  | .rune c => c
  | .stray _ => Char.ofNat 0xFFFD

/-- The text `json.Marshal` writes for a Go string, which is also the string
`json.Unmarshal` reads back from it. -/
def GoString.toValidUTF8 (s : GoString) : String := String.mk (s.map GoUnit.coerce)

/-- The `Fund` struct as the contract holds it in memory, with Go strings. -/
structure GoFund where
  DocType : GoString
  ID : GoString
  Name : GoString
  CurrentPeriod : Int
  InceptionDate : GoString
  PeriodClosingValue : GoString
  PeriodOpeningValue : GoString
  AggregateFixedFees : GoString
  AggregateDeposits : GoString
  NextInvestorNumber : Int
  PeriodUpdated : Bool
  deriving DecidableEq

/-- The `Investor` struct as the contract holds it in memory, with Go strings. -/
structure GoInvestor where
  DocType : GoString
  ID : GoString
  Name : GoString
  deriving DecidableEq

/-- A decoded fund record as the struct the caller of a lookup receives. -/
def Fund.toGo (f : Fund) : GoFund :=
  { DocType := GoString.ofString f.DocType
    ID := GoString.ofString f.ID
    Name := GoString.ofString f.Name
    CurrentPeriod := f.CurrentPeriod
    InceptionDate := GoString.ofString f.InceptionDate
    PeriodClosingValue := GoString.ofString f.PeriodClosingValue
    PeriodOpeningValue := GoString.ofString f.PeriodOpeningValue
    AggregateFixedFees := GoString.ofString f.AggregateFixedFees
    AggregateDeposits := GoString.ofString f.AggregateDeposits
    NextInvestorNumber := f.NextInvestorNumber
    PeriodUpdated := f.PeriodUpdated }

/-- A decoded investor record as the struct the caller of a lookup receives. -/
def Investor.toGo (i : Investor) : GoInvestor :=
  { DocType := GoString.ofString i.DocType
    ID := GoString.ofString i.ID
    Name := GoString.ofString i.Name }

/-- `json.Marshal` on a `Fund` struct: every string is coerced to valid UTF-8. -/
def marshalGoFund (f : GoFund) : Bytes :=
  .text (.obj [
    ("docType", .str f.DocType.toValidUTF8),
    ("id", .str f.ID.toValidUTF8),
    ("name", .str f.Name.toValidUTF8),
    ("currentPeriod", .int f.CurrentPeriod),
    ("inceptionDate", .str f.InceptionDate.toValidUTF8),
    ("periodClosingValue", .str f.PeriodClosingValue.toValidUTF8),
    ("periodOpeningValue", .str f.PeriodOpeningValue.toValidUTF8),
    ("aggregateFixedFees", .str f.AggregateFixedFees.toValidUTF8),
    ("aggregateDeposits", .str f.AggregateDeposits.toValidUTF8),
    ("nextInvestorNumber", .int f.NextInvestorNumber),
    ("periodUpdated", .bool f.PeriodUpdated)])

/-- `json.Marshal` on an `Investor` struct. -/
def marshalGoInvestor (i : GoInvestor) : Bytes :=
  .text (.obj [("docType", .str i.DocType.toValidUTF8), ("id", .str i.ID.toValidUTF8),
    ("name", .str i.Name.toValidUTF8)])

/-- `CreateFund` on a name and an inception date that are any Go strings; the
fund id, a key of the world state, is well-formed text. -/
def CreateFundGo (stub : Stub) (fundId : String) (name inceptionDate : GoString) : Outcome :=
  match stub.GetState fundId with
  | .error _ => { err := some "error retrieving the world state", puts := [] }
  | .ok (some _) => { err := some "an object already exists with that id", puts := [] }
  | .ok none =>
    let fund : GoFund :=
      { DocType := GoString.ofString DOCTYPE_FUND
        ID := GoString.ofString fundId
        Name := name
        CurrentPeriod := 0
        InceptionDate := inceptionDate
        PeriodClosingValue := GoString.ofString "0"
        PeriodOpeningValue := GoString.ofString "0"
        AggregateFixedFees := GoString.ofString "0"
        AggregateDeposits := GoString.ofString "0"
        NextInvestorNumber := 0
        PeriodUpdated := false }
    let fundJson := marshalGoFund fund
    { err := stub.PutState fundId fundJson, puts := [(fundId, fundJson)] }

/-- A stub whose query service takes the query text as a Go string, as it is
when the text is built from a Go string of the caller. -/
structure GoStub where
  GetState : String → Except String (Option Bytes)
  PutState : String → Bytes → Option String
  GetQueryResult : GoString → Except String (List (Except String Bytes))

/-- The stub of the embedding above: the same collaborators, asked about
well-formed query texts. -/
def GoStub.toStub (stub : GoStub) : Stub :=
  { GetState := stub.GetState
    PutState := stub.PutState
    GetQueryResult := fun query => stub.GetQueryResult (GoString.ofString query) }

def investorByNameQueryGo (name : GoString) : GoString :=
  GoString.ofString "\x7b\"selector\":\x7b\"docType\":\"investor\", \"name\": \""
    ++ name ++ GoString.ofString "\"\x7d\x7d"

/-- `QueryInvestorByName` on a name that is any Go string. -/
def QueryInvestorByNameGo (stub : GoStub) (name : GoString) :
    Except String (Option Investor) :=
  match stub.GetQueryResult (investorByNameQueryGo name) with
  | .error e => .error e
  | .ok [] => .ok (some Investor.zero)
  | .ok (.error e :: _) => .error e
  | .ok (.ok value :: _) =>
    match unmarshalInvestor Investor.zero value with
    | .error e => .error e
    | .ok investor => .ok (some investor)

/-- `CreateInvestor` on a name that is any Go string.  The message of the
second branch, which `QueryInvestorByName` never leads to, is given with the
name as `json.Marshal` would write it. -/
def CreateInvestorGo (stub : GoStub) (id : String) (name : GoString) : Outcome :=
  match QueryInvestorByNameGo stub name with
  | .error e => { err := some e, puts := [] }
  | .ok none =>
    { err := some ("an investor with the name \x27" ++ name.toValidUTF8
        ++ "\x27 already exists"),
      puts := [] }
  | .ok (some _) =>
    let investor : GoInvestor :=
      { DocType := GoString.ofString DOCTYPE_INVESTOR, Name := name,
        ID := GoString.ofString id }
    let investorJson := marshalGoInvestor investor
    { err := stub.PutState id investorJson, puts := [(id, investorJson)] }

/-- A stub with an empty world state, on which nothing fails and no query finds
anything. -/
def quietGoStub : GoStub :=
  { GetState := fun _ => .ok none
    PutState := fun _ _ => none
    GetQueryResult := fun _ => .ok [] }

/-- A backend on which every read under `inv-1` fails and nothing else does. -/
def investorReadRefused : Backend :=
  { readError := fun k => if k = "inv-1" then some "read refused" else none
    writeError := fun _ _ => none
    query := fun _ _ => .ok [] }

/-- The struct `CreateFund("fund-1", name, "2020-01-01")` builds when `name` is
the single byte 0xFF. -/
def strayNameFund : GoFund :=
  { DocType := GoString.ofString "fund"
    ID := GoString.ofString "fund-1"
    Name := [GoUnit.stray 255]
    CurrentPeriod := 0
    InceptionDate := GoString.ofString "2020-01-01"
    PeriodClosingValue := GoString.ofString "0"
    PeriodOpeningValue := GoString.ofString "0"
    AggregateFixedFees := GoString.ofString "0"
    AggregateDeposits := GoString.ofString "0"
    NextInvestorNumber := 0
    PeriodUpdated := false }

/-- The struct `CreateInvestor(name)` builds when `name` is the single byte
0xFF and the identifier drawn is `inv-1`. -/
def strayNameInvestor : GoInvestor :=
  { DocType := GoString.ofString "investor"
    ID := GoString.ofString "inv-1"
    Name := [GoUnit.stray 255] }

/-! ## World state, integer and codec lemmas -/

/-- Reading a key back after `put` gives the value put. -/
theorem World.get_put_same (w : World) (k : String) (v : Bytes) :
    (w.put k v).get k = some v := by
  induction w with
  | nil => simp [World.put, World.get]
  | cons hd tl ih =>
    obtain ⟨k', v'⟩ := hd
    by_cases h : k' = k
    · simp [World.put, World.get, h]
    · simp [World.put, World.get, h, ih]

/-- A `put` leaves every other key as it was. -/
theorem World.get_put_other (w : World) (k k' : String) (v : Bytes) (h : k' ≠ k) :
    (w.put k v).get k' = w.get k' := by
  induction w with
  | nil => simp [World.put, World.get, Ne.symm h]
  | cons hd tl ih =>
    obtain ⟨k₀, v₀⟩ := hd
    by_cases h0 : k₀ = k
    · subst h0
      simp [World.put, World.get, Ne.symm h]
    · by_cases h1 : k₀ = k'
      · subst h1
        simp [World.put, World.get, h0]
      · simp [World.put, World.get, h0, h1, ih]

/-- A read through the stub of a backend either fails or reports the world state. -/
theorem stub_GetState_cases (b : Backend) (w : World) (k : String) :
    (b.stub w).GetState k = .ok (w.get k) ∨ ∃ e, (b.stub w).GetState k = .error e := by
  unfold Backend.stub
  cases hr : b.readError k with
  | none => left; simp [hr]
  | some e => right; exact ⟨e, by simp [hr]⟩

/-- An invocation that returns an error leaves the world state as it was. -/
theorem commit_of_err (b : Backend) (w : World) (o : Outcome) (h : o.err ≠ none) :
    b.commit w o = w := by
  unfold Backend.commit
  cases ho : o.err with
  | none => exact absurd ho h
  | some e => rfl

/-- Applying writes leaves a key that none of them names as it was. -/
theorem applyPuts_get_other (b : Backend) (k : String) :
    ∀ (puts : List (String × Bytes)) (w : World), (∀ kv ∈ puts, kv.1 ≠ k) →
      (applyPuts b w puts).get k = w.get k := by
  intro puts
  induction puts with
  | nil => intro w _; rfl
  | cons hd tl ih =>
    intro w h
    obtain ⟨k', v'⟩ := hd
    have hk : k' ≠ k := h (k', v') (List.mem_cons_self _ _)
    have htl : ∀ kv ∈ tl, kv.1 ≠ k := fun kv hkv => h kv (List.mem_cons_of_mem _ hkv)
    unfold applyPuts
    cases hw : b.writeError k' v' with
    | some e => simpa [hw] using ih w htl
    | none =>
      simp only [hw]
      rw [ih _ htl, World.get_put_other _ _ _ _ (Ne.symm hk)]

/-- The range test of a Go `int`, spelled out. -/
theorem inIntRange_iff (n : Int) : inIntRange n = true ↔ -(2 ^ 63) ≤ n ∧ n ≤ 2 ^ 63 - 1 := by
  simp [inIntRange, minInt, maxInt]

/-- Zero is a Go `int`. -/
theorem inIntRange_zero : inIntRange 0 = true := by decide

/-- Wrapping leaves a representable value as it is. -/
theorem wrapInt_of_inIntRange (n : Int) (h : inIntRange n = true) : wrapInt n = n := by
  rw [inIntRange_iff] at h
  unfold wrapInt
  omega

/-- A wrapped value is representable. -/
theorem inIntRange_wrapInt (n : Int) : inIntRange (wrapInt n) = true := by
  rw [inIntRange_iff]
  unfold wrapInt
  omega

/-- Wrapping is compatible with addition. -/
theorem wrapInt_wrapInt_add (a b : Int) : wrapInt (wrapInt a + b) = wrapInt (a + b) := by
  unfold wrapInt
  omega

/-- A fund record whose integers are Go `int`s decodes back from its encoding. -/
theorem unmarshalFund_marshalFund (f : Fund) (h1 : inIntRange f.CurrentPeriod = true)
    (h2 : inIntRange f.NextInvestorNumber = true) :
    unmarshalFund Fund.zero (marshalFund f) = .ok f := by
  simp [unmarshalFund, marshalFund, decodeStruct, decodeMembers, findField, fundFields,
    setFundField, decString, decInt, decBool, h1, h2, Except.map, Fund.zero]

/-- An investor record decodes back from its encoding. -/
theorem unmarshalInvestor_marshalInvestor (i : Investor) :
    unmarshalInvestor Investor.zero (marshalInvestor i) = .ok i := by
  simp [unmarshalInvestor, marshalInvestor, decodeStruct, decodeMembers, findField,
    investorFields, setInvestorField, decString, Except.map, Investor.zero]

/-- Reads through the never-failing backend report the world state. -/
theorem quietBackend_GetState (w : World) (k : String) :
    (quietBackend.stub w).GetState k = .ok (w.get k) := rfl

/-- What a successful `CreateFund` did: the key was reported absent and the one
write it issued, the new fund under `fundId`, was accepted. -/
theorem CreateFund_success (stub : Stub) (fundId name inceptionDate : String)
    (h : (CreateFund stub fundId name inceptionDate).err = none) :
    stub.GetState fundId = .ok none ∧
    stub.PutState fundId (marshalFund
      { DocType := DOCTYPE_FUND, ID := fundId, Name := name, CurrentPeriod := 0,
        InceptionDate := inceptionDate, PeriodClosingValue := "0", PeriodOpeningValue := "0",
        AggregateFixedFees := "0", AggregateDeposits := "0", NextInvestorNumber := 0,
        PeriodUpdated := false }) = none ∧
    (CreateFund stub fundId name inceptionDate).puts = [(fundId, marshalFund
      { DocType := DOCTYPE_FUND, ID := fundId, Name := name, CurrentPeriod := 0,
        InceptionDate := inceptionDate, PeriodClosingValue := "0", PeriodOpeningValue := "0",
        AggregateFixedFees := "0", AggregateDeposits := "0", NextInvestorNumber := 0,
        PeriodUpdated := false })] := by
  unfold CreateFund at h ⊢
  cases hg : stub.GetState fundId with
  | error e => simp [hg] at h
  | ok r =>
    cases r with
    | some v => simp [hg] at h
    | none =>
      simp only [hg] at h
      simp [h]

/-- After a successful `CreateFund` the world state holds the new fund under
`fundId`. -/
theorem CreateFund_commit_get (b : Backend) (w : World) (fundId name inceptionDate : String)
    (h : (CreateFund (b.stub w) fundId name inceptionDate).err = none) :
    (b.commit w (CreateFund (b.stub w) fundId name inceptionDate)).get fundId =
      some (marshalFund
        { DocType := DOCTYPE_FUND, ID := fundId, Name := name, CurrentPeriod := 0,
          InceptionDate := inceptionDate, PeriodClosingValue := "0", PeriodOpeningValue := "0",
          AggregateFixedFees := "0", AggregateDeposits := "0", NextInvestorNumber := 0,
          PeriodUpdated := false }) := by
  obtain ⟨_, hp, hputs⟩ := CreateFund_success (b.stub w) fundId name inceptionDate h
  have hp' : b.writeError fundId _ = none := hp
  simp [Backend.commit, h, hputs, applyPuts, hp', World.get_put_same]

/-- Once both lookups of `CreateCapitalAccount` have succeeded, the error it
returns is the result of the account write alone, and both writes are issued
whatever the store answers to the fund write. -/
theorem CreateCapitalAccount_err_eq (stub : Stub) (id fundId investorId : String)
    (fund : Fund) (investor : Investor)
    (hf : QueryFundById stub fundId = .ok (some fund))
    (hi : QueryInvestorById stub investorId = .ok (some investor)) :
    (CreateCapitalAccount stub id fundId investorId).err =
      stub.PutState id (marshalCapitalAccount
        { DocType := DOCTYPE_CAPITALACCOUNT, ID := id, Fund := fundId,
          Investor := investorId, Number := fund.NextInvestorNumber,
          CurrentPeriod := fund.CurrentPeriod, PeriodClosingValue := "0.0",
          PeriodOpeningValue := "0.0", FixedFees := "0.0", Deposits := "0.0",
          OwnershipPercentage := "0.0",
          HighWaterMark := { Amount := "0.0", Date := "None" } }) ∧
    (CreateCapitalAccount stub id fundId investorId).puts =
      [(fund.ID, marshalFund
          { fund with NextInvestorNumber := wrapInt (fund.NextInvestorNumber + 1) }),
       (id, marshalCapitalAccount
          { DocType := DOCTYPE_CAPITALACCOUNT, ID := id, Fund := fundId,
            Investor := investorId, Number := fund.NextInvestorNumber,
            CurrentPeriod := fund.CurrentPeriod, PeriodClosingValue := "0.0",
            PeriodOpeningValue := "0.0", FixedFees := "0.0", Deposits := "0.0",
            OwnershipPercentage := "0.0",
            HighWaterMark := { Amount := "0.0", Date := "None" } })] := by
  unfold CreateCapitalAccount
  rw [hf, hi]
  exact ⟨rfl, rfl⟩

/-- One successful `CreateCapitalAccount` over a world state that holds, under
`fundId`, a fund document the contract wrote: the two writes it issues. -/
theorem CreateCapitalAccount_step (b : Backend) (w : World) (id fundId investorId : String)
    (f : Fund) (hget : w.get fundId = some (marshalFund f)) (hid : f.ID = fundId)
    (hcp : inIntRange f.CurrentPeriod = true) (hn : inIntRange f.NextInvestorNumber = true)
    (herr : (CreateCapitalAccount (b.stub w) id fundId investorId).err = none) :
    (CreateCapitalAccount (b.stub w) id fundId investorId).puts =
      [(fundId, marshalFund
          { f with NextInvestorNumber := wrapInt (f.NextInvestorNumber + 1) }),
       (id, marshalCapitalAccount
          { DocType := DOCTYPE_CAPITALACCOUNT, ID := id, Fund := fundId,
            Investor := investorId, Number := f.NextInvestorNumber,
            CurrentPeriod := f.CurrentPeriod, PeriodClosingValue := "0.0",
            PeriodOpeningValue := "0.0", FixedFees := "0.0", Deposits := "0.0",
            OwnershipPercentage := "0.0",
            HighWaterMark := { Amount := "0.0", Date := "None" } })] := by
  have hq : QueryFundById (b.stub w) fundId = .ok (some f) := by
    rcases stub_GetState_cases b w fundId with h1 | ⟨e, h1⟩
    · simp [QueryFundById, h1, hget, unmarshalFund_marshalFund f hcp hn]
    · simp [CreateCapitalAccount, QueryFundById, h1] at herr
  unfold CreateCapitalAccount at herr ⊢
  rw [hq] at herr ⊢
  simp only [] at herr ⊢
  cases hi : QueryInvestorById (b.stub w) investorId with
  | error e => simp [hi] at herr
  | ok r =>
    cases r with
    | none => simp [hi] at herr
    | some inv => simp [hid]

/-- The fund document after one successful `CreateCapitalAccount` whose writes
were accepted and whose identifier is not the fund key. -/
theorem CreateCapitalAccount_step_get (b : Backend) (w : World)
    (id fundId investorId : String)
    (f : Fund) (hget : w.get fundId = some (marshalFund f)) (hid : f.ID = fundId)
    (hcp : inIntRange f.CurrentPeriod = true) (hn : inIntRange f.NextInvestorNumber = true)
    (herr : (CreateCapitalAccount (b.stub w) id fundId investorId).err = none)
    (hacc : ∀ kv ∈ (CreateCapitalAccount (b.stub w) id fundId investorId).puts,
      b.writeError kv.1 kv.2 = none)
    (hne : id ≠ fundId) :
    (b.commit w (CreateCapitalAccount (b.stub w) id fundId investorId)).get fundId =
      some (marshalFund { f with NextInvestorNumber := wrapInt (f.NextInvestorNumber + 1) }) := by
  have hputs := CreateCapitalAccount_step b w id fundId investorId f hget hid hcp hn herr
  rw [hputs] at hacc
  have h1 := hacc _ (List.mem_cons_self _ _)
  have h2 := hacc _ (List.mem_cons_of_mem _ (List.mem_cons_self _ _))
  simp only [] at h1 h2
  unfold Backend.commit
  rw [herr, hputs]
  simp only [applyPuts, h1, h2]
  rw [World.get_put_other _ _ _ _ (Ne.symm hne), World.get_put_same]

/-- A run has one outcome per call. -/
theorem createAccounts_length (b : Backend) (fundId : String) :
    ∀ (calls : List (String × String)) (w : World),
      (createAccounts b fundId w calls).1.length = calls.length := by
  intro calls
  induction calls with
  | nil => intro w; rfl
  | cons c rest ih =>
    intro w
    obtain ⟨id, investorId⟩ := c
    simp [createAccounts, ih]

/-- The numbering along a run: starting from a stored fund `f`, the call of
index `i` issues the fund with counter `f.NextInvestorNumber + i + 1` and the
account with number `f.NextInvestorNumber + i`, both wrapped into a Go `int`,
and the run leaves the counter at `f.NextInvestorNumber + calls.length`. -/
theorem createAccounts_numbering (b : Backend) (fundId : String) :
    ∀ (calls : List (String × String)) (w : World) (f : Fund),
      w.get fundId = some (marshalFund f) → f.ID = fundId →
      inIntRange f.CurrentPeriod = true → inIntRange f.NextInvestorNumber = true →
      (∀ o ∈ (createAccounts b fundId w calls).1, o.err = none) →
      (∀ o ∈ (createAccounts b fundId w calls).1, ∀ kv ∈ o.puts,
        b.writeError kv.1 kv.2 = none) →
      (∀ c ∈ calls, c.1 ≠ fundId) →
      (∀ (i : Nat) (c : String × String), calls[i]? = some c →
        ((createAccounts b fundId w calls).1[i]?).map Outcome.puts = some
          [(fundId, marshalFund
              { f with NextInvestorNumber := wrapInt (f.NextInvestorNumber + (i + 1 : Nat)) }),
           (c.1, marshalCapitalAccount
              { DocType := DOCTYPE_CAPITALACCOUNT, ID := c.1, Fund := fundId,
                Investor := c.2, Number := wrapInt (f.NextInvestorNumber + (i : Nat)),
                CurrentPeriod := f.CurrentPeriod, PeriodClosingValue := "0.0",
                PeriodOpeningValue := "0.0", FixedFees := "0.0", Deposits := "0.0",
                OwnershipPercentage := "0.0",
                HighWaterMark := { Amount := "0.0", Date := "None" } })]) ∧
      (createAccounts b fundId w calls).2.get fundId = some (marshalFund
        { f with NextInvestorNumber := wrapInt (f.NextInvestorNumber + (calls.length : Nat)) }) := by
  intro calls
  induction calls with
  | nil =>
    intro w f hget _ _ hn _ _ _
    refine ⟨fun i c h => by simp at h, ?_⟩
    simp [createAccounts, hget, wrapInt_of_inIntRange _ hn]
  | cons c rest ih =>
    intro w f hget hid hcp hn hok hacc hids
    obtain ⟨id, investorId⟩ := c
    have herr : (CreateCapitalAccount (b.stub w) id fundId investorId).err = none :=
      hok _ (by simp [createAccounts])
    have hacc0 : ∀ kv ∈ (CreateCapitalAccount (b.stub w) id fundId investorId).puts,
        b.writeError kv.1 kv.2 = none := hacc _ (by simp [createAccounts])
    have hne : id ≠ fundId := hids (id, investorId) (List.mem_cons_self _ _)
    have hputs := CreateCapitalAccount_step b w id fundId investorId f hget hid hcp hn herr
    have hget' := CreateCapitalAccount_step_get b w id fundId investorId f hget hid hcp hn
      herr hacc0 hne
    have hrec := ih (b.commit w (CreateCapitalAccount (b.stub w) id fundId investorId))
      { f with NextInvestorNumber := wrapInt (f.NextInvestorNumber + 1) }
      hget' hid hcp (inIntRange_wrapInt _)
      (fun o ho => hok o (by simp [createAccounts, ho]))
      (fun o ho => hacc o (by simp [createAccounts, ho]))
      (fun c hc => hids c (List.mem_cons_of_mem _ hc))
    obtain ⟨hrec1, hrec2⟩ := hrec
    refine ⟨?_, ?_⟩
    · intro i c hc
      cases i with
      | zero =>
        simp only [List.getElem?_cons_zero, Option.some.injEq] at hc
        subst hc
        simp [createAccounts, hputs, wrapInt_of_inIntRange _ hn]
      | succ j =>
        simp only [List.getElem?_cons_succ] at hc
        have := hrec1 j c hc
        simp only [createAccounts, List.getElem?_cons_succ]
        rw [this]
        simp only [wrapInt_wrapInt_add]
        have e1 : f.NextInvestorNumber + 1 + ((j + 1 : Nat) : Int)
            = f.NextInvestorNumber + ((j + 1 + 1 : Nat) : Int) := by push_cast; ring
        have e2 : f.NextInvestorNumber + 1 + ((j : Nat) : Int)
            = f.NextInvestorNumber + ((j + 1 : Nat) : Int) := by push_cast; ring
        rw [e1, e2]
    · simp only [createAccounts]
      rw [hrec2]
      simp only [wrapInt_wrapInt_add, List.length_cons]
      have e1 : f.NextInvestorNumber + 1 + ((rest.length : Nat) : Int)
          = f.NextInvestorNumber + ((rest.length + 1 : Nat) : Int) := by push_cast; ring
      rw [e1]

/-- On a backend that never fails, every call of a run succeeds as long as the
fund and the investor are stored and no identifier drawn hits either key. -/
theorem createAccounts_quiet_ok (fundId investorId : String) (inv : Investor)
    (hfi : fundId ≠ investorId) :
    ∀ (calls : List (String × String)) (w : World) (f : Fund),
      w.get fundId = some (marshalFund f) → f.ID = fundId →
      inIntRange f.CurrentPeriod = true → inIntRange f.NextInvestorNumber = true →
      w.get investorId = some (marshalInvestor inv) →
      (∀ c ∈ calls, c.1 ≠ fundId ∧ c.1 ≠ investorId ∧ c.2 = investorId) →
      ∀ o ∈ (createAccounts quietBackend fundId w calls).1, o.err = none := by
  intro calls
  induction calls with
  | nil => intro w f _ _ _ _ _ _ o ho; simp [createAccounts] at ho
  | cons c rest ih =>
    intro w f hget hid hcp hn hinv hcalls o ho
    obtain ⟨id, investorId'⟩ := c
    obtain ⟨hne1, hne2, hc2⟩ := hcalls (id, investorId') (List.mem_cons_self _ _)
    simp only at hne1 hne2 hc2
    subst hc2
    have herr : (CreateCapitalAccount (quietBackend.stub w) id fundId investorId').err
        = none := by
      simp [CreateCapitalAccount, QueryFundById, QueryInvestorById, quietBackend_GetState,
        hget, hinv, unmarshalFund_marshalFund f hcp hn, unmarshalInvestor_marshalInvestor]
      rfl
    simp only [createAccounts, List.mem_cons] at ho
    rcases ho with ho | ho
    · rw [ho]; exact herr
    · have hacc0 : ∀ kv ∈ (CreateCapitalAccount (quietBackend.stub w) id fundId
          investorId').puts, quietBackend.writeError kv.1 kv.2 = none := fun _ _ => rfl
      have hget' := CreateCapitalAccount_step_get quietBackend w id fundId investorId' f
        hget hid hcp hn herr hacc0 hne1
      have hputs := CreateCapitalAccount_step quietBackend w id fundId investorId' f
        hget hid hcp hn herr
      have hinv' : (quietBackend.commit w
          (CreateCapitalAccount (quietBackend.stub w) id fundId investorId')).get investorId'
          = some (marshalInvestor inv) := by
        unfold Backend.commit
        rw [herr]
        simp only []
        rw [applyPuts_get_other]
        · exact hinv
        · intro kv hkv
          rw [hputs] at hkv
          simp only [List.mem_cons, List.mem_singleton, List.not_mem_nil, or_false] at hkv
          rcases hkv with h | h <;> rw [h]
          · exact hfi
          · exact hne2
      exact ih _ _ hget' hid hcp (inIntRange_wrapInt _) hinv'
        (fun c hc => hcalls c (List.mem_cons_of_mem _ hc)) o ho

/-- The identifiers of `manyCalls` differ from the fund key and the investor key. -/
theorem manyCalls_ids (n : Nat) :
    ∀ c ∈ manyCalls n, c.1 ≠ "fund-1" ∧ c.1 ≠ "inv-1" ∧ c.2 = "inv-1" := by
  intro c hc
  simp only [manyCalls, List.mem_map, List.mem_range] at hc
  obtain ⟨i, _, rfl⟩ := hc
  refine ⟨?_, ?_, rfl⟩
  · intro h
    have := congrArg String.data h
    simp at this
  · intro h
    have := congrArg String.data h
    simp at this

/-- A property of the record that every field store keeps is kept by the walk
over the members of an object. -/
theorem decodeMembers_preserves {α : Type} (P : α → Prop) (names : List String)
    (set : α → String → JVal → Except String α)
    (hset : ∀ a n v a', P a → set a n v = .ok a' → P a') :
    ∀ (ms : List (String × JVal)) (a a' : α), P a →
      decodeMembers names set a ms = .ok a' → P a' := by
  intro ms
  induction ms with
  | nil =>
    intro a a' ha h
    simp only [decodeMembers] at h
    injection h with h
    rw [← h]
    exact ha
  | cons m rest ih =>
    intro a a' ha h
    obtain ⟨k, v⟩ := m
    unfold decodeMembers at h
    cases hf : findField names k with
    | none =>
      simp only [hf] at h
      exact ih a a' ha h
    | some n =>
      simp only [hf] at h
      cases hs : set a n v with
      | error e => simp [hs] at h
      | ok a₁ =>
        simp only [hs] at h
        exact ih a₁ a' (hset a n v a₁ ha hs) h

/-- An integer decoded into an `int` field that held a Go `int` is a Go `int`. -/
theorem decInt_inIntRange (cur : Int) (v : JVal) (x : Int) (hc : inIntRange cur = true)
    (h : decInt cur v = .ok x) : inIntRange x = true := by
  cases v with
  | null => simp [decInt] at h; rw [← h]; exact hc
  | int n =>
    simp only [decInt] at h
    by_cases hn : inIntRange n = true
    · simp [hn] at h; rw [← h]; exact hn
    · simp [hn] at h
  | bool b => simp [decInt] at h
  | float l => simp [decInt] at h
  | str s => simp [decInt] at h
  | arr l => simp [decInt] at h
  | obj l => simp [decInt] at h

/-- A mapped result is a value exactly when the result mapped is one. -/
theorem except_map_ok {α β : Type} (g : α → β) (x : Except String α) (y : β)
    (h : x.map g = .ok y) : ∃ a, x = .ok a ∧ y = g a := by
  cases x with
  | error e => simp [Except.map] at h
  | ok a =>
    simp only [Except.map] at h
    injection h with h
    exact ⟨a, rfl, h.symm⟩

/-- Storing one member into a fund record keeps its integers Go `int`s. -/
theorem setFundField_inIntRange (f : Fund) (n : String) (v : JVal) (f' : Fund)
    (hf : inIntRange f.CurrentPeriod = true ∧ inIntRange f.NextInvestorNumber = true)
    (h : setFundField f n v = .ok f') :
    inIntRange f'.CurrentPeriod = true ∧ inIntRange f'.NextInvestorNumber = true := by
  unfold setFundField at h
  by_cases h0 : n = "docType"
  · rw [if_pos h0] at h
    obtain ⟨x, hx, rfl⟩ := except_map_ok _ _ _ h
    exact hf
  rw [if_neg h0] at h
  by_cases h1 : n = "id"
  · rw [if_pos h1] at h
    obtain ⟨x, hx, rfl⟩ := except_map_ok _ _ _ h
    exact hf
  rw [if_neg h1] at h
  by_cases h2 : n = "name"
  · rw [if_pos h2] at h
    obtain ⟨x, hx, rfl⟩ := except_map_ok _ _ _ h
    exact hf
  rw [if_neg h2] at h
  by_cases h3 : n = "currentPeriod"
  · rw [if_pos h3] at h
    obtain ⟨x, hx, rfl⟩ := except_map_ok _ _ _ h
    exact ⟨decInt_inIntRange _ v x hf.1 hx, hf.2⟩
  rw [if_neg h3] at h
  by_cases h4 : n = "inceptionDate"
  · rw [if_pos h4] at h
    obtain ⟨x, hx, rfl⟩ := except_map_ok _ _ _ h
    exact hf
  rw [if_neg h4] at h
  by_cases h5 : n = "periodClosingValue"
  · rw [if_pos h5] at h
    obtain ⟨x, hx, rfl⟩ := except_map_ok _ _ _ h
    exact hf
  rw [if_neg h5] at h
  by_cases h6 : n = "periodOpeningValue"
  · rw [if_pos h6] at h
    obtain ⟨x, hx, rfl⟩ := except_map_ok _ _ _ h
    exact hf
  rw [if_neg h6] at h
  by_cases h7 : n = "aggregateFixedFees"
  · rw [if_pos h7] at h
    obtain ⟨x, hx, rfl⟩ := except_map_ok _ _ _ h
    exact hf
  rw [if_neg h7] at h
  by_cases h8 : n = "aggregateDeposits"
  · rw [if_pos h8] at h
    obtain ⟨x, hx, rfl⟩ := except_map_ok _ _ _ h
    exact hf
  rw [if_neg h8] at h
  by_cases h9 : n = "nextInvestorNumber"
  · rw [if_pos h9] at h
    obtain ⟨x, hx, rfl⟩ := except_map_ok _ _ _ h
    exact ⟨hf.1, decInt_inIntRange _ v x hf.2 hx⟩
  rw [if_neg h9] at h
  by_cases h10 : n = "periodUpdated"
  · rw [if_pos h10] at h
    obtain ⟨x, hx, rfl⟩ := except_map_ok _ _ _ h
    exact hf
  rw [if_neg h10] at h
  injection h with h
  rw [← h]
  exact hf

/-- The integers of a decoded fund record are Go `int`s. -/
theorem unmarshalFund_inIntRange (data : Bytes) (f : Fund)
    (h : unmarshalFund Fund.zero data = .ok f) :
    inIntRange f.CurrentPeriod = true ∧ inIntRange f.NextInvestorNumber = true := by
  cases data with
  | malformed t => simp [unmarshalFund] at h
  | text v =>
    cases v with
    | null =>
      simp only [unmarshalFund, decodeStruct] at h
      injection h with h
      rw [← h]
      exact ⟨inIntRange_zero, inIntRange_zero⟩
    | obj ms =>
      simp only [unmarshalFund, decodeStruct] at h
      exact decodeMembers_preserves
        (fun g => inIntRange g.CurrentPeriod = true ∧ inIntRange g.NextInvestorNumber = true)
        fundFields setFundField setFundField_inIntRange ms Fund.zero f
        ⟨inIntRange_zero, inIntRange_zero⟩ h
    | bool b => simp [unmarshalFund, decodeStruct] at h
    | int n => simp [unmarshalFund, decodeStruct] at h
    | float l => simp [unmarshalFund, decodeStruct] at h
    | str s => simp [unmarshalFund, decodeStruct] at h
    | arr l => simp [unmarshalFund, decodeStruct] at h

/-- A successful `CreateCapitalAccount` found a fund and an investor. -/
theorem CreateCapitalAccount_success (stub : Stub) (id fundId investorId : String)
    (herr : (CreateCapitalAccount stub id fundId investorId).err = none) :
    ∃ fund investor, QueryFundById stub fundId = .ok (some fund) ∧
      QueryInvestorById stub investorId = .ok (some investor) := by
  unfold CreateCapitalAccount at herr
  cases hf : QueryFundById stub fundId with
  | error e => simp [hf] at herr
  | ok r =>
    cases r with
    | none => simp [hf] at herr
    | some fund =>
      simp only [hf] at herr
      cases hi : QueryInvestorById stub investorId with
      | error e => simp [hi] at herr
      | ok r' =>
        cases r' with
        | none => simp [hi] at herr
        | some investor => exact ⟨fund, investor, rfl, rfl⟩

/-- The point lookup of a fund, given the bytes under the key and their decoding. -/
theorem QueryFundById_of_GetState (stub : Stub) (fundId : String) (data : Bytes) (f : Fund)
    (hget : stub.GetState fundId = .ok (some data))
    (hdec : unmarshalFund Fund.zero data = .ok f) :
    QueryFundById stub fundId = .ok (some f) := by
  simp [QueryFundById, hget, hdec]

/-- A capital account record whose integers are Go `int`s decodes back from its encoding. -/
theorem unmarshalCapitalAccount_marshalCapitalAccount (c : CapitalAccount)
    (h1 : inIntRange c.Number = true) (h2 : inIntRange c.CurrentPeriod = true) :
    unmarshalCapitalAccount CapitalAccount.zero (marshalCapitalAccount c) = .ok c := by
  simp [unmarshalCapitalAccount, marshalCapitalAccount, decodeStruct, decodeMembers, findField,
    capitalAccountFields, setCapitalAccountField, decString, decInt, h1, h2, Except.map,
    CapitalAccount.zero, encodeHighWaterMark, highWaterMarkFields, setHighWaterMarkField,
    HighWaterMark.zero]

/-- A successful `CreateCapitalAccount` over a stub that holds at `fundId` bytes
decoding to the fund `f`: the two writes it issued, the second of which the
store accepted. -/
theorem CreateCapitalAccount_puts_of_fund (stub : Stub) (id fundId investorId : String)
    (data : Bytes) (f : Fund)
    (hget : stub.GetState fundId = .ok (some data))
    (hdec : unmarshalFund Fund.zero data = .ok f)
    (herr : (CreateCapitalAccount stub id fundId investorId).err = none) :
    (CreateCapitalAccount stub id fundId investorId).puts =
      [(f.ID, marshalFund { f with NextInvestorNumber := wrapInt (f.NextInvestorNumber + 1) }),
       (id, marshalCapitalAccount
      { DocType := "capitalAccount", ID := id, Fund := fundId, Investor := investorId,
        Number := f.NextInvestorNumber, CurrentPeriod := f.CurrentPeriod,
        PeriodClosingValue := "0.0", PeriodOpeningValue := "0.0", FixedFees := "0.0",
        Deposits := "0.0", OwnershipPercentage := "0.0",
        HighWaterMark := { Amount := "0.0", Date := "None" } })] ∧
    stub.PutState id (marshalCapitalAccount
      { DocType := "capitalAccount", ID := id, Fund := fundId, Investor := investorId,
        Number := f.NextInvestorNumber, CurrentPeriod := f.CurrentPeriod,
        PeriodClosingValue := "0.0", PeriodOpeningValue := "0.0", FixedFees := "0.0",
        Deposits := "0.0", OwnershipPercentage := "0.0",
        HighWaterMark := { Amount := "0.0", Date := "None" } }) = none := by
  have hq := QueryFundById_of_GetState stub fundId data f hget hdec
  obtain ⟨fund, investor, hf, hi⟩ := CreateCapitalAccount_success stub id fundId investorId herr
  rw [hq] at hf
  injection hf with hf
  injection hf with hf
  subst hf
  obtain ⟨he, hp⟩ := CreateCapitalAccount_err_eq stub id fundId investorId f investor hq hi
  refine ⟨hp, ?_⟩
  rw [he] at herr
  exact herr

/-- When every element has a value under a fallible map, the results are the
values of some list. -/
theorem exists_ok_list {α β : Type} (f : α → Except String β) :
    ∀ (ds : List α), (∀ d ∈ ds, ∃ c, f d = .ok c) → ∃ l : List β, ds.map f = l.map Except.ok := by
  intro ds
  induction ds with
  | nil => intro _; exact ⟨[], rfl⟩
  | cons d rest ih =>
    intro h
    obtain ⟨c, hc⟩ := h d (List.mem_cons_self _ _)
    obtain ⟨l, hl⟩ := ih (fun x hx => h x (List.mem_cons_of_mem _ hx))
    exact ⟨c :: l, by simp [hc, hl]⟩

/-- The collecting loop over documents that all decode returns their decodings, appended in order. -/
theorem collectCapitalAccounts_ok : ∀ (ds : List Bytes) (acc l : List CapitalAccount),
    ds.map (unmarshalCapitalAccount CapitalAccount.zero) = l.map Except.ok →
    collectCapitalAccounts (ds.map Except.ok) acc = .ok (acc ++ l) := by
  intro ds
  induction ds with
  | nil =>
    intro acc l h
    cases l with
    | nil => simp [collectCapitalAccounts]
    | cons x xs => simp at h
  | cons d rest ih =>
    intro acc l h
    cases l with
    | nil => simp at h
    | cons x xs =>
      simp only [List.map_cons, List.cons.injEq] at h
      obtain ⟨hd, htl⟩ := h
      simp only [List.map_cons, collectCapitalAccounts, hd]
      rw [ih (acc ++ [x]) xs htl]
      simp

/-- The collecting loop over documents one of which fails to decode returns an error. -/
theorem collectCapitalAccounts_error : ∀ (ds : List Bytes) (acc : List CapitalAccount),
    (∃ d ∈ ds, ∃ e, unmarshalCapitalAccount CapitalAccount.zero d = .error e) →
    ∃ e, collectCapitalAccounts (ds.map Except.ok) acc = .error e := by
  intro ds
  induction ds with
  | nil =>
    intro acc h
    obtain ⟨d, hd, _⟩ := h
    simp at hd
  | cons d rest ih =>
    intro acc h
    cases hu : unmarshalCapitalAccount CapitalAccount.zero d with
    | error e => exact ⟨e, by simp [collectCapitalAccounts, hu]⟩
    | ok c =>
      obtain ⟨d', hd', e, he⟩ := h
      simp only [List.mem_cons] at hd'
      rcases hd' with rfl | hmem
      · rw [hu] at he
        simp at he
      · obtain ⟨e', he'⟩ := ih (acc ++ [c]) ⟨d', hmem, e, he⟩
        exact ⟨e', by simp only [List.map_cons, collectCapitalAccounts, hu]; exact he'⟩

/-- The collecting loop over documents that all decode returns their decodings, appended in order. -/
theorem collectCapitalAccountActions_ok : ∀ (ds : List Bytes) (acc l : List CapitalAccountAction),
    ds.map (unmarshalCapitalAccountAction CapitalAccountAction.zero) = l.map Except.ok →
    collectCapitalAccountActions (ds.map Except.ok) acc = .ok (acc ++ l) := by
  intro ds
  induction ds with
  | nil =>
    intro acc l h
    cases l with
    | nil => simp [collectCapitalAccountActions]
    | cons x xs => simp at h
  | cons d rest ih =>
    intro acc l h
    cases l with
    | nil => simp at h
    | cons x xs =>
      simp only [List.map_cons, List.cons.injEq] at h
      obtain ⟨hd, htl⟩ := h
      simp only [List.map_cons, collectCapitalAccountActions, hd]
      rw [ih (acc ++ [x]) xs htl]
      simp

/-- The collecting loop over documents one of which fails to decode returns an error. -/
theorem collectCapitalAccountActions_error : ∀ (ds : List Bytes) (acc : List CapitalAccountAction),
    (∃ d ∈ ds, ∃ e, unmarshalCapitalAccountAction CapitalAccountAction.zero d = .error e) →
    ∃ e, collectCapitalAccountActions (ds.map Except.ok) acc = .error e := by
  intro ds
  induction ds with
  | nil =>
    intro acc h
    obtain ⟨d, hd, _⟩ := h
    simp at hd
  | cons d rest ih =>
    intro acc h
    cases hu : unmarshalCapitalAccountAction CapitalAccountAction.zero d with
    | error e => exact ⟨e, by simp [collectCapitalAccountActions, hu]⟩
    | ok c =>
      obtain ⟨d', hd', e, he⟩ := h
      simp only [List.mem_cons] at hd'
      rcases hd' with rfl | hmem
      · rw [hu] at he
        simp at he
      · obtain ⟨e', he'⟩ := ih (acc ++ [c]) ⟨d', hmem, e, he⟩
        exact ⟨e', by simp only [List.map_cons, collectCapitalAccountActions, hu]; exact he'⟩

/-- What a successful `CreateInvestor` did: the one write it issued, the new
investor under the identifier drawn, was accepted. -/
theorem CreateInvestor_success (stub : Stub) (id name : String)
    (h : (CreateInvestor stub id name).err = none) :
    stub.PutState id (marshalInvestor
      { DocType := DOCTYPE_INVESTOR, Name := name, ID := id }) = none ∧
    (CreateInvestor stub id name).puts = [(id, marshalInvestor
      { DocType := DOCTYPE_INVESTOR, Name := name, ID := id })] := by
  unfold CreateInvestor at h ⊢
  cases hq : QueryInvestorByName stub name with
  | error e => simp [hq] at h
  | ok r =>
    cases r with
    | none => simp [hq] at h
    | some inv =>
      simp only [hq] at h ⊢
      simpa using h

/-- An entry of a world state after `put` is the entry put or an entry from before. -/
theorem World.mem_put (w : World) (k : String) (v : Bytes) (kv : String × Bytes)
    (h : kv ∈ w.put k v) : kv = (k, v) ∨ kv ∈ w := by
  induction w with
  | nil =>
    simp only [World.put, List.mem_singleton] at h
    exact Or.inl h
  | cons hd tl ih =>
    obtain ⟨k', v'⟩ := hd
    unfold World.put at h
    by_cases hk : k' = k
    · simp only [hk, if_true, List.mem_cons] at h
      rcases h with h | h
      · exact Or.inl h
      · exact Or.inr (List.mem_cons_of_mem _ h)
    · simp only [hk, if_false, List.mem_cons] at h
      rcases h with h | h
      · exact Or.inr (by rw [h]; exact List.mem_cons_self _ _)
      · rcases ih h with h' | h'
        · exact Or.inl h'
        · exact Or.inr (List.mem_cons_of_mem _ h')

/-- A value read under a key is an entry of the world state. -/
theorem World.mem_of_get (w : World) (k : String) (v : Bytes) (h : w.get k = some v) :
    (k, v) ∈ w := by
  induction w with
  | nil => simp [World.get] at h
  | cons hd tl ih =>
    obtain ⟨k', v'⟩ := hd
    unfold World.get at h
    by_cases hk : k' = k
    · simp only [hk, if_true, Option.some.injEq] at h
      rw [hk, h]
      exact List.mem_cons_self _ _
    · simp only [hk, if_false] at h
      exact List.mem_cons_of_mem _ (ih h)

/-- A member name selects the field `id` of a fund record exactly when it
selects the one field of the record that has only `ID`. -/
theorem findField_fund_id (k : String) :
    findField fundFields k = some "id" ↔ findField ["id"] k = some "id" := by
  by_cases hk : foldName "id" = foldName k
  · have h1 : findField ["id"] k = some "id" := by
      by_cases he : "id" = k
      · simp [findField, List.find?, he]
      · simp [findField, List.find?, he, hk]
    have hne : ∀ n : String, foldName n ≠ foldName "id" → n ≠ k ∧ foldName n ≠ foldName k := by
      intro n hn
      refine ⟨?_, ?_⟩
      · intro h; rw [h] at hn; exact hn hk.symm
      · intro h; rw [← hk] at h; exact hn h
    have c0 := hne "docType" (by decide)
    have c2 := hne "name" (by decide)
    have c3 := hne "currentPeriod" (by decide)
    have c4 := hne "inceptionDate" (by decide)
    have c5 := hne "periodClosingValue" (by decide)
    have c6 := hne "periodOpeningValue" (by decide)
    have c7 := hne "aggregateFixedFees" (by decide)
    have c8 := hne "aggregateDeposits" (by decide)
    have c9 := hne "nextInvestorNumber" (by decide)
    have c10 := hne "periodUpdated" (by decide)
    have h2 : findField fundFields k = some "id" := by
      by_cases he : "id" = k
      · subst he
        simp [findField, fundFields, List.find?]
      · simp [findField, fundFields, List.find?, he, hk, c0.1, c0.2, c2.1, c2.2, c3.1, c3.2,
          c4.1, c4.2, c5.1, c5.2, c6.1, c6.2, c7.1, c7.2, c8.1, c8.2, c9.1, c9.2, c10.1, c10.2]
    exact ⟨fun _ => h1, fun _ => h2⟩
  · have hek : "id" ≠ k := fun h => hk (by rw [h])
    have h1 : findField ["id"] k = none := by
      simp [findField, List.find?, hek, hk]
    have h2 : findField fundFields k ≠ some "id" := by
      intro h
      unfold findField at h
      cases hx : fundFields.find? (fun n => n = k) with
      | some n =>
        rw [hx] at h
        simp only [Option.some.injEq] at h
        have := List.find?_some hx
        simp only [decide_eq_true_eq] at this
        exact hek (h ▸ this)
      | none =>
        rw [hx] at h
        have := List.find?_some h
        simp only [decide_eq_true_eq] at this
        exact hk this
    rw [h1]
    exact ⟨fun h => absurd h h2, fun h => by simp at h⟩

/-- Storing a member that selects another field than `id` leaves the `ID` of a
fund record as it was. -/
theorem setFundField_ID_of_ne (a : Fund) (n : String) (v : JVal) (a₁ : Fund)
    (hn : n ≠ "id") (h : setFundField a n v = .ok a₁) : a₁.ID = a.ID := by
  unfold setFundField at h
  by_cases h0 : n = "docType"
  · rw [if_pos h0] at h
    obtain ⟨x, _, rfl⟩ := except_map_ok _ _ _ h
    rfl
  rw [if_neg h0] at h
  by_cases h1 : n = "id"
  · exact absurd h1 hn
  rw [if_neg h1] at h
  by_cases h2 : n = "name"
  · rw [if_pos h2] at h
    obtain ⟨x, _, rfl⟩ := except_map_ok _ _ _ h
    rfl
  rw [if_neg h2] at h
  by_cases h3 : n = "currentPeriod"
  · rw [if_pos h3] at h
    obtain ⟨x, _, rfl⟩ := except_map_ok _ _ _ h
    rfl
  rw [if_neg h3] at h
  by_cases h4 : n = "inceptionDate"
  · rw [if_pos h4] at h
    obtain ⟨x, _, rfl⟩ := except_map_ok _ _ _ h
    rfl
  rw [if_neg h4] at h
  by_cases h5 : n = "periodClosingValue"
  · rw [if_pos h5] at h
    obtain ⟨x, _, rfl⟩ := except_map_ok _ _ _ h
    rfl
  rw [if_neg h5] at h
  by_cases h6 : n = "periodOpeningValue"
  · rw [if_pos h6] at h
    obtain ⟨x, _, rfl⟩ := except_map_ok _ _ _ h
    rfl
  rw [if_neg h6] at h
  by_cases h7 : n = "aggregateFixedFees"
  · rw [if_pos h7] at h
    obtain ⟨x, _, rfl⟩ := except_map_ok _ _ _ h
    rfl
  rw [if_neg h7] at h
  by_cases h8 : n = "aggregateDeposits"
  · rw [if_pos h8] at h
    obtain ⟨x, _, rfl⟩ := except_map_ok _ _ _ h
    rfl
  rw [if_neg h8] at h
  by_cases h9 : n = "nextInvestorNumber"
  · rw [if_pos h9] at h
    obtain ⟨x, _, rfl⟩ := except_map_ok _ _ _ h
    rfl
  rw [if_neg h9] at h
  by_cases h10 : n = "periodUpdated"
  · rw [if_pos h10] at h
    obtain ⟨x, _, rfl⟩ := except_map_ok _ _ _ h
    rfl
  rw [if_neg h10] at h
  injection h with h
  rw [← h]

/-- Storing a member that selects the field `id` of a fund record stores what
the record with the one field `ID` stores. -/
theorem setFundField_ID_of_eq (a : Fund) (v : JVal) (a₁ : Fund)
    (h : setFundField a "id" v = .ok a₁) : setIdField a.ID "id" v = .ok a₁.ID := by
  unfold setFundField at h
  rw [if_neg (by decide), if_pos rfl] at h
  obtain ⟨x, hx, rfl⟩ := except_map_ok _ _ _ h
  simp [setIdField, hx]

/-- The walk over the members of an object stores into the `ID` of a fund
record what it stores into the record with the one field `ID`. -/
theorem decodeMembers_fund_id : ∀ (ms : List (String × JVal)) (a a' : Fund),
    decodeMembers fundFields setFundField a ms = .ok a' →
    decodeMembers ["id"] setIdField a.ID ms = .ok a'.ID := by
  intro ms
  induction ms with
  | nil =>
    intro a a' h
    simp only [decodeMembers] at h ⊢
    injection h with h
    rw [h]
  | cons m rest ih =>
    intro a a' h
    obtain ⟨k, v⟩ := m
    unfold decodeMembers at h ⊢
    cases hf : findField fundFields k with
    | none =>
      simp only [hf] at h
      have hi : findField ["id"] k = none := by
        cases hx : findField ["id"] k with
        | none => rfl
        | some n =>
          have hn : n = "id" := by
            unfold findField at hx
            cases hy : List.find? (fun n => decide (n = k)) ["id"] with
            | some m =>
              rw [hy] at hx
              have := List.mem_of_find?_eq_some hy
              simp only [List.mem_singleton] at this
              simp only [Option.some.injEq] at hx
              rw [← hx, this]
            | none =>
              rw [hy] at hx
              have := List.mem_of_find?_eq_some hx
              simpa using this
          rw [hn] at hx
          rw [(findField_fund_id k).mpr hx] at hf
          simp at hf
      simp only [hi]
      exact ih a a' h
    | some n =>
      simp only [hf] at h
      cases hs : setFundField a n v with
      | error e => simp [hs] at h
      | ok a₁ =>
        simp only [hs] at h
        by_cases hn : n = "id"
        · subst hn
          have hi := (findField_fund_id k).mp hf
          simp only [hi, setFundField_ID_of_eq a v a₁ hs]
          exact ih a₁ a' h
        · have hi : findField ["id"] k = none := by
            cases hx : findField ["id"] k with
            | none => rfl
            | some m =>
              have hm : m = "id" := by
                unfold findField at hx
                cases hy : List.find? (fun n => decide (n = k)) ["id"] with
                | some m' =>
                  rw [hy] at hx
                  have := List.mem_of_find?_eq_some hy
                  simp only [List.mem_singleton] at this
                  simp only [Option.some.injEq] at hx
                  rw [← hx, this]
                | none =>
                  rw [hy] at hx
                  have := List.mem_of_find?_eq_some hx
                  simpa using this
              rw [hm] at hx
              rw [(findField_fund_id k).mpr hx] at hf
              simp only [Option.some.injEq] at hf
              exact absurd hf.symm hn
          simp only [hi]
          rw [← setFundField_ID_of_ne a n v a₁ hn hs]
          exact ih a₁ a' h

/-- The id decoded from stored bytes is the `ID` of the fund record they
decode to. -/
theorem decodedId_of_unmarshalFund (data : Bytes) (f : Fund)
    (h : unmarshalFund Fund.zero data = .ok f) : decodedId data = .ok f.ID := by
  cases data with
  | malformed t => simp [unmarshalFund] at h
  | text v =>
    cases v with
    | null =>
      simp only [unmarshalFund, decodeStruct] at h
      injection h with h
      rw [← h]
      rfl
    | obj ms =>
      simp only [unmarshalFund, decodeStruct] at h
      simp only [decodedId, decodeStruct]
      exact decodeMembers_fund_id ms Fund.zero f h
    | bool b => simp [unmarshalFund, decodeStruct] at h
    | int n => simp [unmarshalFund, decodeStruct] at h
    | float l => simp [unmarshalFund, decodeStruct] at h
    | str s => simp [unmarshalFund, decodeStruct] at h
    | arr l => simp [unmarshalFund, decodeStruct] at h

/-- Applying writes whose documents decode to their key as id keeps key/id consistency. -/
theorem applyPuts_consistent (b : Backend) :
    ∀ (puts : List (String × Bytes)) (w : World), KeyIdConsistent w →
      (∀ kv ∈ puts, decodedId kv.2 = .ok kv.1) →
      KeyIdConsistent (applyPuts b w puts) := by
  intro puts
  induction puts with
  | nil => intro w hw _; exact hw
  | cons p rest ih =>
    intro w hw hp
    obtain ⟨k, v⟩ := p
    have hrest : ∀ kv ∈ rest, decodedId kv.2 = .ok kv.1 :=
      fun kv h => hp kv (List.mem_cons_of_mem _ h)
    unfold applyPuts
    cases hwe : b.writeError k v with
    | some e => simpa [hwe] using ih w hw hrest
    | none =>
      simp only [hwe]
      apply ih _ _ hrest
      intro kv hkv
      rcases World.mem_put w k v kv hkv with h | h
      · rw [h]
        exact hp (k, v) (List.mem_cons_self _ _)
      · exact hw kv h

/-- Committing an outcome whose writes decode to their key as id keeps key/id consistency. -/
theorem commit_consistent (b : Backend) (w : World) (o : Outcome) (hw : KeyIdConsistent w)
    (hp : ∀ kv ∈ o.puts, decodedId kv.2 = .ok kv.1) :
    KeyIdConsistent (b.commit w o) := by
  unfold Backend.commit
  cases o.err with
  | some e => exact hw
  | none => exact applyPuts_consistent b o.puts w hw hp

/-- Every document `CreateFund` writes decodes to the id it is written under. -/
theorem CreateFund_puts_id (stub : Stub) (fundId name inceptionDate : String) :
    ∀ kv ∈ (CreateFund stub fundId name inceptionDate).puts,
      decodedId kv.2 = .ok kv.1 := by
  intro kv hkv
  unfold CreateFund at hkv
  cases hg : stub.GetState fundId with
  | error e => simp [hg] at hkv
  | ok r =>
    cases r with
    | some v => simp [hg] at hkv
    | none =>
      simp only [hg, List.mem_singleton] at hkv
      rw [hkv]
      rfl

/-- Every document `CreateInvestor` writes decodes to the id it is written under. -/
theorem CreateInvestor_puts_id (stub : Stub) (id name : String) :
    ∀ kv ∈ (CreateInvestor stub id name).puts, decodedId kv.2 = .ok kv.1 := by
  intro kv hkv
  unfold CreateInvestor at hkv
  cases hq : QueryInvestorByName stub name with
  | error e => simp [hq] at hkv
  | ok r =>
    cases r with
    | none => simp [hq] at hkv
    | some i =>
      simp only [hq, List.mem_singleton] at hkv
      rw [hkv]
      rfl

/-- Every document `CreateCapitalAccount` writes decodes to the id it is written under. -/
theorem CreateCapitalAccount_puts_id (stub : Stub) (id fundId investorId : String) :
    ∀ kv ∈ (CreateCapitalAccount stub id fundId investorId).puts,
      decodedId kv.2 = .ok kv.1 := by
  intro kv hkv
  unfold CreateCapitalAccount at hkv
  cases hf : QueryFundById stub fundId with
  | error e => simp [hf] at hkv
  | ok r =>
    cases r with
    | none => simp [hf] at hkv
    | some fund =>
      simp only [hf] at hkv
      cases hi : QueryInvestorById stub investorId with
      | error e => simp [hi] at hkv
      | ok r' =>
        cases r' with
        | none => simp [hi] at hkv
        | some investor =>
          simp only [hi, List.mem_cons, List.mem_singleton, List.not_mem_nil, or_false] at hkv
          rcases hkv with h | h <;> rw [h] <;> rfl

/-- Every document `CreatePortfolio` writes decodes to the id it is written under. -/
theorem CreatePortfolio_puts_id (stub : Stub) (id fundId name : String) :
    ∀ kv ∈ (CreatePortfolio stub id fundId name).puts, decodedId kv.2 = .ok kv.1 := by
  intro kv hkv
  unfold CreatePortfolio at hkv
  cases hq : QueryPortfolioByName stub fundId name with
  | error e => simp [hq] at hkv
  | ok r =>
    cases r with
    | none => simp [hq] at hkv
    | some p =>
      simp only [hq, List.mem_singleton] at hkv
      rw [hkv]
      rfl

/-- Every document `CreatePortfolioAction` writes decodes to the id it is written under. -/
theorem CreatePortfolioAction_puts_id (stub : Stub) (id fundId portfolioId type_ date : String)
    (period : Int) (name cusip amount currency : String) :
    ∀ kv ∈ (CreatePortfolioAction stub id fundId portfolioId type_ date period name cusip
        amount currency).puts, decodedId kv.2 = .ok kv.1 := by
  intro kv hkv
  unfold CreatePortfolioAction at hkv
  by_cases ht : type_ ≠ "buy" ∧ type_ ≠ "sell"
  · simp [ht] at hkv
  · simp only [ht, if_false, List.mem_singleton] at hkv
    rw [hkv]
    rfl

/-- Every document `CreateCapitalAccountAction` writes decodes to the id it is written under. -/
theorem CreateCapitalAccountAction_puts_id (stub : Stub) (id type_ amount : String)
    (full : Bool) (date : String) (period : Int) :
    ∀ kv ∈ (CreateCapitalAccountAction stub id type_ amount full date period).puts,
      decodedId kv.2 = .ok kv.1 := by
  intro kv hkv
  unfold CreateCapitalAccountAction at hkv
  by_cases ht : type_ ≠ "deposit" ∧ type_ ≠ "withdrawal"
  · simp [ht] at hkv
  · simp only [ht, if_false, List.mem_singleton] at hkv
    rw [hkv]
    rfl

/-- The writes of a log are those of its parts, in order. -/
theorem writesOf_append (l₁ l₂ : List StubCall) :
    writesOf (l₁ ++ l₂) = writesOf l₁ ++ writesOf l₂ := by
  induction l₁ with
  | nil => rfl
  | cons c rest ih =>
    cases c <;> simp [writesOf, ih]

/-- The recorded run of `QueryFundById`: the result of the embedding, and the log with
its one read appended. -/
theorem QueryFundById_recorded_eq (stub : Stub) (fundId : String) (log : List StubCall) :
    QueryFundById_recorded stub fundId log
      = (QueryFundById stub fundId, log ++ [.GetState fundId]) := by
  unfold QueryFundById_recorded QueryFundById recGetState
  cases stub.GetState fundId with
  | error e => rfl
  | ok r =>
    cases r with
    | none => rfl
    | some data =>
      simp only []
      cases unmarshalFund Fund.zero data <;> rfl

/-- The recorded run of `QueryInvestorById`: the result of the embedding, and the log with
its one read appended. -/
theorem QueryInvestorById_recorded_eq (stub : Stub) (investorId : String)
    (log : List StubCall) :
    QueryInvestorById_recorded stub investorId log
      = (QueryInvestorById stub investorId, log ++ [.GetState investorId]) := by
  unfold QueryInvestorById_recorded QueryInvestorById recGetState
  cases stub.GetState investorId with
  | error e => rfl
  | ok r =>
    cases r with
    | none => rfl
    | some data =>
      simp only []
      cases unmarshalInvestor Investor.zero data <;> rfl

/-- The recorded run of `QueryInvestorByName`: the result of the embedding, and the log with
its one read appended. -/
theorem QueryInvestorByName_recorded_eq (stub : Stub) (name : String) (log : List StubCall) :
    QueryInvestorByName_recorded stub name log
      = (QueryInvestorByName stub name, log ++ [.GetQueryResult (investorByNameQuery name)]) := by
  unfold QueryInvestorByName_recorded QueryInvestorByName recGetQueryResult
  cases stub.GetQueryResult (investorByNameQuery name) with
  | error e => rfl
  | ok results =>
    cases results with
    | nil => rfl
    | cons r rest =>
      cases r with
      | error e => rfl
      | ok value =>
        simp only []
        cases unmarshalInvestor Investor.zero value <;> rfl

/-- The recorded run of `QueryPortfolioByName`: the result of the embedding, and the log with
its one read appended. -/
theorem QueryPortfolioByName_recorded_eq (stub : Stub) (fundId name : String) (log : List StubCall) :
    QueryPortfolioByName_recorded stub fundId name log
      = (QueryPortfolioByName stub fundId name, log ++ [.GetQueryResult (portfolioByNameQuery fundId name)]) := by
  unfold QueryPortfolioByName_recorded QueryPortfolioByName recGetQueryResult
  cases stub.GetQueryResult (portfolioByNameQuery fundId name) with
  | error e => rfl
  | ok results =>
    cases results with
    | nil => rfl
    | cons r rest =>
      cases r with
      | error e => rfl
      | ok value =>
        simp only []
        cases unmarshalPortfolio Portfolio.zero value <;> rfl

/-- The recorded run of `QueryPortfolioByFund`: the result of the embedding, and the log with
its one read appended. -/
theorem QueryPortfolioByFund_recorded_eq (stub : Stub) (fundId : String) (log : List StubCall) :
    QueryPortfolioByFund_recorded stub fundId log
      = (QueryPortfolioByFund stub fundId, log ++ [.GetQueryResult (portfolioByFundQuery fundId)]) := by
  unfold QueryPortfolioByFund_recorded QueryPortfolioByFund recGetQueryResult
  cases stub.GetQueryResult (portfolioByFundQuery fundId) with
  | error e => rfl
  | ok results =>
    cases results with
    | nil => rfl
    | cons r rest =>
      cases r with
      | error e => rfl
      | ok value =>
        simp only []
        cases unmarshalPortfolio Portfolio.zero value <;> rfl

/-- The recorded run of `QueryFundByName`: the result of the embedding, and the log with
its one read appended. -/
theorem QueryFundByName_recorded_eq (stub : Stub) (name : String) (log : List StubCall) :
    QueryFundByName_recorded stub name log
      = (QueryFundByName stub name, log ++ [.GetQueryResult (fundByNameQuery name)]) := by
  unfold QueryFundByName_recorded QueryFundByName recGetQueryResult
  cases stub.GetQueryResult (fundByNameQuery name) with
  | error e => rfl
  | ok results =>
    cases results with
    | nil => rfl
    | cons r rest =>
      cases r with
      | error e => rfl
      | ok value =>
        simp only []
        cases unmarshalFund Fund.zero value <;> rfl

/-- The recorded run of `QueryCapitalAccountsByInvestor`: the result of the embedding, and the log with
its one read appended. -/
theorem QueryCapitalAccountsByInvestor_recorded_eq (stub : Stub) (fundId investorId : String) (log : List StubCall) :
    QueryCapitalAccountsByInvestor_recorded stub fundId investorId log
      = (QueryCapitalAccountsByInvestor stub fundId investorId, log ++ [.GetQueryResult (capitalAccountsByInvestorQuery fundId investorId)]) := by
  unfold QueryCapitalAccountsByInvestor_recorded QueryCapitalAccountsByInvestor recGetQueryResult
  cases stub.GetQueryResult (capitalAccountsByInvestorQuery fundId investorId) <;> rfl

/-- The recorded run of `QueryCapitalAccountsByFund`: the result of the embedding, and the log with
its one read appended. -/
theorem QueryCapitalAccountsByFund_recorded_eq (stub : Stub) (fundId : String) (log : List StubCall) :
    QueryCapitalAccountsByFund_recorded stub fundId log
      = (QueryCapitalAccountsByFund stub fundId, log ++ [.GetQueryResult (capitalAccountsByFundQuery fundId)]) := by
  unfold QueryCapitalAccountsByFund_recorded QueryCapitalAccountsByFund recGetQueryResult
  cases stub.GetQueryResult (capitalAccountsByFundQuery fundId) <;> rfl

/-- The recorded run of `QueryCapitalAccountActionsByFund`: the result of the embedding, and the log with
its one read appended. -/
theorem QueryCapitalAccountActionsByFund_recorded_eq (stub : Stub) (fundId : String) (log : List StubCall) :
    QueryCapitalAccountActionsByFund_recorded stub fundId log
      = (QueryCapitalAccountActionsByFund stub fundId, log ++ [.GetQueryResult (capitalAccountActionsByFundQuery fundId)]) := by
  unfold QueryCapitalAccountActionsByFund_recorded QueryCapitalAccountActionsByFund recGetQueryResult
  cases stub.GetQueryResult (capitalAccountActionsByFundQuery fundId) <;> rfl

/-- The recorded run of `QueryCapitalAccountActionsByAccountPeriod`: the result of the embedding, and the log with
its one read appended. -/
theorem QueryCapitalAccountActionsByAccountPeriod_recorded_eq (stub : Stub) (fundId capitalAccountId : String) (period : Int) (log : List StubCall) :
    QueryCapitalAccountActionsByAccountPeriod_recorded stub fundId capitalAccountId period log
      = (QueryCapitalAccountActionsByAccountPeriod stub fundId capitalAccountId period, log ++ [.GetQueryResult (capitalAccountActionsByAccountPeriodQuery fundId capitalAccountId period)]) := by
  unfold QueryCapitalAccountActionsByAccountPeriod_recorded QueryCapitalAccountActionsByAccountPeriod recGetQueryResult
  cases stub.GetQueryResult (capitalAccountActionsByAccountPeriodQuery fundId capitalAccountId period) <;> rfl

/-- The recorded run of `CreateCapitalAccount` returns the error of the
embedding, and the writes among its calls are the writes of the embedding. -/
theorem CreateCapitalAccount_recorded_eq (stub : Stub) (id fundId investorId : String) :
    (CreateCapitalAccount_recorded stub id fundId investorId []).1
      = (CreateCapitalAccount stub id fundId investorId).err ∧
    writesOf (CreateCapitalAccount_recorded stub id fundId investorId []).2
      = (CreateCapitalAccount stub id fundId investorId).puts := by
  unfold CreateCapitalAccount_recorded CreateCapitalAccount
  rw [QueryFundById_recorded_eq]
  cases QueryFundById stub fundId with
  | error e => exact ⟨rfl, rfl⟩
  | ok r =>
    cases r with
    | none => exact ⟨rfl, rfl⟩
    | some fund =>
      simp only []
      rw [QueryInvestorById_recorded_eq]
      cases QueryInvestorById stub investorId with
      | error e => exact ⟨rfl, rfl⟩
      | ok r' =>
        cases r' with
        | none => exact ⟨rfl, rfl⟩
        | some investor => exact ⟨rfl, rfl⟩

/-- The recorded runs of the lookups hold no write. -/
theorem lookupRuns_no_write (stub : Stub) (key name fundId investorId capitalAccountId : String)
    (period : Int) :
    ∀ run ∈ lookupRuns stub key name fundId investorId capitalAccountId period,
      writesOf run.2 = [] := by
  intro run h
  simp only [lookupRuns, QueryFundById_recorded_eq, QueryInvestorById_recorded_eq, QueryInvestorByName_recorded_eq, QueryPortfolioByName_recorded_eq, QueryPortfolioByFund_recorded_eq, QueryFundByName_recorded_eq, QueryCapitalAccountsByInvestor_recorded_eq, QueryCapitalAccountsByFund_recorded_eq, QueryCapitalAccountActionsByFund_recorded_eq, QueryCapitalAccountActionsByAccountPeriod_recorded_eq,
    List.mem_cons, List.mem_singleton, List.not_mem_nil, or_false] at h
  rcases h with h | h | h | h | h | h | h | h | h | h <;> rw [h] <;> rfl

/-! ## Go strings and the operations on them -/

/-- Coercion leaves a well-formed text as it is. -/
theorem toValidUTF8_ofString (s : String) : (GoString.ofString s).toValidUTF8 = s := by
  cases s with
  | mk l =>
    simp only [GoString.ofString, GoString.toValidUTF8, String.toList, List.map_map]
    congr 1
    induction l with
    | nil => rfl
    | cons c rest ih => simp [GoUnit.coerce, ih]

theorem ofString_append (a b : String) :
    GoString.ofString (a ++ b) = GoString.ofString a ++ GoString.ofString b := by
  simp [GoString.ofString, String.toList, String.data_append]

/-- On well-formed arguments `CreateFundGo` is `CreateFund`. -/
theorem CreateFundGo_ofString (stub : Stub) (fundId name inceptionDate : String) :
    CreateFundGo stub fundId (GoString.ofString name) (GoString.ofString inceptionDate)
      = CreateFund stub fundId name inceptionDate := by
  unfold CreateFundGo CreateFund
  simp only [marshalGoFund, marshalFund, toValidUTF8_ofString]

/-- On a well-formed name `CreateInvestorGo` is `CreateInvestor`. -/
theorem CreateInvestorGo_ofString (stub : GoStub) (id name : String) :
    CreateInvestorGo stub id (GoString.ofString name) = CreateInvestor stub.toStub id name := by
  have hq : QueryInvestorByNameGo stub (GoString.ofString name)
      = QueryInvestorByName stub.toStub name := by
    unfold QueryInvestorByNameGo QueryInvestorByName
    have : investorByNameQueryGo (GoString.ofString name)
        = GoString.ofString (investorByNameQuery name) := by
      simp only [investorByNameQueryGo, investorByNameQuery, ofString_append]
    rw [this]
    rfl
  unfold CreateInvestorGo CreateInvestor
  rw [hq]
  simp only [marshalGoInvestor, marshalInvestor, toValidUTF8_ofString]
  rfl

/-! ## Investor numbering (C1) -/

/-- C1, refuted as stated, on two inputs.  First: on a store that refuses the
updated fund document, two `CreateCapitalAccount` calls on a fund that
`CreateFund` created both return `nil`, both accounts get number 0 and the
counter of the stored fund is still 0.  Second: on a store that never fails,
`2 ^ 63` calls on such a fund all return `nil`, and the counter of the stored
fund is then `-2 ^ 63`, not `2 ^ 63`. -/
theorem investor_numbering_breaks :
    ((CreateFund (counterWriteRefused.stub [("inv-1", sampleInvestorDoc)])
        "fund-1" "Alpha" "2020-01-01").err = none ∧
     refusedRun.1.map Outcome.err = [none, none] ∧
     refusedRun.1.map Outcome.puts =
       [[("fund-1", marshalFund
            { DocType := "fund", ID := "fund-1", Name := "Alpha", CurrentPeriod := 0,
              InceptionDate := "2020-01-01", PeriodClosingValue := "0",
              PeriodOpeningValue := "0", AggregateFixedFees := "0", AggregateDeposits := "0",
              NextInvestorNumber := 1, PeriodUpdated := false }),
         ("acct-1", marshalCapitalAccount
            { DocType := "capitalAccount", ID := "acct-1", Fund := "fund-1",
              Investor := "inv-1", Number := 0, CurrentPeriod := 0,
              PeriodClosingValue := "0.0", PeriodOpeningValue := "0.0", FixedFees := "0.0",
              Deposits := "0.0", OwnershipPercentage := "0.0",
              HighWaterMark := { Amount := "0.0", Date := "None" } })],
        [("fund-1", marshalFund
            { DocType := "fund", ID := "fund-1", Name := "Alpha", CurrentPeriod := 0,
              InceptionDate := "2020-01-01", PeriodClosingValue := "0",
              PeriodOpeningValue := "0", AggregateFixedFees := "0", AggregateDeposits := "0",
              NextInvestorNumber := 1, PeriodUpdated := false }),
         ("acct-2", marshalCapitalAccount
            { DocType := "capitalAccount", ID := "acct-2", Fund := "fund-1",
              Investor := "inv-1", Number := 0, CurrentPeriod := 0,
              PeriodClosingValue := "0.0", PeriodOpeningValue := "0.0", FixedFees := "0.0",
              Deposits := "0.0", OwnershipPercentage := "0.0",
              HighWaterMark := { Amount := "0.0", Date := "None" } })]] ∧
     refusedRun.2.get "fund-1" = some (marshalFund
        { DocType := "fund", ID := "fund-1", Name := "Alpha", CurrentPeriod := 0,
          InceptionDate := "2020-01-01", PeriodClosingValue := "0",
          PeriodOpeningValue := "0", AggregateFixedFees := "0", AggregateDeposits := "0",
          NextInvestorNumber := 0, PeriodUpdated := false })) ∧
    ((CreateFund (quietBackend.stub [("inv-1", sampleInvestorDoc)])
        "fund-1" "Alpha" "2020-01-01").err = none ∧
     (manyCalls (2 ^ 63)).length = 2 ^ 63 ∧
     (∀ c ∈ manyCalls (2 ^ 63), c.1 ≠ "fund-1") ∧
     (∀ o ∈ longRun.1, o.err = none) ∧
     (∀ o ∈ longRun.1, ∀ kv ∈ o.puts, quietBackend.writeError kv.1 kv.2 = none) ∧
     longRun.2.get "fund-1" = some (marshalFund
        { DocType := "fund", ID := "fund-1", Name := "Alpha", CurrentPeriod := 0,
          InceptionDate := "2020-01-01", PeriodClosingValue := "0",
          PeriodOpeningValue := "0", AggregateFixedFees := "0", AggregateDeposits := "0",
          NextInvestorNumber := -9223372036854775808, PeriodUpdated := false })) := by
  refine ⟨⟨rfl, rfl, rfl, rfl⟩, rfl, ?_, ?_, ?_, fun _ _ _ _ => rfl, ?_⟩
  · unfold manyCalls
    rw [List.length_map, List.length_range]
  · exact fun c hc => (manyCalls_ids _ c hc).1
  · exact createAccounts_quiet_ok "fund-1" "inv-1"
      { DocType := "investor", ID := "inv-1", Name := "Alice" } (by decide)
      (manyCalls (2 ^ 63)) (fundCreated quietBackend)
      { DocType := "fund", ID := "fund-1", Name := "Alpha", CurrentPeriod := 0,
        InceptionDate := "2020-01-01", PeriodClosingValue := "0",
        PeriodOpeningValue := "0", AggregateFixedFees := "0", AggregateDeposits := "0",
        NextInvestorNumber := 0, PeriodUpdated := false }
      rfl rfl (by decide) (by decide) rfl (manyCalls_ids _)
  · have hok : ∀ o ∈ longRun.1, o.err = none :=
      createAccounts_quiet_ok "fund-1" "inv-1"
        { DocType := "investor", ID := "inv-1", Name := "Alice" } (by decide)
        (manyCalls (2 ^ 63)) (fundCreated quietBackend)
        { DocType := "fund", ID := "fund-1", Name := "Alpha", CurrentPeriod := 0,
          InceptionDate := "2020-01-01", PeriodClosingValue := "0",
          PeriodOpeningValue := "0", AggregateFixedFees := "0", AggregateDeposits := "0",
          NextInvestorNumber := 0, PeriodUpdated := false }
        rfl rfl (by decide) (by decide) rfl (manyCalls_ids _)
    have h := (createAccounts_numbering quietBackend "fund-1" (manyCalls (2 ^ 63))
      (fundCreated quietBackend)
      { DocType := "fund", ID := "fund-1", Name := "Alpha", CurrentPeriod := 0,
        InceptionDate := "2020-01-01", PeriodClosingValue := "0",
        PeriodOpeningValue := "0", AggregateFixedFees := "0", AggregateDeposits := "0",
        NextInvestorNumber := 0, PeriodUpdated := false }
      rfl rfl (by decide) (by decide) hok (fun _ _ _ _ => rfl)
      (fun c hc => (manyCalls_ids _ c hc).1)).2
    have hlen : (manyCalls (2 ^ 63)).length = 2 ^ 63 := by
      unfold manyCalls
      rw [List.length_map, List.length_range]
    rw [hlen] at h
    have hw : wrapInt (0 + ((2 ^ 63 : Nat) : Int)) = -9223372036854775808 := by
      unfold wrapInt
      norm_num
    simp only [hw] at h
    exact h

/-- C1, amended.  Let `CreateFund` succeed for `fundId`, and let fewer than
`2 ^ 63` calls of `CreateCapitalAccount` on that fund follow, each returning
`nil`, each with all its writes accepted by the store, none drawing `fundId` as
identifier.  Then the call of index `i` writes the fund with counter `i + 1`
and the account with number `i`, and the fund stored at `fundId` after the run
has `nextInvestorNumber` equal to the number of calls. -/
theorem investor_numbers_consecutive (b : Backend) (w₀ : World)
    (fundId name inceptionDate : String) (calls : List (String × String))
    (hcreate : (CreateFund (b.stub w₀) fundId name inceptionDate).err = none)
    (hok : ∀ o ∈ (createAccounts b fundId
        (b.commit w₀ (CreateFund (b.stub w₀) fundId name inceptionDate)) calls).1,
      o.err = none)
    (hacc : ∀ o ∈ (createAccounts b fundId
        (b.commit w₀ (CreateFund (b.stub w₀) fundId name inceptionDate)) calls).1,
      ∀ kv ∈ o.puts, b.writeError kv.1 kv.2 = none)
    (hids : ∀ c ∈ calls, c.1 ≠ fundId)
    (hN : calls.length < 2 ^ 63) :
    (createAccounts b fundId
        (b.commit w₀ (CreateFund (b.stub w₀) fundId name inceptionDate))
        calls).1.length = calls.length ∧
    (∀ (i : Nat) (c : String × String), calls[i]? = some c →
      ((createAccounts b fundId
          (b.commit w₀ (CreateFund (b.stub w₀) fundId name inceptionDate))
          calls).1[i]?).map Outcome.puts = some
        [(fundId, marshalFund
            { DocType := "fund", ID := fundId, Name := name, CurrentPeriod := 0,
              InceptionDate := inceptionDate, PeriodClosingValue := "0",
              PeriodOpeningValue := "0", AggregateFixedFees := "0", AggregateDeposits := "0",
              NextInvestorNumber := (i : Int) + 1, PeriodUpdated := false }),
         (c.1, marshalCapitalAccount
            { DocType := "capitalAccount", ID := c.1, Fund := fundId, Investor := c.2,
              Number := (i : Int), CurrentPeriod := 0, PeriodClosingValue := "0.0",
              PeriodOpeningValue := "0.0", FixedFees := "0.0", Deposits := "0.0",
              OwnershipPercentage := "0.0",
              HighWaterMark := { Amount := "0.0", Date := "None" } })]) ∧
    (createAccounts b fundId
        (b.commit w₀ (CreateFund (b.stub w₀) fundId name inceptionDate))
        calls).2.get fundId = some (marshalFund
      { DocType := "fund", ID := fundId, Name := name, CurrentPeriod := 0,
        InceptionDate := inceptionDate, PeriodClosingValue := "0",
        PeriodOpeningValue := "0", AggregateFixedFees := "0", AggregateDeposits := "0",
        NextInvestorNumber := (calls.length : Int), PeriodUpdated := false }) := by
  have hget := CreateFund_commit_get b w₀ fundId name inceptionDate hcreate
  obtain ⟨h1, h2⟩ := createAccounts_numbering b fundId calls _ _ hget rfl
    inIntRange_zero inIntRange_zero hok hacc hids
  dsimp only at h1 h2
  have hwrap : ∀ k : Nat, k ≤ calls.length → wrapInt (0 + (k : Int)) = (k : Int) := by
    intro k hk
    have h := wrapInt_of_inIntRange (0 + (k : Int)) (by rw [inIntRange_iff]; omega)
    rw [h]
    omega
  refine ⟨createAccounts_length b fundId calls _, ?_, ?_⟩
  · intro i c hc
    have hi : i < calls.length := by
      rcases Nat.lt_or_ge i calls.length with h | h
      · exact h
      · rw [List.getElem?_eq_none h] at hc
        exact absurd hc (by simp)
    have := h1 i c hc
    rw [hwrap i (Nat.le_of_lt hi), hwrap (i + 1) hi] at this
    rw [this]
    simp [DOCTYPE_FUND, DOCTYPE_CAPITALACCOUNT]
  · rw [h2, hwrap calls.length (Nat.le_refl _)]
    simp [DOCTYPE_FUND]

/-- The numbering theorem at a run of three calls on an empty ledger. -/
theorem investor_numbers_consecutive_witness :
    (CreateFund (quietBackend.stub [("inv-1", sampleInvestorDoc)])
        "fund-1" "Alpha" "2020-01-01").err = none ∧
    (createAccounts quietBackend "fund-1"
        (quietBackend.commit [("inv-1", sampleInvestorDoc)]
          (CreateFund (quietBackend.stub [("inv-1", sampleInvestorDoc)])
            "fund-1" "Alpha" "2020-01-01"))
        [("acct-1", "inv-1"), ("acct-2", "inv-1"), ("acct-3", "inv-1")]).2.get "fund-1" =
      some (marshalFund
        { DocType := "fund", ID := "fund-1", Name := "Alpha", CurrentPeriod := 0,
          InceptionDate := "2020-01-01", PeriodClosingValue := "0",
          PeriodOpeningValue := "0", AggregateFixedFees := "0", AggregateDeposits := "0",
          NextInvestorNumber := 3, PeriodUpdated := false }) :=
  ⟨rfl,
   (investor_numbers_consecutive quietBackend [("inv-1", sampleInvestorDoc)]
      "fund-1" "Alpha" "2020-01-01"
      [("acct-1", "inv-1"), ("acct-2", "inv-1"), ("acct-3", "inv-1")]
      rfl
      (by
        intro o ho
        simp only [createAccounts, List.mem_cons, List.mem_singleton, List.not_mem_nil,
          or_false] at ho
        rcases ho with h | h | h <;> rw [h] <;> rfl)
      (fun _ _ _ _ => rfl)
      (by decide)
      (by decide)).2.2⟩

/-! ## A refused fund write (C2) -/

/-- C2, evaluated where the code departs from it.  Both lookups succeed and the
store refuses every write under `fund-1`; `CreateCapitalAccount` still returns
`nil` and issues the write of the new capital account. -/
theorem CreateCapitalAccount_drops_fund_write_error :
    QueryFundById (fundWriteRefused.stub sampleWorld) "fund-1" = .ok (some
      { DocType := "fund", ID := "fund-1", Name := "Alpha", CurrentPeriod := 0,
        InceptionDate := "2020-01-01", PeriodClosingValue := "0", PeriodOpeningValue := "0",
        AggregateFixedFees := "0", AggregateDeposits := "0", NextInvestorNumber := 0,
        PeriodUpdated := false }) ∧
    QueryInvestorById (fundWriteRefused.stub sampleWorld) "inv-1" = .ok (some
      { DocType := "investor", ID := "inv-1", Name := "Alice" }) ∧
    (∀ v, (fundWriteRefused.stub sampleWorld).PutState "fund-1" v = some "write refused") ∧
    (CreateCapitalAccount (fundWriteRefused.stub sampleWorld) "acct-1" "fund-1" "inv-1").err
      = none ∧
    (CreateCapitalAccount (fundWriteRefused.stub sampleWorld) "acct-1" "fund-1" "inv-1").puts =
      [("fund-1", marshalFund
          { DocType := "fund", ID := "fund-1", Name := "Alpha", CurrentPeriod := 0,
            InceptionDate := "2020-01-01", PeriodClosingValue := "0",
            PeriodOpeningValue := "0", AggregateFixedFees := "0", AggregateDeposits := "0",
            NextInvestorNumber := 1, PeriodUpdated := false }),
       ("acct-1", marshalCapitalAccount
          { DocType := "capitalAccount", ID := "acct-1", Fund := "fund-1", Investor := "inv-1",
            Number := 0, CurrentPeriod := 0, PeriodClosingValue := "0.0",
            PeriodOpeningValue := "0.0", FixedFees := "0.0", Deposits := "0.0",
            OwnershipPercentage := "0.0",
            HighWaterMark := { Amount := "0.0", Date := "None" } })] :=
  ⟨rfl, rfl, fun _ => rfl, rfl, rfl⟩

/-! ## Duplicate investor names (C3) -/

/-- C3, evaluated where the code departs from it.  The by-name lookup never
returns `nil` without an error, so the guard of `CreateInvestor` never fires:
with an investor named `Alice` stored and returned by the query, a second
`CreateInvestor("Alice")` returns `nil` and writes a second investor, after
which two investor documents carry that name. -/
theorem CreateInvestor_accepts_duplicate_name :
    (∀ (stub : Stub) (name : String), QueryInvestorByName stub name ≠ .ok none) ∧
    aliceOnce = [("inv-1", marshalInvestor { DocType := "investor", ID := "inv-1", Name := "Alice" })] ∧
    QueryInvestorByName (nameIndex.stub aliceOnce) "Alice" =
      .ok (some { DocType := "investor", ID := "inv-1", Name := "Alice" }) ∧
    (CreateInvestor (nameIndex.stub aliceOnce) "inv-2" "Alice").err = none ∧
    (CreateInvestor (nameIndex.stub aliceOnce) "inv-2" "Alice").puts =
      [("inv-2", marshalInvestor { DocType := "investor", ID := "inv-2", Name := "Alice" })] ∧
    aliceTwice =
      [("inv-1", marshalInvestor { DocType := "investor", ID := "inv-1", Name := "Alice" }),
       ("inv-2", marshalInvestor { DocType := "investor", ID := "inv-2", Name := "Alice" })] := by
  refine ⟨?_, rfl, rfl, rfl, rfl, rfl⟩
  intro stub name
  unfold QueryInvestorByName
  split <;> try simp
  split <;> simp

/-! ## Creating a fund twice (C4) -/

/-- C4.  When any value is stored at `fundId`, `CreateFund` returns an error,
issues no write and leaves the world state as it was; in particular, when that
state is the one a successful `CreateFund(fundId, a, d)` left, the document at
`fundId` is still the fund that call wrote. -/
theorem CreateFund_rejects_existing (b : Backend) (w : World)
    (fundId name inceptionDate : String) (h : w.get fundId ≠ none) :
    (CreateFund (b.stub w) fundId name inceptionDate).err ≠ none ∧
    (CreateFund (b.stub w) fundId name inceptionDate).puts = [] ∧
    b.commit w (CreateFund (b.stub w) fundId name inceptionDate) = w ∧
    (∀ (w₀ : World) (a d : String),
      (CreateFund (b.stub w₀) fundId a d).err = none →
      w = b.commit w₀ (CreateFund (b.stub w₀) fundId a d) →
      (b.commit w (CreateFund (b.stub w) fundId name inceptionDate)).get fundId =
        some (marshalFund
          { DocType := DOCTYPE_FUND, ID := fundId, Name := a, CurrentPeriod := 0,
            InceptionDate := d, PeriodClosingValue := "0", PeriodOpeningValue := "0",
            AggregateFixedFees := "0", AggregateDeposits := "0", NextInvestorNumber := 0,
            PeriodUpdated := false })) := by
  have key : (CreateFund (b.stub w) fundId name inceptionDate).err ≠ none ∧
      (CreateFund (b.stub w) fundId name inceptionDate).puts = [] := by
    obtain ⟨v, hv⟩ := Option.ne_none_iff_exists'.mp h
    rcases stub_GetState_cases b w fundId with h1 | ⟨e, h1⟩
    · simp [CreateFund, h1, hv]
    · simp [CreateFund, h1]
  have hc := commit_of_err b w _ key.1
  refine ⟨key.1, key.2, hc, ?_⟩
  intro w₀ a d h₀ hw
  rw [hc, hw]
  exact CreateFund_commit_get b w₀ fundId a d h₀

/-- The rejection theorem at the state a first `CreateFund` left. -/
theorem CreateFund_rejects_existing_witness :
    (quietBackend.commit [] (CreateFund (quietBackend.stub []) "fund-1" "Alpha" "2020-01-01")).get
      "fund-1" ≠ none ∧
    (CreateFund (quietBackend.stub (quietBackend.commit []
        (CreateFund (quietBackend.stub []) "fund-1" "Alpha" "2020-01-01")))
      "fund-1" "Beta" "2021-06-30").err ≠ none :=
  ⟨by simp [CreateFund_commit_get quietBackend [] "fund-1" "Alpha" "2020-01-01" rfl],
   (CreateFund_rejects_existing quietBackend
      (quietBackend.commit [] (CreateFund (quietBackend.stub []) "fund-1" "Alpha" "2020-01-01"))
      "fund-1" "Beta" "2021-06-30"
      (by simp [CreateFund_commit_get quietBackend [] "fund-1" "Alpha" "2020-01-01" rfl])).1⟩

/-! ## A capital account for a missing fund (C5) -/

/-- C5.  When no document is stored at `fundId`, `CreateCapitalAccount` returns
an error and issues no write, of a capital account or of a fund, and the world
state is as it was. -/
theorem CreateCapitalAccount_missing_fund (b : Backend) (w : World)
    (id fundId investorId : String) (h : w.get fundId = none) :
    (CreateCapitalAccount (b.stub w) id fundId investorId).err ≠ none ∧
    (CreateCapitalAccount (b.stub w) id fundId investorId).puts = [] ∧
    b.commit w (CreateCapitalAccount (b.stub w) id fundId investorId) = w := by
  have key : (CreateCapitalAccount (b.stub w) id fundId investorId).err ≠ none ∧
      (CreateCapitalAccount (b.stub w) id fundId investorId).puts = [] := by
    rcases stub_GetState_cases b w fundId with h1 | ⟨e, h1⟩
    · simp [CreateCapitalAccount, QueryFundById, h1, h]
    · simp [CreateCapitalAccount, QueryFundById, h1]
  exact ⟨key.1, key.2, commit_of_err b w _ key.1⟩

/-- The missing-fund theorem at a key the sample ledger does not hold. -/
theorem CreateCapitalAccount_missing_fund_witness :
    sampleWorld.get "fund-9" = none ∧
    (CreateCapitalAccount (quietBackend.stub sampleWorld) "acct-1" "fund-9" "inv-1").err ≠ none ∧
    (CreateCapitalAccount (quietBackend.stub sampleWorld) "acct-1" "fund-9" "inv-1").puts = [] ∧
    quietBackend.commit sampleWorld
      (CreateCapitalAccount (quietBackend.stub sampleWorld) "acct-1" "fund-9" "inv-1")
      = sampleWorld :=
  ⟨by simp [sampleWorld, World.get],
   CreateCapitalAccount_missing_fund quietBackend sampleWorld "acct-1" "fund-9" "inv-1"
     (by simp [sampleWorld, World.get])⟩

/-! ## The referents of a capital account (C6) -/

/-- C6, refuted as stated.  With an investor document stored at `inv-1` and a
fund document at `fund-1`, the call `CreateCapitalAccount("inv-1", "fund-1")`
returns `nil`, although the key given as fund holds no document of `docType`
fund and the key given as investor holds none of `docType` investor. -/
theorem CreateCapitalAccount_accepts_other_kinds :
    sampleWorld.get "inv-1" =
      some (marshalInvestor { DocType := "investor", ID := "inv-1", Name := "Alice" }) ∧
    sampleWorld.get "fund-1" = some sampleFundDoc ∧
    (CreateCapitalAccount (quietBackend.stub sampleWorld) "acct-1" "inv-1" "fund-1").err = none ∧
    ¬ (∃ data fund, (quietBackend.stub sampleWorld).GetState "inv-1" = .ok (some data) ∧
        unmarshalFund Fund.zero data = .ok fund ∧ fund.DocType = DOCTYPE_FUND) ∧
    ¬ (∃ data investor, (quietBackend.stub sampleWorld).GetState "fund-1" = .ok (some data) ∧
        unmarshalInvestor Investor.zero data = .ok investor ∧
        investor.DocType = DOCTYPE_INVESTOR) := by
  refine ⟨rfl, rfl, rfl, ?_, ?_⟩
  · rintro ⟨data, fund, h1, h2, h3⟩
    have hd : data = sampleInvestorDoc := by
      have : (quietBackend.stub sampleWorld).GetState "inv-1" = .ok (some sampleInvestorDoc) := rfl
      rw [this] at h1
      injection h1 with h1
      injection h1 with h1
      exact h1.symm
    subst hd
    have : unmarshalFund Fund.zero sampleInvestorDoc = .ok
        { Fund.zero with DocType := "investor", ID := "inv-1", Name := "Alice" } := rfl
    rw [this] at h2
    injection h2 with h2
    rw [← h2] at h3
    exact absurd h3 (by decide)
  · rintro ⟨data, investor, h1, h2, h3⟩
    have hd : data = sampleFundDoc := by
      have : (quietBackend.stub sampleWorld).GetState "fund-1" = .ok (some sampleFundDoc) := rfl
      rw [this] at h1
      injection h1 with h1
      injection h1 with h1
      exact h1.symm
    subst hd
    have : unmarshalInvestor Investor.zero sampleFundDoc = .ok
        { DocType := "fund", ID := "fund-1", Name := "Alpha" } := rfl
    rw [this] at h2
    injection h2 with h2
    rw [← h2] at h3
    exact absurd h3 (by decide)

/-- C6, amended.  If `CreateCapitalAccount` returns `nil`, then the store held
at `fundId` a value that decodes into a fund record and at `investorId` a
value that decodes into an investor record; the `docType` of neither is
looked at. -/
theorem CreateCapitalAccount_success_decodes_both (stub : Stub)
    (id fundId investorId : String)
    (h : (CreateCapitalAccount stub id fundId investorId).err = none) :
    (∃ data fund, stub.GetState fundId = .ok (some data) ∧
      unmarshalFund Fund.zero data = .ok fund) ∧
    (∃ data investor, stub.GetState investorId = .ok (some data) ∧
      unmarshalInvestor Investor.zero data = .ok investor) := by
  unfold CreateCapitalAccount at h
  have hf : ∃ data fund, stub.GetState fundId = .ok (some data) ∧
      unmarshalFund Fund.zero data = .ok fund ∧ QueryFundById stub fundId = .ok (some fund) := by
    unfold QueryFundById at h ⊢
    cases hg : stub.GetState fundId with
    | error e => simp [hg] at h
    | ok r =>
      cases r with
      | none => simp [hg] at h
      | some data =>
        cases hu : unmarshalFund Fund.zero data with
        | error e => simp [hg, hu] at h
        | ok fund => exact ⟨data, fund, rfl, hu, by simp [hu]⟩
  obtain ⟨data, fund, h1, h2, h3⟩ := hf
  refine ⟨⟨data, fund, h1, h2⟩, ?_⟩
  rw [h3] at h
  simp only [] at h
  unfold QueryInvestorById at h
  cases hg : stub.GetState investorId with
  | error e => simp [hg] at h
  | ok r =>
    cases r with
    | none => simp [hg] at h
    | some data' =>
      cases hu : unmarshalInvestor Investor.zero data' with
      | error e => simp [hg, hu] at h
      | ok investor => exact ⟨data', investor, rfl, hu⟩

/-- The amended theorem at the sample ledger. -/
theorem CreateCapitalAccount_success_decodes_both_witness :
    (CreateCapitalAccount (quietBackend.stub sampleWorld) "acct-1" "fund-1" "inv-1").err = none ∧
    ((∃ data fund, (quietBackend.stub sampleWorld).GetState "fund-1" = .ok (some data) ∧
      unmarshalFund Fund.zero data = .ok fund) ∧
    (∃ data investor, (quietBackend.stub sampleWorld).GetState "inv-1" = .ok (some data) ∧
      unmarshalInvestor Investor.zero data = .ok investor)) :=
  ⟨rfl, CreateCapitalAccount_success_decodes_both (quietBackend.stub sampleWorld)
    "acct-1" "fund-1" "inv-1" rfl⟩

/-! ## Duplicate portfolio names (C7) -/

/-- C7, evaluated where the code departs from it.  The by-name lookup never
returns `nil` without an error, so the guard of `CreatePortfolio` never fires:
with a portfolio `Growth` of `fund-1` stored and returned by the query, a
second `CreatePortfolio("fund-1", "Growth")` returns `nil` and writes a second
portfolio of that name for that fund. -/
theorem CreatePortfolio_accepts_duplicate_name :
    (∀ (stub : Stub) (fundId name : String), QueryPortfolioByName stub fundId name ≠ .ok none) ∧
    growthOnce = [("pf-1", marshalPortfolio
      { DocType := "portfolio", ID := "pf-1", Fund := "fund-1", Name := "Growth",
        Securities := none })] ∧
    QueryPortfolioByName (nameIndex.stub growthOnce) "fund-1" "Growth" =
      .ok (some { DocType := "portfolio", ID := "pf-1", Fund := "fund-1", Name := "Growth",
                  Securities := none }) ∧
    (CreatePortfolio (nameIndex.stub growthOnce) "pf-2" "fund-1" "Growth").err = none ∧
    (CreatePortfolio (nameIndex.stub growthOnce) "pf-2" "fund-1" "Growth").puts =
      [("pf-2", marshalPortfolio
        { DocType := "portfolio", ID := "pf-2", Fund := "fund-1", Name := "Growth",
          Securities := none })] ∧
    growthTwice =
      [("pf-1", marshalPortfolio
        { DocType := "portfolio", ID := "pf-1", Fund := "fund-1", Name := "Growth",
          Securities := none }),
       ("pf-2", marshalPortfolio
        { DocType := "portfolio", ID := "pf-2", Fund := "fund-1", Name := "Growth",
          Securities := none })] := by
  refine ⟨?_, rfl, rfl, rfl, rfl, rfl⟩
  intro stub fundId name
  unfold QueryPortfolioByName
  split <;> try simp
  split <;> simp

/-! ## Action types (C8) -/

/-- C8.  For a type other than `buy` and `sell`, `CreatePortfolioAction` returns
an error and issues no write; for a type other than `deposit` and `withdrawal`,
`CreateCapitalAccountAction` returns an error and issues no write; the other
arguments and the stub are arbitrary. -/
theorem invalid_action_type_rejected (stub : Stub) (id fundId portfolioId date : String)
    (period : Int) (name cusip amount currency : String) (full : Bool)
    (portfolioType accountType : String)
    (hb : portfolioType ≠ "buy") (hs : portfolioType ≠ "sell")
    (hd : accountType ≠ "deposit") (hw : accountType ≠ "withdrawal") :
    ((CreatePortfolioAction stub id fundId portfolioId portfolioType date period
        name cusip amount currency).err ≠ none ∧
     (CreatePortfolioAction stub id fundId portfolioId portfolioType date period
        name cusip amount currency).puts = []) ∧
    ((CreateCapitalAccountAction stub id accountType amount full date period).err ≠ none ∧
     (CreateCapitalAccountAction stub id accountType amount full date period).puts = []) := by
  simp [CreatePortfolioAction, CreateCapitalAccountAction, hb, hs, hd, hw]

/-- The rejection theorem at the types `hold` and `transfer`. -/
theorem invalid_action_type_rejected_witness :
    ("hold" ≠ "buy" ∧ "hold" ≠ "sell" ∧ "transfer" ≠ "deposit" ∧ "transfer" ≠ "withdrawal") ∧
    ((CreatePortfolioAction (quietBackend.stub sampleWorld) "act-1" "fund-1" "pf-1" "hold"
        "2021-01-01" 1 "ACME" "000000000" "10" "USD").err ≠ none ∧
     (CreatePortfolioAction (quietBackend.stub sampleWorld) "act-1" "fund-1" "pf-1" "hold"
        "2021-01-01" 1 "ACME" "000000000" "10" "USD").puts = []) ∧
    ((CreateCapitalAccountAction (quietBackend.stub sampleWorld) "act-1" "transfer" "10" true
        "2021-01-01" 1).err ≠ none ∧
     (CreateCapitalAccountAction (quietBackend.stub sampleWorld) "act-1" "transfer" "10" true
        "2021-01-01" 1).puts = []) :=
  ⟨by decide,
   invalid_action_type_rejected (quietBackend.stub sampleWorld) "act-1" "fund-1" "pf-1"
     "2021-01-01" 1 "ACME" "000000000" "10" "USD" true "hold" "transfer"
     (by decide) (by decide) (by decide) (by decide)⟩

/-! ## A submitted capital account action (C9) -/

/-- C9.  For the type `deposit` or `withdrawal`, when the store accepts the
write, `CreateCapitalAccountAction` returns `nil` and issues exactly one write,
under the identifier drawn: a document whose `id` is that identifier, whose
type, amount, full, date and period are the arguments and whose status is
`submitted`. -/
theorem CreateCapitalAccountAction_submitted (stub : Stub) (id type_ amount : String)
    (full : Bool) (date : String) (period : Int)
    (ht : type_ = "deposit" ∨ type_ = "withdrawal")
    (hw : ∀ kv ∈ (CreateCapitalAccountAction stub id type_ amount full date period).puts,
      stub.PutState kv.1 kv.2 = none) :
    (CreateCapitalAccountAction stub id type_ amount full date period).err = none ∧
    (CreateCapitalAccountAction stub id type_ amount full date period).puts =
      [(id, .text (.obj [
        ("docType", .str "capitalAccountAction"),
        ("id", .str id),
        ("type", .str type_),
        ("amount", .str amount),
        ("full", .bool full),
        ("status", .str "submitted"),
        ("description", .str ""),
        ("Date", .str date),
        ("period", .int period)]))] := by
  have hg : ¬ (type_ ≠ "deposit" ∧ type_ ≠ "withdrawal") := by
    rcases ht with h | h <;> simp [h]
  unfold CreateCapitalAccountAction at hw ⊢
  simp only [hg, if_false] at hw ⊢
  refine ⟨?_, rfl⟩
  exact hw _ (List.mem_singleton.mpr rfl)

/-- The creation theorem at a deposit. -/
theorem CreateCapitalAccountAction_submitted_witness :
    (("deposit" = "deposit" ∨ "deposit" = "withdrawal") ∧
     ∀ kv ∈ (CreateCapitalAccountAction (quietBackend.stub sampleWorld) "act-1" "deposit"
        "100.0" false "2021-01-01" 3).puts,
      (quietBackend.stub sampleWorld).PutState kv.1 kv.2 = none) ∧
    (CreateCapitalAccountAction (quietBackend.stub sampleWorld) "act-1" "deposit"
        "100.0" false "2021-01-01" 3).err = none ∧
    (CreateCapitalAccountAction (quietBackend.stub sampleWorld) "act-1" "deposit"
        "100.0" false "2021-01-01" 3).puts =
      [("act-1", .text (.obj [
        ("docType", .str "capitalAccountAction"),
        ("id", .str "act-1"),
        ("type", .str "deposit"),
        ("amount", .str "100.0"),
        ("full", .bool false),
        ("status", .str "submitted"),
        ("description", .str ""),
        ("Date", .str "2021-01-01"),
        ("period", .int 3)]))] :=
  ⟨⟨Or.inl rfl, fun _ _ => rfl⟩,
   CreateCapitalAccountAction_submitted (quietBackend.stub sampleWorld) "act-1" "deposit"
     "100.0" false "2021-01-01" 3 (Or.inl rfl) (fun _ _ => rfl)⟩

/-! ## A new fund (C10) -/

/-- C10.  When the stub reports no value at `fundId`, `CreateFund` issues
exactly one write, under `fundId`: a fund with that id, the given name and
inception date, period 0, investor counter 0, the four values `0` and
`periodUpdated` false.  It returns what the store answers to that write, every
other key of the world state is as it was, and after a `nil` return the world
state holds that fund at `fundId`. -/
theorem CreateFund_writes_new_fund (b : Backend) (w : World)
    (fundId name inceptionDate : String)
    (h : (b.stub w).GetState fundId = .ok none) :
    (CreateFund (b.stub w) fundId name inceptionDate).puts =
      [(fundId, .text (.obj [
        ("docType", .str "fund"),
        ("id", .str fundId),
        ("name", .str name),
        ("currentPeriod", .int 0),
        ("inceptionDate", .str inceptionDate),
        ("periodClosingValue", .str "0"),
        ("periodOpeningValue", .str "0"),
        ("aggregateFixedFees", .str "0"),
        ("aggregateDeposits", .str "0"),
        ("nextInvestorNumber", .int 0),
        ("periodUpdated", .bool false)]))] ∧
    (CreateFund (b.stub w) fundId name inceptionDate).err =
      (b.stub w).PutState fundId (.text (.obj [
        ("docType", .str "fund"),
        ("id", .str fundId),
        ("name", .str name),
        ("currentPeriod", .int 0),
        ("inceptionDate", .str inceptionDate),
        ("periodClosingValue", .str "0"),
        ("periodOpeningValue", .str "0"),
        ("aggregateFixedFees", .str "0"),
        ("aggregateDeposits", .str "0"),
        ("nextInvestorNumber", .int 0),
        ("periodUpdated", .bool false)])) ∧
    (∀ k, k ≠ fundId →
      (b.commit w (CreateFund (b.stub w) fundId name inceptionDate)).get k = w.get k) ∧
    ((CreateFund (b.stub w) fundId name inceptionDate).err = none →
      (b.commit w (CreateFund (b.stub w) fundId name inceptionDate)).get fundId =
        some (.text (.obj [
          ("docType", .str "fund"),
          ("id", .str fundId),
          ("name", .str name),
          ("currentPeriod", .int 0),
          ("inceptionDate", .str inceptionDate),
          ("periodClosingValue", .str "0"),
          ("periodOpeningValue", .str "0"),
          ("aggregateFixedFees", .str "0"),
          ("aggregateDeposits", .str "0"),
          ("nextInvestorNumber", .int 0),
          ("periodUpdated", .bool false)]))) := by
  have hputs : (CreateFund (b.stub w) fundId name inceptionDate).puts = [(fundId, marshalFund
      { DocType := DOCTYPE_FUND, ID := fundId, Name := name, CurrentPeriod := 0,
        InceptionDate := inceptionDate, PeriodClosingValue := "0", PeriodOpeningValue := "0",
        AggregateFixedFees := "0", AggregateDeposits := "0", NextInvestorNumber := 0,
        PeriodUpdated := false })] := by
    simp [CreateFund, h]
  refine ⟨hputs, ?_, ?_, ?_⟩
  · simp [CreateFund, h, marshalFund, DOCTYPE_FUND]
  · intro k hk
    unfold Backend.commit
    cases he : (CreateFund (b.stub w) fundId name inceptionDate).err with
    | some e => rfl
    | none =>
      simp only []
      apply applyPuts_get_other
      intro kv hkv
      rw [hputs] at hkv
      rw [List.mem_singleton.mp hkv]
      exact Ne.symm hk
  · intro he
    exact CreateFund_commit_get b w fundId name inceptionDate he

/-- The creation theorem at a key the sample ledger does not hold. -/
theorem CreateFund_writes_new_fund_witness :
    (quietBackend.stub sampleWorld).GetState "fund-2" = .ok none ∧
    (CreateFund (quietBackend.stub sampleWorld) "fund-2" "Beta" "2021-06-30").puts =
      [("fund-2", .text (.obj [
        ("docType", .str "fund"),
        ("id", .str "fund-2"),
        ("name", .str "Beta"),
        ("currentPeriod", .int 0),
        ("inceptionDate", .str "2021-06-30"),
        ("periodClosingValue", .str "0"),
        ("periodOpeningValue", .str "0"),
        ("aggregateFixedFees", .str "0"),
        ("aggregateDeposits", .str "0"),
        ("nextInvestorNumber", .int 0),
        ("periodUpdated", .bool false)]))] :=
  ⟨by simp [Backend.stub, quietBackend, sampleWorld, World.get],
   (CreateFund_writes_new_fund quietBackend sampleWorld "fund-2" "Beta" "2021-06-30"
     (by simp [Backend.stub, quietBackend, sampleWorld, World.get])).1⟩

/-! ## The new capital account (C11) -/

/-- C11.  When the store holds at `fundId` bytes that decode to the fund `f`, a
`CreateCapitalAccount(fundId, investorId)` that returns `nil` has written, under
the identifier drawn, a capital account with that identifier as id, fund
`fundId`, investor `investorId`, number `f.NextInvestorNumber` as read before
the call, period `f.CurrentPeriod`, the five balances `0.0` and the high water
mark with amount `0.0` and date `None`; the store accepted that write, and the
document decodes back to that record. -/
theorem CreateCapitalAccount_writes_account (stub : Stub) (id fundId investorId : String)
    (data : Bytes) (f : Fund)
    (hget : stub.GetState fundId = .ok (some data))
    (hdec : unmarshalFund Fund.zero data = .ok f)
    (herr : (CreateCapitalAccount stub id fundId investorId).err = none) :
    (CreateCapitalAccount stub id fundId investorId).puts =
      [(f.ID, marshalFund { f with NextInvestorNumber := wrapInt (f.NextInvestorNumber + 1) }),
       (id, marshalCapitalAccount
          { DocType := "capitalAccount", ID := id, Fund := fundId, Investor := investorId,
            Number := f.NextInvestorNumber, CurrentPeriod := f.CurrentPeriod,
            PeriodClosingValue := "0.0", PeriodOpeningValue := "0.0", FixedFees := "0.0",
            Deposits := "0.0", OwnershipPercentage := "0.0",
            HighWaterMark := { Amount := "0.0", Date := "None" } })] ∧
    stub.PutState id (marshalCapitalAccount
      { DocType := "capitalAccount", ID := id, Fund := fundId, Investor := investorId,
        Number := f.NextInvestorNumber, CurrentPeriod := f.CurrentPeriod,
        PeriodClosingValue := "0.0", PeriodOpeningValue := "0.0", FixedFees := "0.0",
        Deposits := "0.0", OwnershipPercentage := "0.0",
        HighWaterMark := { Amount := "0.0", Date := "None" } }) = none ∧
    unmarshalCapitalAccount CapitalAccount.zero (marshalCapitalAccount
      { DocType := "capitalAccount", ID := id, Fund := fundId, Investor := investorId,
        Number := f.NextInvestorNumber, CurrentPeriod := f.CurrentPeriod,
        PeriodClosingValue := "0.0", PeriodOpeningValue := "0.0", FixedFees := "0.0",
        Deposits := "0.0", OwnershipPercentage := "0.0",
        HighWaterMark := { Amount := "0.0", Date := "None" } }) = .ok
      { DocType := "capitalAccount", ID := id, Fund := fundId, Investor := investorId,
        Number := f.NextInvestorNumber, CurrentPeriod := f.CurrentPeriod,
        PeriodClosingValue := "0.0", PeriodOpeningValue := "0.0", FixedFees := "0.0",
        Deposits := "0.0", OwnershipPercentage := "0.0",
        HighWaterMark := { Amount := "0.0", Date := "None" } } := by
  obtain ⟨hp, ha⟩ := CreateCapitalAccount_puts_of_fund stub id fundId investorId data f
    hget hdec herr
  obtain ⟨hr1, hr2⟩ := unmarshalFund_inIntRange data f hdec
  exact ⟨hp, ha, unmarshalCapitalAccount_marshalCapitalAccount _ hr2 hr1⟩

/-- The account theorem at the sample ledger. -/
theorem CreateCapitalAccount_writes_account_witness :
    ((quietBackend.stub sampleWorld).GetState "fund-1" = .ok (some sampleFundDoc) ∧
     (CreateCapitalAccount (quietBackend.stub sampleWorld) "acct-1" "fund-1" "inv-1").err
       = none) ∧
    (CreateCapitalAccount (quietBackend.stub sampleWorld) "acct-1" "fund-1" "inv-1").puts =
      [("fund-1", marshalFund
          { DocType := "fund", ID := "fund-1", Name := "Alpha", CurrentPeriod := 0,
            InceptionDate := "2020-01-01", PeriodClosingValue := "0",
            PeriodOpeningValue := "0", AggregateFixedFees := "0", AggregateDeposits := "0",
            NextInvestorNumber := 1, PeriodUpdated := false }),
       ("acct-1", marshalCapitalAccount
          { DocType := "capitalAccount", ID := "acct-1", Fund := "fund-1",
            Investor := "inv-1", Number := 0, CurrentPeriod := 0,
            PeriodClosingValue := "0.0", PeriodOpeningValue := "0.0", FixedFees := "0.0",
            Deposits := "0.0", OwnershipPercentage := "0.0",
            HighWaterMark := { Amount := "0.0", Date := "None" } })] :=
  ⟨⟨rfl, rfl⟩,
   (CreateCapitalAccount_writes_account (quietBackend.stub sampleWorld) "acct-1" "fund-1"
      "inv-1" sampleFundDoc
      { DocType := "fund", ID := "fund-1", Name := "Alpha", CurrentPeriod := 0,
        InceptionDate := "2020-01-01", PeriodClosingValue := "0", PeriodOpeningValue := "0",
        AggregateFixedFees := "0", AggregateDeposits := "0", NextInvestorNumber := 0,
        PeriodUpdated := false }
      rfl rfl rfl).1⟩

/-! ## The fund counter after a new account (C12) -/

/-- C12, refuted as stated, on three inputs, each with a
`CreateCapitalAccount` that returns `nil`.  First: the stored fund has the
counter `2 ^ 63 - 1`, and the fund stored afterwards has the counter `-2 ^ 63`.
Second: the fund document under `fund-1` has the id `fund-9`, and the fund
stored at `fund-1` afterwards is the one from before.  Third: the identifier
drawn is the fund key itself, and the key afterwards holds the new capital
account in place of the fund. -/
theorem CreateCapitalAccount_counter_not_incremented :
    ((CreateCapitalAccount (quietBackend.stub maxedWorld) "acct-1" "fund-1" "inv-1").err
        = none ∧
      QueryFundById (quietBackend.stub maxedWorld) "fund-1" = .ok (some
        { DocType := "fund", ID := "fund-1", Name := "Alpha", CurrentPeriod := 0,
          InceptionDate := "2020-01-01", PeriodClosingValue := "0",
          PeriodOpeningValue := "0", AggregateFixedFees := "0", AggregateDeposits := "0",
          NextInvestorNumber := 9223372036854775807, PeriodUpdated := false }) ∧
      QueryFundById (quietBackend.stub (quietBackend.commit maxedWorld
          (CreateCapitalAccount (quietBackend.stub maxedWorld) "acct-1" "fund-1" "inv-1")))
        "fund-1" = .ok (some
        { DocType := "fund", ID := "fund-1", Name := "Alpha", CurrentPeriod := 0,
          InceptionDate := "2020-01-01", PeriodClosingValue := "0",
          PeriodOpeningValue := "0", AggregateFixedFees := "0", AggregateDeposits := "0",
          NextInvestorNumber := -9223372036854775808, PeriodUpdated := false })) ∧
    ((CreateCapitalAccount (quietBackend.stub misfiledWorld) "acct-1" "fund-1" "inv-1").err
        = none ∧
      QueryFundById (quietBackend.stub misfiledWorld) "fund-1" = .ok (some
        { DocType := "fund", ID := "fund-9", Name := "Alpha", CurrentPeriod := 0,
          InceptionDate := "2020-01-01", PeriodClosingValue := "0",
          PeriodOpeningValue := "0", AggregateFixedFees := "0", AggregateDeposits := "0",
          NextInvestorNumber := 0, PeriodUpdated := false }) ∧
      QueryFundById (quietBackend.stub (quietBackend.commit misfiledWorld
          (CreateCapitalAccount (quietBackend.stub misfiledWorld) "acct-1" "fund-1" "inv-1")))
        "fund-1" = .ok (some
        { DocType := "fund", ID := "fund-9", Name := "Alpha", CurrentPeriod := 0,
          InceptionDate := "2020-01-01", PeriodClosingValue := "0",
          PeriodOpeningValue := "0", AggregateFixedFees := "0", AggregateDeposits := "0",
          NextInvestorNumber := 0, PeriodUpdated := false })) ∧
    ((CreateCapitalAccount (quietBackend.stub sampleWorld) "fund-1" "fund-1" "inv-1").err
        = none ∧
      QueryFundById (quietBackend.stub sampleWorld) "fund-1" = .ok (some
        { DocType := "fund", ID := "fund-1", Name := "Alpha", CurrentPeriod := 0,
          InceptionDate := "2020-01-01", PeriodClosingValue := "0",
          PeriodOpeningValue := "0", AggregateFixedFees := "0", AggregateDeposits := "0",
          NextInvestorNumber := 0, PeriodUpdated := false }) ∧
      QueryFundById (quietBackend.stub (quietBackend.commit sampleWorld
          (CreateCapitalAccount (quietBackend.stub sampleWorld) "fund-1" "fund-1" "inv-1")))
        "fund-1" = .ok (some
        { DocType := "capitalAccount", ID := "fund-1", Name := "inv-1", CurrentPeriod := 0,
          InceptionDate := "", PeriodClosingValue := "0.0",
          PeriodOpeningValue := "0.0", AggregateFixedFees := "", AggregateDeposits := "",
          NextInvestorNumber := 0, PeriodUpdated := false })) :=
  ⟨⟨rfl, rfl, rfl⟩, ⟨rfl, rfl, rfl⟩, ⟨rfl, rfl, rfl⟩⟩

/-- C12, amended.  Let the store hold at `fundId` bytes that decode to a fund
`f` whose id is `fundId` and whose counter is below `2 ^ 63 - 1`, and let
`CreateCapitalAccount(fundId, investorId)` return `nil`, with all its writes
accepted and an identifier other than `fundId`.  Then the fund stored at
`fundId` afterwards, and returned by `QueryFundById`, is `f` with
`nextInvestorNumber` increased by 1 and every other field as it was. -/
theorem CreateCapitalAccount_increments_counter (b : Backend) (w : World)
    (id fundId investorId : String) (data : Bytes) (f : Fund)
    (hget : w.get fundId = some data)
    (hdec : unmarshalFund Fund.zero data = .ok f)
    (hid : f.ID = fundId)
    (hmax : f.NextInvestorNumber < 2 ^ 63 - 1)
    (herr : (CreateCapitalAccount (b.stub w) id fundId investorId).err = none)
    (hacc : ∀ kv ∈ (CreateCapitalAccount (b.stub w) id fundId investorId).puts,
      b.writeError kv.1 kv.2 = none)
    (hne : id ≠ fundId) :
    (b.commit w (CreateCapitalAccount (b.stub w) id fundId investorId)).get fundId =
      some (marshalFund { f with NextInvestorNumber := f.NextInvestorNumber + 1 }) ∧
    QueryFundById (b.stub (b.commit w (CreateCapitalAccount (b.stub w) id fundId investorId)))
      fundId = .ok (some { f with NextInvestorNumber := f.NextInvestorNumber + 1 }) := by
  subst hid
  have hgs : (b.stub w).GetState f.ID = .ok (some data) := by
    rcases stub_GetState_cases b w f.ID with h1 | ⟨e, h1⟩
    · rw [h1, hget]
    · simp [CreateCapitalAccount, QueryFundById, h1] at herr
  have hread : b.readError f.ID = none := by
    cases hr : b.readError f.ID with
    | none => rfl
    | some e => simp [Backend.stub, hr] at hgs
  obtain ⟨hr1, hr2⟩ := unmarshalFund_inIntRange data f hdec
  have hwrap : wrapInt (f.NextInvestorNumber + 1) = f.NextInvestorNumber + 1 := by
    apply wrapInt_of_inIntRange
    rw [inIntRange_iff] at hr2 ⊢
    omega
  have hputs := (CreateCapitalAccount_puts_of_fund (b.stub w) id f.ID investorId data f
    hgs hdec herr).1
  rw [hwrap] at hputs
  have hstored : (b.commit w (CreateCapitalAccount (b.stub w) id f.ID investorId)).get f.ID
      = some (marshalFund { f with NextInvestorNumber := f.NextInvestorNumber + 1 }) := by
    rw [hputs] at hacc
    have h1 := hacc _ (List.mem_cons_self _ _)
    have h2 := hacc _ (List.mem_cons_of_mem _ (List.mem_cons_self _ _))
    simp only [] at h1 h2
    unfold Backend.commit
    rw [herr, hputs]
    simp only [applyPuts, h1, h2]
    rw [World.get_put_other _ _ _ _ (Ne.symm hne), World.get_put_same]
  refine ⟨hstored, ?_⟩
  have hrange : inIntRange (f.NextInvestorNumber + 1) = true := by
    rw [inIntRange_iff] at hr2 ⊢
    omega
  have hrt := unmarshalFund_marshalFund
    { f with NextInvestorNumber := f.NextInvestorNumber + 1 } hr1 hrange
  have hgs2 : (b.stub (b.commit w (CreateCapitalAccount (b.stub w) id f.ID investorId))).GetState
      f.ID = .ok (some (marshalFund
        { f with NextInvestorNumber := f.NextInvestorNumber + 1 })) := by
    rw [← hstored]
    simp only [Backend.stub, hread]
  exact QueryFundById_of_GetState _ _ _ _ hgs2 hrt

/-- The counter theorem at the sample ledger. -/
theorem CreateCapitalAccount_increments_counter_witness :
    (CreateCapitalAccount (quietBackend.stub sampleWorld) "acct-1" "fund-1" "inv-1").err = none ∧
    QueryFundById (quietBackend.stub (quietBackend.commit sampleWorld
        (CreateCapitalAccount (quietBackend.stub sampleWorld) "acct-1" "fund-1" "inv-1")))
      "fund-1" = .ok (some
      { DocType := "fund", ID := "fund-1", Name := "Alpha", CurrentPeriod := 0,
        InceptionDate := "2020-01-01", PeriodClosingValue := "0",
        PeriodOpeningValue := "0", AggregateFixedFees := "0", AggregateDeposits := "0",
        NextInvestorNumber := 1, PeriodUpdated := false }) :=
  ⟨rfl,
   (CreateCapitalAccount_increments_counter quietBackend sampleWorld "acct-1" "fund-1" "inv-1"
      sampleFundDoc
      { DocType := "fund", ID := "fund-1", Name := "Alpha", CurrentPeriod := 0,
        InceptionDate := "2020-01-01", PeriodClosingValue := "0", PeriodOpeningValue := "0",
        AggregateFixedFees := "0", AggregateDeposits := "0", NextInvestorNumber := 0,
        PeriodUpdated := false }
      rfl rfl rfl (by decide) rfl (fun _ _ => rfl) (by decide)).2⟩

/-! ## First match of the singular lookups (C13) -/

/-- C13, evaluated where the code departs from it.  `QueryFundByName` decodes
the first result into a second `fund` declared inside the loop, so whenever it
returns a record that record is the zero fund: with the fund `Alpha` as the
one query result it returns the zero fund, while `QueryInvestorByName`,
`QueryPortfolioByName` and `QueryPortfolioByFund` return the decoding of their
first result. -/
theorem QueryFundByName_drops_first_match :
    (∀ (stub : Stub) (name : String),
      QueryFundByName stub name = .ok (some Fund.zero) ∨
      ∃ e, QueryFundByName stub name = .error e) ∧
    unmarshalFund Fund.zero sampleFundDoc = .ok
      { DocType := "fund", ID := "fund-1", Name := "Alpha", CurrentPeriod := 0,
        InceptionDate := "2020-01-01", PeriodClosingValue := "0", PeriodOpeningValue := "0",
        AggregateFixedFees := "0", AggregateDeposits := "0", NextInvestorNumber := 0,
        PeriodUpdated := false } ∧
    (oneResultStub sampleFundDoc).GetQueryResult (fundByNameQuery "Alpha")
      = .ok [.ok sampleFundDoc] ∧
    QueryFundByName (oneResultStub sampleFundDoc) "Alpha" = .ok (some
      { DocType := "", ID := "", Name := "", CurrentPeriod := 0, InceptionDate := "",
        PeriodClosingValue := "", PeriodOpeningValue := "", AggregateFixedFees := "",
        AggregateDeposits := "", NextInvestorNumber := 0, PeriodUpdated := false }) ∧
    QueryInvestorByName (oneResultStub sampleInvestorDoc) "Alice" = .ok (some
      { DocType := "investor", ID := "inv-1", Name := "Alice" }) ∧
    QueryPortfolioByName (oneResultStub (marshalPortfolio
        { DocType := "portfolio", ID := "pf-1", Fund := "fund-1", Name := "Growth",
          Securities := none })) "fund-1" "Growth" = .ok (some
      { DocType := "portfolio", ID := "pf-1", Fund := "fund-1", Name := "Growth",
        Securities := none }) ∧
    QueryPortfolioByFund (oneResultStub (marshalPortfolio
        { DocType := "portfolio", ID := "pf-1", Fund := "fund-1", Name := "Growth",
          Securities := none })) "fund-1" = .ok (some
      { DocType := "portfolio", ID := "pf-1", Fund := "fund-1", Name := "Growth",
        Securities := none }) := by
  refine ⟨?_, rfl, rfl, rfl, rfl, rfl, rfl⟩
  intro stub name
  unfold QueryFundByName
  cases hq : stub.GetQueryResult (fundByNameQuery name) with
  | error e => exact Or.inr ⟨e, rfl⟩
  | ok results =>
    cases results with
    | nil => exact Or.inl rfl
    | cons r rest =>
      cases r with
      | error e => exact Or.inr ⟨e, rfl⟩
      | ok value =>
        cases hu : unmarshalFund Fund.zero value with
        | error e => exact Or.inr ⟨e, by simp [hu]⟩
        | ok g => exact Or.inl (by simp [hu])

/-! ## Singular lookups without a match (C14) -/

/-- C14.  When the query of a singular attribute lookup succeeds with no
result, the lookup returns no error and a present record all of whose fields
have their zero value; so for each of `QueryInvestorByName`,
`QueryPortfolioByName`, `QueryPortfolioByFund` and `QueryFundByName`, on a stub
and at arguments of its own and from the empty answer to its own query alone. -/
theorem singular_lookups_empty_result (stub₁ stub₂ stub₃ stub₄ : Stub)
    (name₁ fundId₂ name₂ fundId₃ name₄ : String) :
    (stub₁.GetQueryResult (investorByNameQuery name₁) = .ok [] →
      QueryInvestorByName stub₁ name₁ = .ok (some { DocType := "", ID := "", Name := "" })) ∧
    (stub₂.GetQueryResult (portfolioByNameQuery fundId₂ name₂) = .ok [] →
      QueryPortfolioByName stub₂ fundId₂ name₂ = .ok (some
        { DocType := "", ID := "", Fund := "", Name := "", Securities := none })) ∧
    (stub₃.GetQueryResult (portfolioByFundQuery fundId₃) = .ok [] →
      QueryPortfolioByFund stub₃ fundId₃ = .ok (some
        { DocType := "", ID := "", Fund := "", Name := "", Securities := none })) ∧
    (stub₄.GetQueryResult (fundByNameQuery name₄) = .ok [] →
      QueryFundByName stub₄ name₄ = .ok (some
        { DocType := "", ID := "", Name := "", CurrentPeriod := 0, InceptionDate := "",
          PeriodClosingValue := "", PeriodOpeningValue := "", AggregateFixedFees := "",
          AggregateDeposits := "", NextInvestorNumber := 0, PeriodUpdated := false })) := by
  refine ⟨fun hi => ?_, fun hp => ?_, fun hpf => ?_, fun hf => ?_⟩
  · simp only [QueryInvestorByName, hi]; rfl
  · simp only [QueryPortfolioByName, hp]; rfl
  · simp only [QueryPortfolioByFund, hpf]; rfl
  · simp only [QueryFundByName, hf]; rfl

/-- The empty-result theorem on four stubs: the investor lookup for a name the
name index does not hold, the portfolio lookup by name on a ledger whose fund
has another portfolio, and the other two on a query service that finds nothing. -/
theorem singular_lookups_empty_result_witness :
    ((nameIndex.stub aliceOnce).GetQueryResult (investorByNameQuery "Bob") = .ok [] ∧
     (nameIndex.stub growthOnce).GetQueryResult (portfolioByNameQuery "fund-1" "Value")
       = .ok [] ∧
     (quietBackend.stub sampleWorld).GetQueryResult (portfolioByFundQuery "fund-1")
       = .ok [] ∧
     (quietBackend.stub sampleWorld).GetQueryResult (fundByNameQuery "Beta") = .ok []) ∧
    (QueryInvestorByName (nameIndex.stub aliceOnce) "Bob" =
       .ok (some { DocType := "", ID := "", Name := "" }) ∧
     QueryPortfolioByName (nameIndex.stub growthOnce) "fund-1" "Value" = .ok (some
       { DocType := "", ID := "", Fund := "", Name := "", Securities := none }) ∧
     QueryPortfolioByFund (quietBackend.stub sampleWorld) "fund-1" = .ok (some
       { DocType := "", ID := "", Fund := "", Name := "", Securities := none }) ∧
     QueryFundByName (quietBackend.stub sampleWorld) "Beta" = .ok (some
       { DocType := "", ID := "", Name := "", CurrentPeriod := 0, InceptionDate := "",
         PeriodClosingValue := "", PeriodOpeningValue := "", AggregateFixedFees := "",
         AggregateDeposits := "", NextInvestorNumber := 0, PeriodUpdated := false })) :=
  ⟨⟨rfl, rfl, rfl, rfl⟩,
   (singular_lookups_empty_result (nameIndex.stub aliceOnce) (nameIndex.stub growthOnce)
     (quietBackend.stub sampleWorld) (quietBackend.stub sampleWorld)
     "Bob" "fund-1" "Value" "fund-1" "Beta").1 rfl,
   (singular_lookups_empty_result (nameIndex.stub aliceOnce) (nameIndex.stub growthOnce)
     (quietBackend.stub sampleWorld) (quietBackend.stub sampleWorld)
     "Bob" "fund-1" "Value" "fund-1" "Beta").2.1 rfl,
   (singular_lookups_empty_result (nameIndex.stub aliceOnce) (nameIndex.stub growthOnce)
     (quietBackend.stub sampleWorld) (quietBackend.stub sampleWorld)
     "Bob" "fund-1" "Value" "fund-1" "Beta").2.2.1 rfl,
   (singular_lookups_empty_result (nameIndex.stub aliceOnce) (nameIndex.stub growthOnce)
     (quietBackend.stub sampleWorld) (quietBackend.stub sampleWorld)
     "Bob" "fund-1" "Value" "fund-1" "Beta").2.2.2 rfl⟩

/-! ## List-returning lookups (C15) -/

/-- C15.  For each of the four list-returning lookups, on a stub and at
arguments of its own, and every sequence of documents its own query answers
with: when every document decodes, the lookup returns a list of the same
length whose elements are the decodings of the documents, in iteration order;
when some document fails to decode, it returns an error. -/
theorem list_lookups_collect_in_order (stub₁ stub₂ stub₃ stub₄ : Stub)
    (fundId₁ fundId₂ investorId₂ fundId₃ fundId₄ capitalAccountId₄ : String) (period₄ : Int)
    (ds₁ ds₂ ds₃ ds₄ : List Bytes) :
    (stub₁.GetQueryResult (capitalAccountsByFundQuery fundId₁) = .ok (ds₁.map .ok) →
     ((∀ d ∈ ds₁, ∃ c, unmarshalCapitalAccount CapitalAccount.zero d = .ok c) →
        ∃ l, QueryCapitalAccountsByFund stub₁ fundId₁ = .ok l ∧ l.length = ds₁.length ∧
          l.map Except.ok = ds₁.map (unmarshalCapitalAccount CapitalAccount.zero)) ∧
     ((∃ d ∈ ds₁, ∃ e, unmarshalCapitalAccount CapitalAccount.zero d = .error e) →
        ∃ e, QueryCapitalAccountsByFund stub₁ fundId₁ = .error e)) ∧
    (stub₂.GetQueryResult (capitalAccountsByInvestorQuery fundId₂ investorId₂)
      = .ok (ds₂.map .ok) →
     ((∀ d ∈ ds₂, ∃ c, unmarshalCapitalAccount CapitalAccount.zero d = .ok c) →
        ∃ l, QueryCapitalAccountsByInvestor stub₂ fundId₂ investorId₂ = .ok l ∧ l.length = ds₂.length ∧
          l.map Except.ok = ds₂.map (unmarshalCapitalAccount CapitalAccount.zero)) ∧
     ((∃ d ∈ ds₂, ∃ e, unmarshalCapitalAccount CapitalAccount.zero d = .error e) →
        ∃ e, QueryCapitalAccountsByInvestor stub₂ fundId₂ investorId₂ = .error e)) ∧
    (stub₃.GetQueryResult (capitalAccountActionsByFundQuery fundId₃) = .ok (ds₃.map .ok) →
     ((∀ d ∈ ds₃, ∃ c, unmarshalCapitalAccountAction CapitalAccountAction.zero d = .ok c) →
        ∃ l, QueryCapitalAccountActionsByFund stub₃ fundId₃ = .ok l ∧ l.length = ds₃.length ∧
          l.map Except.ok = ds₃.map (unmarshalCapitalAccountAction CapitalAccountAction.zero)) ∧
     ((∃ d ∈ ds₃, ∃ e, unmarshalCapitalAccountAction CapitalAccountAction.zero d = .error e) →
        ∃ e, QueryCapitalAccountActionsByFund stub₃ fundId₃ = .error e)) ∧
    (stub₄.GetQueryResult
      (capitalAccountActionsByAccountPeriodQuery fundId₄ capitalAccountId₄ period₄)
      = .ok (ds₄.map .ok) →
     ((∀ d ∈ ds₄, ∃ c, unmarshalCapitalAccountAction CapitalAccountAction.zero d = .ok c) →
        ∃ l, QueryCapitalAccountActionsByAccountPeriod stub₄ fundId₄ capitalAccountId₄ period₄ = .ok l ∧ l.length = ds₄.length ∧
          l.map Except.ok = ds₄.map (unmarshalCapitalAccountAction CapitalAccountAction.zero)) ∧
     ((∃ d ∈ ds₄, ∃ e, unmarshalCapitalAccountAction CapitalAccountAction.zero d = .error e) →
        ∃ e, QueryCapitalAccountActionsByAccountPeriod stub₄ fundId₄ capitalAccountId₄ period₄ = .error e)) := by
  refine ⟨fun h₁ => ?_, fun h₂ => ?_, fun h₃ => ?_, fun h₄ => ?_⟩
  · refine ⟨?_, ?_⟩
    · intro hall
      obtain ⟨l, hl⟩ := exists_ok_list (unmarshalCapitalAccount CapitalAccount.zero) ds₁ hall
      refine ⟨l, ?_, ?_, hl.symm⟩
      · simp only [QueryCapitalAccountsByFund, h₁]
        rw [collectCapitalAccounts_ok ds₁ [] l hl]
        simp
      · have := congrArg List.length hl
        simpa using this.symm
    · intro hbad
      obtain ⟨e, he⟩ := collectCapitalAccounts_error ds₁ [] hbad
      exact ⟨e, by simp only [QueryCapitalAccountsByFund, h₁]; exact he⟩
  · refine ⟨?_, ?_⟩
    · intro hall
      obtain ⟨l, hl⟩ := exists_ok_list (unmarshalCapitalAccount CapitalAccount.zero) ds₂ hall
      refine ⟨l, ?_, ?_, hl.symm⟩
      · simp only [QueryCapitalAccountsByInvestor, h₂]
        rw [collectCapitalAccounts_ok ds₂ [] l hl]
        simp
      · have := congrArg List.length hl
        simpa using this.symm
    · intro hbad
      obtain ⟨e, he⟩ := collectCapitalAccounts_error ds₂ [] hbad
      exact ⟨e, by simp only [QueryCapitalAccountsByInvestor, h₂]; exact he⟩
  · refine ⟨?_, ?_⟩
    · intro hall
      obtain ⟨l, hl⟩ := exists_ok_list (unmarshalCapitalAccountAction CapitalAccountAction.zero) ds₃ hall
      refine ⟨l, ?_, ?_, hl.symm⟩
      · simp only [QueryCapitalAccountActionsByFund, h₃]
        rw [collectCapitalAccountActions_ok ds₃ [] l hl]
        simp
      · have := congrArg List.length hl
        simpa using this.symm
    · intro hbad
      obtain ⟨e, he⟩ := collectCapitalAccountActions_error ds₃ [] hbad
      exact ⟨e, by simp only [QueryCapitalAccountActionsByFund, h₃]; exact he⟩
  · refine ⟨?_, ?_⟩
    · intro hall
      obtain ⟨l, hl⟩ := exists_ok_list (unmarshalCapitalAccountAction CapitalAccountAction.zero) ds₄ hall
      refine ⟨l, ?_, ?_, hl.symm⟩
      · simp only [QueryCapitalAccountActionsByAccountPeriod, h₄]
        rw [collectCapitalAccountActions_ok ds₄ [] l hl]
        simp
      · have := congrArg List.length hl
        simpa using this.symm
    · intro hbad
      obtain ⟨e, he⟩ := collectCapitalAccountActions_error ds₄ [] hbad
      exact ⟨e, by simp only [QueryCapitalAccountActionsByAccountPeriod, h₄]; exact he⟩

/-- The collecting theorem on four stubs, each answering with a sequence of its
own: the by-investor lookup on two documents that decode, and the lookup by
account and period on a document that does not. -/
theorem list_lookups_collect_in_order_witness :
    ((resultsStub []).GetQueryResult (capitalAccountsByFundQuery "fund-1")
        = .ok (([] : List Bytes).map .ok) ∧
     (resultsStub [sampleFundDoc, sampleInvestorDoc]).GetQueryResult
        (capitalAccountsByInvestorQuery "fund-1" "inv-1")
        = .ok ([sampleFundDoc, sampleInvestorDoc].map .ok) ∧
     (resultsStub [sampleInvestorDoc]).GetQueryResult
        (capitalAccountActionsByFundQuery "fund-2") = .ok ([sampleInvestorDoc].map .ok) ∧
     (resultsStub [Bytes.malformed 0]).GetQueryResult
        (capitalAccountActionsByAccountPeriodQuery "fund-3" "acct-1" 1)
        = .ok ([Bytes.malformed 0].map .ok) ∧
     ∀ d ∈ [sampleFundDoc, sampleInvestorDoc],
        ∃ c, unmarshalCapitalAccount CapitalAccount.zero d = .ok c) ∧
    (∃ l, QueryCapitalAccountsByInvestor (resultsStub [sampleFundDoc, sampleInvestorDoc])
        "fund-1" "inv-1" = .ok l ∧ l.length = [sampleFundDoc, sampleInvestorDoc].length ∧
      l.map Except.ok =
        [sampleFundDoc, sampleInvestorDoc].map (unmarshalCapitalAccount CapitalAccount.zero)) ∧
    ∃ e, QueryCapitalAccountActionsByAccountPeriod (resultsStub [Bytes.malformed 0])
        "fund-3" "acct-1" 1 = .error e :=
  have hall : ∀ d ∈ [sampleFundDoc, sampleInvestorDoc],
      ∃ c, unmarshalCapitalAccount CapitalAccount.zero d = .ok c := by
    intro d hd
    simp only [List.mem_cons, List.mem_singleton, List.not_mem_nil, or_false] at hd
    rcases hd with rfl | rfl
    · exact ⟨_, rfl⟩
    · exact ⟨_, rfl⟩
  ⟨⟨rfl, rfl, rfl, rfl, hall⟩,
   ((list_lookups_collect_in_order (resultsStub [])
      (resultsStub [sampleFundDoc, sampleInvestorDoc]) (resultsStub [sampleInvestorDoc])
      (resultsStub [Bytes.malformed 0])
      "fund-1" "fund-1" "inv-1" "fund-2" "fund-3" "acct-1" 1
      [] [sampleFundDoc, sampleInvestorDoc] [sampleInvestorDoc] [Bytes.malformed 0]).2.1
      rfl).1 hall,
   ((list_lookups_collect_in_order (resultsStub [])
      (resultsStub [sampleFundDoc, sampleInvestorDoc]) (resultsStub [sampleInvestorDoc])
      (resultsStub [Bytes.malformed 0])
      "fund-1" "fund-1" "inv-1" "fund-2" "fund-3" "acct-1" 1
      [] [sampleFundDoc, sampleInvestorDoc] [sampleInvestorDoc] [Bytes.malformed 0]).2.2.2
      rfl).2 ⟨Bytes.malformed 0, by simp, _, rfl⟩⟩

/-! ## Round trip through the point lookups (C16) -/

/-- C16, refuted as stated.  On an empty ledger where nothing fails,
`CreateFund("fund-1", name, "2020-01-01")` with `name` the single byte 0xFF
returns `nil` and writes the struct it built, yet `QueryFundById("fund-1")`
returns a fund whose name is U+FFFD, which is not the fund built; the same for
`CreateInvestor` and `QueryInvestorById`.  And where the world state refuses
to read `inv-1`, a `CreateInvestor` that drew `inv-1` returns `nil` and
`QueryInvestorById("inv-1")` returns an error. -/
theorem round_trip_coerces_stray_bytes :
    ((CreateFundGo (quietBackend.stub []) "fund-1" [GoUnit.stray 255]
        (GoString.ofString "2020-01-01")).err = none ∧
     (CreateFundGo (quietBackend.stub []) "fund-1" [GoUnit.stray 255]
        (GoString.ofString "2020-01-01")).puts = [("fund-1", marshalGoFund strayNameFund)] ∧
     QueryFundById (quietBackend.stub (quietBackend.commit []
        (CreateFundGo (quietBackend.stub []) "fund-1" [GoUnit.stray 255]
          (GoString.ofString "2020-01-01")))) "fund-1" =
      .ok (some
        { DocType := "fund", ID := "fund-1", Name := "\uFFFD", CurrentPeriod := 0,
          InceptionDate := "2020-01-01", PeriodClosingValue := "0",
          PeriodOpeningValue := "0", AggregateFixedFees := "0", AggregateDeposits := "0",
          NextInvestorNumber := 0, PeriodUpdated := false }) ∧
     Fund.toGo
        { DocType := "fund", ID := "fund-1", Name := "\uFFFD", CurrentPeriod := 0,
          InceptionDate := "2020-01-01", PeriodClosingValue := "0",
          PeriodOpeningValue := "0", AggregateFixedFees := "0", AggregateDeposits := "0",
          NextInvestorNumber := 0, PeriodUpdated := false } ≠ strayNameFund) ∧
    ((CreateInvestorGo quietGoStub "inv-1" [GoUnit.stray 255]).err = none ∧
     (CreateInvestorGo quietGoStub "inv-1" [GoUnit.stray 255]).puts =
        [("inv-1", marshalGoInvestor strayNameInvestor)] ∧
     QueryInvestorById (quietBackend.stub (quietBackend.commit []
        (CreateInvestorGo quietGoStub "inv-1" [GoUnit.stray 255]))) "inv-1" =
      .ok (some { DocType := "investor", ID := "inv-1", Name := "\uFFFD" }) ∧
     Investor.toGo { DocType := "investor", ID := "inv-1", Name := "\uFFFD" }
        ≠ strayNameInvestor) ∧
    ((CreateInvestor (investorReadRefused.stub []) "inv-1" "Alice").err = none ∧
     QueryInvestorById (investorReadRefused.stub (investorReadRefused.commit []
        (CreateInvestor (investorReadRefused.stub []) "inv-1" "Alice"))) "inv-1" =
      .error "read refused") := by
  refine ⟨⟨rfl, rfl, rfl, by decide⟩, ⟨rfl, rfl, rfl, by decide⟩, ⟨rfl, rfl⟩⟩

/-- C16, amended.  For a name and an inception date that are well-formed text,
where `CreateFund` on Go strings is `CreateFund` of this embedding: after a
`CreateFund(fundId, name, inceptionDate)` that returns `nil`,
`QueryFundById(fundId)` returns the fund that call wrote, field for field.
For an investor name that is well-formed text: after a `CreateInvestor` that
returns `nil`, `QueryInvestorById` on the identifier drawn, when its read does
not fail, returns the investor that call wrote.  The two halves are about
ledgers of their own. -/
theorem point_lookup_round_trip (b₁ : Backend) (w₁ : World)
    (fundId name inceptionDate : String) (b₂ : Backend) (w₂ : World)
    (id investorName : String) :
    (CreateFundGo (b₁.stub w₁) fundId (GoString.ofString name)
        (GoString.ofString inceptionDate)
        = CreateFund (b₁.stub w₁) fundId name inceptionDate ∧
     ((CreateFund (b₁.stub w₁) fundId name inceptionDate).err = none →
      (CreateFund (b₁.stub w₁) fundId name inceptionDate).puts = [(fundId, marshalFund
        { DocType := "fund", ID := fundId, Name := name, CurrentPeriod := 0,
          InceptionDate := inceptionDate, PeriodClosingValue := "0",
          PeriodOpeningValue := "0", AggregateFixedFees := "0", AggregateDeposits := "0",
          NextInvestorNumber := 0, PeriodUpdated := false })] ∧
      QueryFundById (b₁.stub (b₁.commit w₁ (CreateFund (b₁.stub w₁) fundId name inceptionDate)))
        fundId = .ok (some
        { DocType := "fund", ID := fundId, Name := name, CurrentPeriod := 0,
          InceptionDate := inceptionDate, PeriodClosingValue := "0",
          PeriodOpeningValue := "0", AggregateFixedFees := "0", AggregateDeposits := "0",
          NextInvestorNumber := 0, PeriodUpdated := false }))) ∧
    ((∀ stub : GoStub, CreateInvestorGo stub id (GoString.ofString investorName)
        = CreateInvestor stub.toStub id investorName) ∧
     ((CreateInvestor (b₂.stub w₂) id investorName).err = none →
      b₂.readError id = none →
      (CreateInvestor (b₂.stub w₂) id investorName).puts = [(id, marshalInvestor
        { DocType := "investor", ID := id, Name := investorName })] ∧
      QueryInvestorById (b₂.stub (b₂.commit w₂ (CreateInvestor (b₂.stub w₂) id investorName)))
        id = .ok (some { DocType := "investor", ID := id, Name := investorName }))) := by
  refine ⟨⟨CreateFundGo_ofString _ _ _ _, fun hfund => ⟨?_, ?_⟩⟩,
    ⟨fun stub => CreateInvestorGo_ofString stub id investorName,
     fun hinv hread => ⟨?_, ?_⟩⟩⟩
  · exact (CreateFund_success (b₁.stub w₁) fundId name inceptionDate hfund).2.2
  · have hg := (CreateFund_success (b₁.stub w₁) fundId name inceptionDate hfund).1
    have hr : b₁.readError fundId = none := by
      cases hr : b₁.readError fundId with
      | none => rfl
      | some e => simp [Backend.stub, hr] at hg
    have hget := CreateFund_commit_get b₁ w₁ fundId name inceptionDate hfund
    have hgs : (b₁.stub (b₁.commit w₁
        (CreateFund (b₁.stub w₁) fundId name inceptionDate))).GetState
        fundId = .ok (some (marshalFund
          { DocType := DOCTYPE_FUND, ID := fundId, Name := name, CurrentPeriod := 0,
            InceptionDate := inceptionDate, PeriodClosingValue := "0",
            PeriodOpeningValue := "0", AggregateFixedFees := "0", AggregateDeposits := "0",
            NextInvestorNumber := 0, PeriodUpdated := false })) := by
      rw [← hget]
      simp only [Backend.stub, hr]
    exact QueryFundById_of_GetState _ _ _ _ hgs
      (unmarshalFund_marshalFund _ inIntRange_zero inIntRange_zero)
  · exact (CreateInvestor_success (b₂.stub w₂) id investorName hinv).2
  · obtain ⟨hp, hputs⟩ := CreateInvestor_success (b₂.stub w₂) id investorName hinv
    have hp' : b₂.writeError id _ = none := hp
    have hget : (b₂.commit w₂ (CreateInvestor (b₂.stub w₂) id investorName)).get id =
        some (marshalInvestor { DocType := DOCTYPE_INVESTOR, Name := investorName, ID := id }) := by
      simp [Backend.commit, hinv, hputs, applyPuts, hp', World.get_put_same]
    have hgs : (b₂.stub (b₂.commit w₂ (CreateInvestor (b₂.stub w₂) id investorName))).GetState id
        = .ok (some (marshalInvestor
          { DocType := DOCTYPE_INVESTOR, Name := investorName, ID := id })) := by
      rw [← hget]
      simp only [Backend.stub, hread]
    simp only [QueryInvestorById, hgs, unmarshalInvestor_marshalInvestor]
    rfl

/-- The round trip theorem on two empty ledgers: both operations succeed, the
read of `inv-1` does not fail, and each lookup returns the record written. -/
theorem point_lookup_round_trip_witness :
    ((CreateFund (quietBackend.stub []) "fund-1" "Alpha" "2020-01-01").err = none ∧
     (CreateInvestor (nameIndex.stub aliceOnce) "inv-2" "Bob").err = none ∧
     nameIndex.readError "inv-2" = none) ∧
    QueryFundById (quietBackend.stub (quietBackend.commit []
        (CreateFund (quietBackend.stub []) "fund-1" "Alpha" "2020-01-01"))) "fund-1" =
      .ok (some
        { DocType := "fund", ID := "fund-1", Name := "Alpha", CurrentPeriod := 0,
          InceptionDate := "2020-01-01", PeriodClosingValue := "0",
          PeriodOpeningValue := "0", AggregateFixedFees := "0", AggregateDeposits := "0",
          NextInvestorNumber := 0, PeriodUpdated := false }) ∧
    QueryInvestorById (nameIndex.stub (nameIndex.commit aliceOnce
        (CreateInvestor (nameIndex.stub aliceOnce) "inv-2" "Bob"))) "inv-2" =
      .ok (some { DocType := "investor", ID := "inv-2", Name := "Bob" }) :=
  ⟨⟨rfl, rfl, rfl⟩,
   ((point_lookup_round_trip quietBackend [] "fund-1" "Alpha" "2020-01-01"
      nameIndex aliceOnce "inv-2" "Bob").1.2 rfl).2,
   ((point_lookup_round_trip quietBackend [] "fund-1" "Alpha" "2020-01-01"
      nameIndex aliceOnce "inv-2" "Bob").2.2 rfl rfl).2⟩

/-! ## Round trip through the by-investor lookup (C17) -/

/-- C17, evaluated where the code departs from it.  The selector of
`QueryCapitalAccountsByInvestor` has the predicates `docType`, `fund` and
`investor`; the document `CreateCapitalAccount` writes carries the investor
under the member `name` and has no member `investor`, so the `investor`
predicate fails on it and the lookup returns the empty list, while
`QueryCapitalAccountsByFund` returns the account. -/
theorem QueryCapitalAccountsByInvestor_misses_account :
    (∀ fundId investorId : String, capitalAccountsByInvestorQuery fundId investorId =
      selectorText "capitalAccount" [("fund", fundId), ("investor", investorId)]) ∧
    (CreateCapitalAccount (accountIndex.stub sampleWorld) "acct-1" "fund-1" "inv-1").err
      = none ∧
    accountCreated.get "acct-1" = some (.text (.obj [
      ("docType", .str "capitalAccount"),
      ("id", .str "acct-1"),
      ("fund", .str "fund-1"),
      ("name", .str "inv-1"),
      ("number", .int 0),
      ("currentPeriod", .int 0),
      ("periodClosingValue", .str "0.0"),
      ("periodOpeningValue", .str "0.0"),
      ("fixedFees", .str "0.0"),
      ("deposits", .str "0.0"),
      ("ownershipPercentage", .str "0.0"),
      ("highWaterMark", .obj [("amount", .str "0.0"), ("date", .str "None")])])) ∧
    (accountCreated.get "acct-1").map (fun doc => stringMember doc "docType")
      = some (some "capitalAccount") ∧
    (accountCreated.get "acct-1").map (fun doc => stringMember doc "fund")
      = some (some "fund-1") ∧
    (accountCreated.get "acct-1").map (fun doc => stringMember doc "investor")
      = some none ∧
    (accountCreated.get "acct-1").map
      (selects [("docType", "capitalAccount"), ("fund", "fund-1"), ("investor", "inv-1")])
      = some false ∧
    QueryCapitalAccountsByInvestor (accountIndex.stub accountCreated) "fund-1" "inv-1"
      = .ok [] ∧
    QueryCapitalAccountsByFund (accountIndex.stub accountCreated) "fund-1" = .ok
      [{ DocType := "capitalAccount", ID := "acct-1", Fund := "fund-1", Investor := "inv-1",
         Number := 0, CurrentPeriod := 0, PeriodClosingValue := "0.0",
         PeriodOpeningValue := "0.0", FixedFees := "0.0", Deposits := "0.0",
         OwnershipPercentage := "0.0",
         HighWaterMark := { Amount := "0.0", Date := "None" } }] := by
  refine ⟨?_, rfl, rfl, rfl, rfl, rfl, rfl, rfl, rfl⟩
  intro fundId investorId
  apply String.ext
  simp [capitalAccountsByInvestorQuery, selectorText, String.data_append, List.append_assoc]

/-! ## The selectors of the action lookups (C18) -/

/-- C18, evaluated where the code departs from it.  The selectors of
`QueryCapitalAccountActionsByFund` and
`QueryCapitalAccountActionsByAccountPeriod` restrict `docType` to
`capitalAccount`, not to `capitalAccountAction`; the former submits the very
text `QueryCapitalAccountsByFund` submits.  On a ledger holding a capital
account of `fund-1` and a submitted action, `QueryCapitalAccountActionsByFund`
returns one record, decoded from the capital account document. -/
theorem action_lookups_select_capital_accounts :
    (∀ fundId : String, capitalAccountActionsByFundQuery fundId =
      selectorText "capitalAccount" [("fund", fundId)]) ∧
    (∀ (fundId capitalAccountId : String) (period : Int),
      capitalAccountActionsByAccountPeriodQuery fundId capitalAccountId period =
        selectorText "capitalAccount"
          [("fund", fundId), ("capitalAccount", capitalAccountId),
           ("period", toString period)]) ∧
    (∀ fundId : String, capitalAccountActionsByFundQuery fundId ≠
      selectorText "capitalAccountAction" [("fund", fundId)]) ∧
    (∀ fundId : String,
      capitalAccountActionsByFundQuery fundId = capitalAccountsByFundQuery fundId) ∧
    actionCreated.get "act-1" = some (.text (.obj [
      ("docType", .str "capitalAccountAction"),
      ("id", .str "act-1"),
      ("type", .str "deposit"),
      ("amount", .str "100.0"),
      ("full", .bool false),
      ("status", .str "submitted"),
      ("description", .str ""),
      ("Date", .str "2021-01-01"),
      ("period", .int 1)])) ∧
    (actionCreated.get "acct-1").map (fun doc => stringMember doc "docType")
      = some (some "capitalAccount") ∧
    QueryCapitalAccountActionsByFund (accountIndex.stub actionCreated) "fund-1" = .ok
      [{ DocType := "capitalAccount", ID := "acct-1", Type_ := "", Amount := "",
         Full := false, Status := "", Description := "", Date := "", Period := 0 }] := by
  refine ⟨?_, ?_, ?_, fun _ => rfl, rfl, rfl, rfl⟩
  · intro fundId
    apply String.ext
    simp [capitalAccountActionsByFundQuery, selectorText, String.data_append,
      List.append_assoc]
  · intro fundId capitalAccountId period
    apply String.ext
    simp [capitalAccountActionsByAccountPeriodQuery, selectorText, String.data_append,
      List.append_assoc]
  · intro fundId h
    have := congrArg String.data h
    simp [capitalAccountActionsByFundQuery, selectorText, String.data_append,
      List.append_assoc] at this

/-! ## Lookups do not write (C19) -/

/-- C19.  Each lookup, run with its stub calls recorded, returns the result of
its embedding and records no write; so the invocation of a lookup commits
nothing and the world state is as it was, and a point lookup made again, on
the world state the first one left, returns the same result.  The recording
does see writes: that of `CreateCapitalAccount` yields the outcome of its
embedding, the write whose result is dropped included. -/
theorem lookups_leave_store_unchanged (b : Backend) (w : World) (stub : Stub)
    (key name fundId investorId capitalAccountId id : String) (period : Int) :
    ((QueryFundById_recorded stub key []).1 = QueryFundById stub key ∧
     (QueryInvestorById_recorded stub key []).1 = QueryInvestorById stub key ∧
     (QueryInvestorByName_recorded stub name []).1 = QueryInvestorByName stub name ∧
     (QueryPortfolioByName_recorded stub fundId name []).1 = QueryPortfolioByName stub fundId name ∧
     (QueryPortfolioByFund_recorded stub fundId []).1 = QueryPortfolioByFund stub fundId ∧
     (QueryFundByName_recorded stub name []).1 = QueryFundByName stub name ∧
     (QueryCapitalAccountsByInvestor_recorded stub fundId investorId []).1 = QueryCapitalAccountsByInvestor stub fundId investorId ∧
     (QueryCapitalAccountsByFund_recorded stub fundId []).1 = QueryCapitalAccountsByFund stub fundId ∧
     (QueryCapitalAccountActionsByFund_recorded stub fundId []).1 = QueryCapitalAccountActionsByFund stub fundId ∧
     (QueryCapitalAccountActionsByAccountPeriod_recorded stub fundId capitalAccountId period []).1 = QueryCapitalAccountActionsByAccountPeriod stub fundId capitalAccountId period) ∧
    (∀ run ∈ lookupRuns stub key name fundId investorId capitalAccountId period,
      writesOf run.2 = []) ∧
    (∀ run ∈ lookupRuns (b.stub w) key name fundId investorId capitalAccountId period,
      b.commit w (recordedOutcome run.1 run.2) = w) ∧
    (QueryFundById (b.stub (b.commit w (recordedOutcome
        (errorOf (QueryFundById_recorded (b.stub w) key []).1)
        (QueryFundById_recorded (b.stub w) key []).2))) key
      = QueryFundById (b.stub w) key ∧
     QueryInvestorById (b.stub (b.commit w (recordedOutcome
        (errorOf (QueryInvestorById_recorded (b.stub w) key []).1)
        (QueryInvestorById_recorded (b.stub w) key []).2))) key
      = QueryInvestorById (b.stub w) key) ∧
    recordedOutcome (CreateCapitalAccount_recorded stub id fundId investorId []).1
        (CreateCapitalAccount_recorded stub id fundId investorId []).2
      = CreateCapitalAccount stub id fundId investorId := by
  have hcommit : ∀ (stub' : Stub) (run : Option String × List StubCall),
      run ∈ lookupRuns stub' key name fundId investorId capitalAccountId period →
      b.commit w (recordedOutcome run.1 run.2) = w := by
    intro stub' run h
    have hw := lookupRuns_no_write stub' key name fundId investorId capitalAccountId period
      run h
    unfold Backend.commit recordedOutcome
    simp only [hw]
    cases run.1 <;> rfl
  refine ⟨?_, lookupRuns_no_write stub key name fundId investorId capitalAccountId period,
    hcommit (b.stub w), ⟨?_, ?_⟩, ?_⟩
  · simp only [QueryFundById_recorded_eq, QueryInvestorById_recorded_eq, QueryInvestorByName_recorded_eq, QueryPortfolioByName_recorded_eq, QueryPortfolioByFund_recorded_eq, QueryFundByName_recorded_eq, QueryCapitalAccountsByInvestor_recorded_eq, QueryCapitalAccountsByFund_recorded_eq, QueryCapitalAccountActionsByFund_recorded_eq, QueryCapitalAccountActionsByAccountPeriod_recorded_eq, and_self]
  · have h := hcommit (b.stub w)
      (errorOf (QueryFundById_recorded (b.stub w) key []).1,
        (QueryFundById_recorded (b.stub w) key []).2) (by simp [lookupRuns])
    simp only [] at h
    rw [h]
  · have h := hcommit (b.stub w)
      (errorOf (QueryInvestorById_recorded (b.stub w) key []).1,
        (QueryInvestorById_recorded (b.stub w) key []).2) (by simp [lookupRuns])
    simp only [] at h
    rw [h]
  · obtain ⟨h1, h2⟩ := CreateCapitalAccount_recorded_eq stub id fundId investorId
    simp only [recordedOutcome, h1, h2]

/-! ## Key/id consistency (C20) -/

/-- C20.  If the id the contract decodes from every document of the store is
the key the document is stored under, then so it is after any of the six
mutations, successful or failed; and `CreateCapitalAccount`, which rewrites the
fund under the id read from the stored document, issues either no write or the
fund write under `fundId`, the key the fund was read from, followed by the
account write under the identifier drawn. -/
theorem mutations_keep_key_id_consistent (b : Backend) (w : World)
    (id fundId name inceptionDate investorId portfolioId type_ date : String) (period : Int)
    (cusip amount currency : String) (full : Bool)
    (hw : KeyIdConsistent w) :
    KeyIdConsistent (b.commit w (CreateFund (b.stub w) fundId name inceptionDate)) ∧
    KeyIdConsistent (b.commit w (CreateInvestor (b.stub w) id name)) ∧
    KeyIdConsistent (b.commit w (CreateCapitalAccount (b.stub w) id fundId investorId)) ∧
    KeyIdConsistent (b.commit w (CreatePortfolio (b.stub w) id fundId name)) ∧
    KeyIdConsistent (b.commit w (CreatePortfolioAction (b.stub w) id fundId portfolioId
      type_ date period name cusip amount currency)) ∧
    KeyIdConsistent (b.commit w (CreateCapitalAccountAction (b.stub w) id type_ amount full
      date period)) ∧
    ((CreateCapitalAccount (b.stub w) id fundId investorId).puts = [] ∨
      ∃ fundJson capitalAccountJson,
        (CreateCapitalAccount (b.stub w) id fundId investorId).puts =
          [(fundId, fundJson), (id, capitalAccountJson)]) := by
  refine ⟨commit_consistent b w _ hw (CreateFund_puts_id _ _ _ _),
    commit_consistent b w _ hw (CreateInvestor_puts_id _ _ _),
    commit_consistent b w _ hw (CreateCapitalAccount_puts_id _ _ _ _),
    commit_consistent b w _ hw (CreatePortfolio_puts_id _ _ _ _),
    commit_consistent b w _ hw (CreatePortfolioAction_puts_id _ _ _ _ _ _ _ _ _ _ _),
    commit_consistent b w _ hw (CreateCapitalAccountAction_puts_id _ _ _ _ _ _ _), ?_⟩
  cases hf : QueryFundById (b.stub w) fundId with
  | error e => left; simp [CreateCapitalAccount, hf]
  | ok r =>
    cases r with
    | none => left; simp [CreateCapitalAccount, hf]
    | some g =>
      have hid : g.ID = fundId := by
        unfold QueryFundById at hf
        rcases stub_GetState_cases b w fundId with h1 | ⟨e, h1⟩
        · rw [h1] at hf
          cases hget : w.get fundId with
          | none => simp [hget] at hf
          | some data =>
            simp only [hget] at hf
            cases hu : unmarshalFund Fund.zero data with
            | error e => simp [hu] at hf
            | ok g' =>
              simp only [hu, Except.ok.injEq, Option.some.injEq] at hf
              have hmem := World.mem_of_get w fundId data hget
              have hkey : decodedId data = .ok fundId := hw _ hmem
              rw [decodedId_of_unmarshalFund data g' hu] at hkey
              injection hkey with hkey
              rw [← hf]
              exact hkey
        · simp [h1] at hf
      cases hi : QueryInvestorById (b.stub w) investorId with
      | error e => left; simp [CreateCapitalAccount, hf, hi]
      | ok r' =>
        cases r' with
        | none => left; simp [CreateCapitalAccount, hf, hi]
        | some investor =>
          right
          have hp := (CreateCapitalAccount_err_eq (b.stub w) id fundId investorId g investor
            hf hi).2
          rw [hid] at hp
          exact ⟨_, _, hp⟩

/-- The consistency theorem at the sample ledger and a new capital account. -/
theorem mutations_keep_key_id_consistent_witness :
    KeyIdConsistent sampleWorld ∧
    KeyIdConsistent (quietBackend.commit sampleWorld
      (CreateCapitalAccount (quietBackend.stub sampleWorld) "acct-1" "fund-1" "inv-1")) ∧
    ((CreateCapitalAccount (quietBackend.stub sampleWorld) "acct-1" "fund-1" "inv-1").puts = [] ∨
      ∃ fundJson capitalAccountJson,
        (CreateCapitalAccount (quietBackend.stub sampleWorld) "acct-1" "fund-1" "inv-1").puts =
          [("fund-1", fundJson), ("acct-1", capitalAccountJson)]) :=
  have hw : KeyIdConsistent sampleWorld := by
    intro kv hkv
    simp only [sampleWorld, List.mem_cons, List.mem_singleton, List.not_mem_nil,
      or_false] at hkv
    rcases hkv with h | h <;> rw [h] <;> rfl
  ⟨hw,
   (mutations_keep_key_id_consistent quietBackend sampleWorld "acct-1" "fund-1" "Alpha"
      "2020-01-01" "inv-1" "pf-1" "buy" "2021-01-01" 1 "000000000" "10" "USD" false hw).2.2.1,
   (mutations_keep_key_id_consistent quietBackend sampleWorld "acct-1" "fund-1" "Alpha"
      "2020-01-01" "inv-1" "pf-1" "buy" "2021-01-01" 1 "000000000" "10" "USD" false
      hw).2.2.2.2.2.2⟩

end AdminContract
